import Mathlib

/-!
# WhatsApp webhook ingestion (wappnc)

A shallow embedding of the inbound event processor of `src/whatsapp_route.js`
(`router.post('/webhook')`, `procesarMensajeEntrante`, `procesarEstadoMensaje`)
and of the staff routes of `src/conversaciones_route.js` that write the
`conversaciones` table, followed by theorems about them.

Layout:
* `JVal`: JSON values with the JavaScript operations the handlers use
  (property read, index read, truthiness, `||`, `for ... of`, template strings);
* `Efecto`: state passing with exceptions, where a thrown error keeps the
  store changes made before it (the handlers never roll back);
* `Db`: the statements the handlers send through `db.query`, as an interface,
  so that a property can be stated for every store behaviour;
* the handlers, written once over `Db`;
* `Almacen`: a relational store with auto-increment keys and optional
  uniqueness constraints, the instance `bd` of `Db` over it.
-/

namespace Wappnc

/-! ## JSON values and the JavaScript operations used by the handlers -/

/-- A JSON value as delivered by the body parser, plus `undefined` for an absent
property. A number without a fraction is `num n`. A number with a fraction is
`dec m e`, standing for `m * 10 ^ e` with `e < 0` and `m` not a multiple of
ten: the digits and the decimal exponent of the shortest decimal that reads
back as the same Number value, which are the digits `Number::toString` prints. -/
inductive JVal where
  | undefined
  | null
  | bool (b : Bool)
  | num (n : Int)
  | dec (m e : Int)
  | str (s : String)
  | arr (xs : List JVal)
  | obj (campos : List (String × JVal))

namespace JVal

mutual
/-- Decidable equality of JSON values, by structural recursion. -/
def decEq : (a b : JVal) → Decidable (a = b)
  | undefined, undefined => isTrue rfl
  | null, null => isTrue rfl
  | bool a, bool b =>
    if h : a = b then isTrue (by rw [h]) else isFalse (by intro h2; cases h2; exact h rfl)
  | num a, num b =>
    if h : a = b then isTrue (by rw [h]) else isFalse (by intro h2; cases h2; exact h rfl)
  | dec a c, dec b d =>
    if h : a = b ∧ c = d then isTrue (by rw [h.1, h.2])
    else isFalse (by intro h2; cases h2; exact h ⟨rfl, rfl⟩)
  | str a, str b =>
    if h : a = b then isTrue (by rw [h]) else isFalse (by intro h2; cases h2; exact h rfl)
  | arr a, arr b =>
    match decEqList a b with
    | isTrue h => isTrue (by rw [h])
    | isFalse h => isFalse (by intro h2; cases h2; exact h rfl)
  | obj a, obj b =>
    match decEqCampos a b with
    | isTrue h => isTrue (by rw [h])
    | isFalse h => isFalse (by intro h2; cases h2; exact h rfl)
  | undefined, null | undefined, bool _ | undefined, num _ | undefined, dec _ _
  | undefined, str _ | undefined, arr _ | undefined, obj _ => isFalse (by intro h; cases h)
  | null, undefined | null, bool _ | null, num _ | null, dec _ _
  | null, str _ | null, arr _ | null, obj _ => isFalse (by intro h; cases h)
  | bool _, undefined | bool _, null | bool _, num _ | bool _, dec _ _
  | bool _, str _ | bool _, arr _ | bool _, obj _ => isFalse (by intro h; cases h)
  | num _, undefined | num _, null | num _, bool _ | num _, dec _ _
  | num _, str _ | num _, arr _ | num _, obj _ => isFalse (by intro h; cases h)
  | dec _ _, undefined | dec _ _, null | dec _ _, bool _ | dec _ _, num _
  | dec _ _, str _ | dec _ _, arr _ | dec _ _, obj _ => isFalse (by intro h; cases h)
  | str _, undefined | str _, null | str _, bool _ | str _, num _
  | str _, dec _ _ | str _, arr _ | str _, obj _ => isFalse (by intro h; cases h)
  | arr _, undefined | arr _, null | arr _, bool _ | arr _, num _
  | arr _, dec _ _ | arr _, str _ | arr _, obj _ => isFalse (by intro h; cases h)
  | obj _, undefined | obj _, null | obj _, bool _ | obj _, num _
  | obj _, dec _ _ | obj _, str _ | obj _, arr _ => isFalse (by intro h; cases h)
/-- Decidable equality of lists of JSON values. -/
def decEqList : (a b : List JVal) → Decidable (a = b)
  | [], [] => isTrue rfl
  | [], _ :: _ => isFalse (by intro h; cases h)
  | _ :: _, [] => isFalse (by intro h; cases h)
  | x :: xs, y :: ys =>
    match decEq x y, decEqList xs ys with
    | isTrue h1, isTrue h2 => isTrue (by rw [h1, h2])
    | isFalse h1, _ => isFalse (by intro h; cases h; exact h1 rfl)
    | _, isFalse h2 => isFalse (by intro h; cases h; exact h2 rfl)
/-- Decidable equality of the field lists of JSON objects. -/
def decEqCampos : (a b : List (String × JVal)) → Decidable (a = b)
  | [], [] => isTrue rfl
  | [], _ :: _ => isFalse (by intro h; cases h)
  | _ :: _, [] => isFalse (by intro h; cases h)
  | (k, x) :: xs, (l, y) :: ys =>
    if hk : k = l then
      match decEq x y, decEqCampos xs ys with
      | isTrue h1, isTrue h2 => isTrue (by rw [hk, h1, h2])
      | isFalse h1, _ => isFalse (by intro h; cases h; exact h1 rfl)
      | _, isFalse h2 => isFalse (by intro h; cases h; exact h2 rfl)
    else isFalse (by intro h; cases h; exact hk rfl)
end

instance : DecidableEq JVal := decEq

instance : Inhabited JVal := ⟨undefined⟩

/-- Field lookup in an object: the first binding of the key, `undefined` when absent. -/
def buscar : List (String × JVal) → String → JVal
  | [], _ => undefined
  | (k, v) :: resto, clave => if k = clave then v else buscar resto clave

/-- Property read `v.k`. Reading a property of `undefined` or `null` throws a
TypeError; an object yields the field or `undefined`; every other value yields
`undefined` (none of the keys read by the handlers exists on the prototypes of
strings, numbers, booleans or arrays). -/
def prop (v : JVal) (k : String) : Except String JVal :=
  match v with
  | undefined => .error ("TypeError: Cannot read properties of undefined, reading " ++ k)
  | null => .error ("TypeError: Cannot read properties of null, reading " ++ k)
  | obj campos => .ok (buscar campos k)
  | _ => .ok undefined

/-- Index read `v[i]`. -/
def indice (v : JVal) (i : Nat) : Except String JVal :=
  match v with
  | undefined => .error "TypeError: Cannot read properties of undefined"
  | null => .error "TypeError: Cannot read properties of null"
  | arr xs => .ok (xs.getD i undefined)
  | str s => .ok (match s.toList.get? i with
      | some c => str (String.singleton c)
      | none => undefined)
  | obj campos => .ok (buscar campos (toString i))
  | _ => .ok undefined

/-- JavaScript truthiness. -/
def esVerdadero : JVal → Bool
  | undefined => false
  | null => false
  | bool b => b
  | num n => decide (n ≠ 0)
  | dec m _ => decide (m ≠ 0)
  | str s => decide (s ≠ "")
  | arr _ => true
  | obj _ => true

/-- The operator `a || b`. -/
def o (a b : JVal) : JVal := if a.esVerdadero then a else b

/-- The values visited by `for (const x of v)`: the elements of an array, the
characters of a string; any other value is not iterable and throws. -/
def iterar : JVal → Except String (List JVal)
  | arr xs => .ok xs
  | str s => .ok (s.toList.map fun c => str (String.singleton c))
  | _ => .error "TypeError: value is not iterable"

/-- Whether an object has an own property with the given key. -/
def tienePropia : List (String × JVal) → String → Bool
  | [], _ => false
  | (k, _) :: resto, clave => k == clave || tienePropia resto clave

/-- Digits without the zeros at their end. -/
def sinCerosFinales (digitos : List Char) : List Char :=
  (digitos.reverse.dropWhile fun c => c.toNat == 48).reverse

/-- The integer whose digits `Number::toString` prints for the Number value
`N`: the multiple of a power of ten with the fewest significant digits that
rounds to `N` (to nearest, ties to even), the closest to `N` among those. With
binary exponent `e`, the next Number value above `N` is `2^(e-52)` away, and
the one below a power of two half as far. -/
def masCorto (N : Nat) : Nat :=
  let e := Nat.log2 N
  let ulp := 2 ^ (e - 52)
  let par := (N / ulp) % 2 == 0
  let bajo := if N == 2 ^ e then N - ulp / 4 else N - ulp / 2
  let alto := N + ulp / 2
  let dentro := fun v : Nat => if par then bajo ≤ v && v ≤ alto else bajo < v && v < alto
  let nd := (Nat.toDigits 10 N).length
  let candidato := fun k : Nat =>
    let p := 10 ^ (nd - k)
    let a := (N / p) * p
    let b := a + p
    if dentro a && dentro b then
      (if N - a < b - N then some a
       else if b - N < N - a then some b
       else if (a / p) % 2 == 0 then some a else some b)
    else if dentro a then some a
    else if dentro b then some b
    else none
  ((List.range 17).findSome? fun i => candidato (i + 1)).getD N

/-- The text of `Number::toString` for the (finite) Number value of an integer:
the decimal digits below 2^53; above, the shortest digits that identify the
value, followed by zeros up to 21 digits and in exponent form beyond. -/
def numeroACadena (n : Int) : String :=
  if n.natAbs < 2 ^ 53 then toString n
  else
    let v := masCorto n.natAbs
    let signo := if n < 0 then "-" else ""
    if v < 10 ^ 21 then signo ++ toString v
    else
      let todos := Nat.toDigits 10 v
      let exponente := toString (todos.length - 1)
      match sinCerosFinales todos with
      | [] => signo ++ "0"
      | [d] => signo ++ String.singleton d ++ "e+" ++ exponente
      | d :: resto =>
        signo ++ String.singleton d ++ "." ++ String.mk resto ++ "e+" ++ exponente

/-- The text of `Number::toString` for the Number value whose shortest digits
are those of `m`, times `10 ^ e`. With `k` digits and `n = k + e`: the digits
followed by zeros when `k ≤ n ≤ 21`, the digits with a point after the first
`n` when `0 < n ≤ 21`, `0.` and `-n` zeros before the digits when
`-6 < n ≤ 0`, and the exponent form with exponent `n - 1` otherwise. -/
def decimalACadena (m e : Int) : String :=
  let digitos := (toString m.natAbs).toList
  let k : Int := digitos.length
  let n : Int := k + e
  let ceros := fun c : Nat => String.join (List.replicate c "0")
  let signo := if m < 0 then "-" else ""
  if k ≤ n ∧ n ≤ 21 then signo ++ String.mk digitos ++ ceros (n - k).toNat
  else if 0 < n ∧ n ≤ 21 then
    signo ++ String.mk (digitos.take n.toNat) ++ "." ++ String.mk (digitos.drop n.toNat)
  else if -6 < n ∧ n ≤ 0 then signo ++ "0." ++ ceros (-n).toNat ++ String.mk digitos
  else
    let exponente := (if n - 1 < 0 then "e-" else "e+") ++ toString (n - 1).natAbs
    match digitos with
    | [] => signo ++ "0"
    | [d] => signo ++ String.singleton d ++ exponente
    | d :: resto => signo ++ String.singleton d ++ "." ++ String.mk resto ++ exponente

mutual
/-- String conversion as done by a template literal (`ToString`). An object
prints through `Object.prototype.toString` unless it has an own property
`toString`, which in a parsed JSON value is never callable: then neither
`toString` nor `valueOf` yields a primitive and the conversion throws. An
array prints its elements joined by commas. -/
def aCadena : JVal → Except String String
  | undefined => .ok "undefined"
  | null => .ok "null"
  | bool b => .ok (if b then "true" else "false")
  | num n => .ok (numeroACadena n)
  | dec m e => .ok (decimalACadena m e)
  | str s => .ok s
  | arr xs =>
    match aCadenaLista xs with
    | .ok partes => .ok (String.intercalate "," partes)
    | .error e => .error e
  | obj campos =>
    if tienePropia campos "toString" then
      .error "TypeError: Cannot convert object to primitive value"
    else .ok "[object Object]"
/-- String conversion of the elements of an array (`null` and `undefined` give
the empty string). -/
def aCadenaLista : List JVal → Except String (List String)
  | [] => .ok []
  | undefined :: r =>
    match aCadenaLista r with
    | .ok b => .ok ("" :: b)
    | .error e => .error e
  | null :: r =>
    match aCadenaLista r with
    | .ok b => .ok ("" :: b)
    | .error e => .error e
  | x :: r =>
    match aCadena x with
    | .error e => .error e
    | .ok a =>
      match aCadenaLista r with
      | .ok b => .ok (a :: b)
      | .error e => .error e
end

/-- Whether a template literal can print the value. -/
def imprimible (v : JVal) : Bool :=
  match v.aCadena with
  | .ok _ => true
  | .error _ => false

/-- Whether a value may be bound as a statement parameter: `execute` throws on
`undefined`. -/
def definido : JVal → Bool
  | undefined => false
  | _ => true

end JVal

/-! ## Effects: state passing with exceptions -/

/-- A computation over a store of type `σ` that returns a value or throws; in
both cases the store reached so far is kept. -/
def Efecto (σ α : Type) : Type := σ → Except String α × σ

namespace Efecto

variable {σ α β : Type}

/-- Return a value without touching the store. -/
def puro (a : α) : Efecto σ α := fun s => (.ok a, s)

/-- Sequencing: an exception in the first computation skips the second. -/
def ligar (m : Efecto σ α) (f : α → Efecto σ β) : Efecto σ β := fun s =>
  match m s with
  | (.ok a, s1) => f a s1
  | (.error e, s1) => (.error e, s1)

instance : Monad (Efecto σ) where
  pure := puro
  bind := ligar

/-- Lift a pure computation that may throw. -/
def deExcept (x : Except String α) : Efecto σ α := fun s => (x, s)

/-- The block `try ... catch (error)` whose handler only logs: the exception
is swallowed, the store changes made before it stay. -/
def atrapar (m : Efecto σ Unit) : Efecto σ Unit := fun s =>
  match m s with
  | (.ok _, s1) => (.ok (), s1)
  | (.error _, s1) => (.ok (), s1)

/-- The loop `for (const x of xs)` with an effectful body. -/
def paraCada (xs : List α) (f : α → Efecto σ Unit) : Efecto σ Unit :=
  match xs with
  | [] => puro ()
  | x :: resto => ligar (f x) (fun _ => paraCada resto f)

end Efecto

/-! ## The statements sent to the store -/

/-- The bind parameters of `INSERT INTO mensajes (...)` in
`procesarMensajeEntrante`, in the order of the statement. -/
structure MensajeNuevo where
  conversacion_id : Nat
  whatsapp_message_id : JVal
  tipo_mensaje : JVal
  remitente_numero : JVal
  contenido : JVal
  archivo_url : JVal
  archivo_nombre : JVal
  archivo_tipo : JVal
  archivo_tamano : JVal
  metadata : JVal
deriving DecidableEq

/-- Whether every bind value of the message insert is defined. -/
def MensajeNuevo.definido (m : MensajeNuevo) : Bool :=
  m.whatsapp_message_id.definido && m.tipo_mensaje.definido && m.remitente_numero.definido &&
  m.contenido.definido && m.archivo_url.definido && m.archivo_nombre.definido &&
  m.archivo_tipo.definido && m.archivo_tamano.definido && m.metadata.definido

/-- The statements that `src/whatsapp_route.js` sends through `db.query`, one
field per statement. Each may succeed or throw, and may change the store in
either case. A `SELECT id` returns the `id` column of its rows; an `INSERT`
returns `insertId`. -/
structure Db (σ : Type) where
  /-- The query `SELECT id FROM contactos WHERE numero_whatsapp = ?`. -/
  selectContacto : JVal → Efecto σ (List Nat)
  /-- The insert into `contactos` with type prospecto and interaction time NOW(). -/
  insertContacto : JVal → JVal → Efecto σ Nat
  /-- The update `UPDATE contactos SET fecha_ultima_interaccion = NOW() WHERE id = ?`. -/
  updateContacto : Nat → Efecto σ Unit
  /-- The query for the most recently active conversation of a contact whose
  estado is not cerrado (`ORDER BY fecha_ultima_actividad DESC LIMIT 1`). -/
  selectConversacion : Nat → Efecto σ (List Nat)
  /-- The insert into `conversaciones` with estado nuevo and activity time NOW(). -/
  insertConversacion : Nat → String → Efecto σ Nat
  /-- The update `UPDATE conversaciones SET fecha_ultima_actividad = NOW() WHERE id = ?`. -/
  updateConversacion : Nat → Efecto σ Unit
  /-- The insert into `mensajes` with direccion entrante. -/
  insertMensaje : MensajeNuevo → Efecto σ Unit
  /-- The update `UPDATE mensajes SET <updateField> WHERE whatsapp_message_id = ?`. -/
  updateMensajes : String → JVal → Efecto σ Unit

/-! ## The handlers of `src/whatsapp_route.js` -/

/-- The local variables of `procesarMensajeEntrante` after its `switch`
(lines 54-93). -/
structure Extraido where
  numeroRemitente : JVal
  tipoMensaje : JVal
  contenido : JVal
  archivoUrl : JVal
  archivoNombre : JVal
  archivoTipo : JVal
  archivoTamano : JVal
deriving DecidableEq

/-- Content extraction, lines 54-93 of `procesarMensajeEntrante`: the reads of
`message.from` and `message.type` and the `switch` on the type. -/
def extraerContenido (message : JVal) : Except String Extraido := do
  let numeroRemitente ← message.prop "from"
  let tipoMensaje ← message.prop "type"
  let base : Extraido :=
    { numeroRemitente := numeroRemitente, tipoMensaje := tipoMensaje,
      contenido := .str "", archivoUrl := .null, archivoNombre := .null,
      archivoTipo := .null, archivoTamano := .null }
  if tipoMensaje = .str "text" then do
    let text ← message.prop "text"
    let body ← text.prop "body"
    pure { base with contenido := body }
  else if tipoMensaje = .str "image" then do
    let image ← message.prop "image"
    let caption ← image.prop "caption"
    let id ← image.prop "id"
    let mime ← image.prop "mime_type"
    pure { base with contenido := caption.o (.str "Imagen"), archivoUrl := id,
                     archivoTipo := mime }
  else if tipoMensaje = .str "document" then do
    let document ← message.prop "document"
    let caption ← document.prop "caption"
    let filename ← document.prop "filename"
    let id ← document.prop "id"
    let mime ← document.prop "mime_type"
    pure { base with contenido := (caption.o filename).o (.str "Documento"),
                     archivoUrl := id, archivoNombre := filename, archivoTipo := mime }
  else if tipoMensaje = .str "audio" then do
    let audio ← message.prop "audio"
    let id ← audio.prop "id"
    let mime ← audio.prop "mime_type"
    pure { base with contenido := .str "Mensaje de audio", archivoUrl := id,
                     archivoTipo := mime }
  else if tipoMensaje = .str "video" then do
    let video ← message.prop "video"
    let caption ← video.prop "caption"
    let id ← video.prop "id"
    let mime ← video.prop "mime_type"
    pure { base with contenido := caption.o (.str "Video"), archivoUrl := id,
                     archivoTipo := mime }
  else if tipoMensaje = .str "location" then do
    let location ← message.prop "location"
    let latitude ← location.prop "latitude"
    let latitud ← latitude.aCadena
    let longitude ← location.prop "longitude"
    let longitud ← longitude.aCadena
    pure { base with contenido := .str ("Ubicación: " ++ latitud ++ ", " ++ longitud) }
  else do
    let tipo ← tipoMensaje.aCadena
    pure { base with contenido := .str ("Mensaje de tipo: " ++ tipo) }

/-- The display name of a new contact, line 104:
`contacts && contacts[0] ? contacts[0].profile.name : numeroRemitente`. -/
def nombreContacto (contacts numeroRemitente : JVal) : Except String JVal :=
  if contacts.esVerdadero then do
    let primero ← contacts.indice 0
    if primero.esVerdadero then do
      let profile ← primero.prop "profile"
      profile.prop "name"
    else pure numeroRemitente
  else pure numeroRemitente

/-- Contact resolution, lines 95-121: look the sender up, create the contact
when the lookup is empty, else refresh its last interaction. -/
def resolverContacto {σ : Type} (db : Db σ) (contacts numeroRemitente : JVal) :
    Efecto σ Nat := do
  let contacto ← db.selectContacto numeroRemitente
  match contacto with
  | [] => do
    let nombre ← Efecto.deExcept (nombreContacto contacts numeroRemitente)
    db.insertContacto numeroRemitente nombre
  | id :: _ => do
    db.updateContacto id
    pure id

/-- Conversation resolution, lines 123-149: take the conversation returned by
the lookup, or create one when the lookup is empty. -/
def resolverConversacion {σ : Type} (db : Db σ) (contactoId : Nat) (numeroRemitente : JVal) :
    Efecto σ Nat := do
  let conversacion ← db.selectConversacion contactoId
  match conversacion with
  | [] => do
    let numero ← Efecto.deExcept numeroRemitente.aCadena
    db.insertConversacion contactoId ("Conversación con " ++ numero)
  | id :: _ => do
    db.updateConversacion id
    pure id

/-- The body of the `try` block of `procesarMensajeEntrante` (lines 54-164).
The metadata parameter `JSON.stringify(message)` is kept as the event itself. -/
def procesarMensajeEntranteCuerpo {σ : Type} (db : Db σ) (message contacts : JVal) :
    Efecto σ Unit := do
  let x ← Efecto.deExcept (extraerContenido message)
  let contactoId ← resolverContacto db contacts x.numeroRemitente
  let conversacionId ← resolverConversacion db contactoId x.numeroRemitente
  let messageId ← Efecto.deExcept (message.prop "id")
  db.insertMensaje
    { conversacion_id := conversacionId, whatsapp_message_id := messageId,
      tipo_mensaje := x.tipoMensaje, remitente_numero := x.numeroRemitente,
      contenido := x.contenido, archivo_url := x.archivoUrl,
      archivo_nombre := x.archivoNombre, archivo_tipo := x.archivoTipo,
      archivo_tamano := x.archivoTamano, metadata := message }

/-- The function `procesarMensajeEntrante(message, contacts)`, lines 52-169:
the body inside `try`, every exception caught and logged. -/
def procesarMensajeEntrante {σ : Type} (db : Db σ) (message contacts : JVal) : Efecto σ Unit :=
  Efecto.atrapar (procesarMensajeEntranteCuerpo db message contacts)

/-- The `switch (estado)` of `procesarEstadoMensaje`, lines 177-188: the SET
clause of the update, the empty string when the status has no effect. -/
def updateField (estado : JVal) : String :=
  if estado = .str "delivered" then "fecha_entrega = NOW()"
  else if estado = .str "read" then "fecha_lectura = NOW()"
  else if estado = .str "failed" then "fecha_entrega = NULL, fecha_lectura = NULL"
  else ""

/-- The body of the `try` block of `procesarEstadoMensaje` (lines 174-195). -/
def procesarEstadoMensajeCuerpo {σ : Type} (db : Db σ) (status : JVal) : Efecto σ Unit := do
  let messageId ← Efecto.deExcept (status.prop "id")
  let estado ← Efecto.deExcept (status.prop "status")
  if updateField estado ≠ "" then
    db.updateMensajes (updateField estado) messageId
  else pure ()

/-- The function `procesarEstadoMensaje(status)`, lines 172-200. -/
def procesarEstadoMensaje {σ : Type} (db : Db σ) (status : JVal) : Efecto σ Unit :=
  Efecto.atrapar (procesarEstadoMensajeCuerpo db status)

/-- The block "Procesar mensajes recibidos", lines 25-30: the loop over
`value.messages` when it is truthy. -/
def procesarMensajes {σ : Type} (db : Db σ) (value : JVal) : Efecto σ Unit := do
  let messages ← Efecto.deExcept (value.prop "messages")
  if messages.esVerdadero then do
    let lista ← Efecto.deExcept messages.iterar
    Efecto.paraCada lista fun message => do
      let contacts ← Efecto.deExcept (value.prop "contacts")
      procesarMensajeEntrante db message contacts
  else pure ()

/-- The block "Procesar estados de mensajes", lines 32-37: the loop over
`value.statuses` when it is truthy. -/
def procesarEstados {σ : Type} (db : Db σ) (value : JVal) : Efecto σ Unit := do
  let statuses ← Efecto.deExcept (value.prop "statuses")
  if statuses.esVerdadero then do
    let lista ← Efecto.deExcept statuses.iterar
    Efecto.paraCada lista fun status => procesarEstadoMensaje db status
  else pure ()

/-- The body of the loop over `changes`, lines 22-38: for a change of field
`messages`, first the messages of its value, then its statuses. -/
def procesarChange {σ : Type} (db : Db σ) (change : JVal) : Efecto σ Unit := do
  let field ← Efecto.deExcept (change.prop "field")
  if field = .str "messages" then do
    let value ← Efecto.deExcept (change.prop "value")
    procesarMensajes db value
    procesarEstados db value
  else pure ()

/-- The body of the loop over `entries`, lines 19-39. -/
def procesarEntry {σ : Type} (db : Db σ) (entry : JVal) : Efecto σ Unit := do
  let changes ← Efecto.deExcept (entry.prop "changes")
  let lista ← Efecto.deExcept (changes.o (.arr [])).iterar
  Efecto.paraCada lista (procesarChange db)

/-- The body of the `try` block of `router.post('/webhook')`, lines 12-41. -/
def postWebhookCuerpo {σ : Type} (db : Db σ) (body : JVal) : Efecto σ Unit := do
  let object ← Efecto.deExcept (body.prop "object")
  if object = .str "whatsapp_business_account" then do
    let entry ← Efecto.deExcept (body.prop "entry")
    let entries ← Efecto.deExcept (entry.o (.arr [])).iterar
    Efecto.paraCada entries (procesarEntry db)
  else pure ()

/-- An HTTP response: status code and body. -/
structure Respuesta where
  status : Nat
  cuerpo : String
deriving DecidableEq

/-- The handler `router.post('/webhook')`, lines 10-49: 200 `OK` when the body
of the `try` completes, 500 `Error` when it throws. -/
def postWebhook {σ : Type} (db : Db σ) (body : JVal) (s : σ) : Respuesta × σ :=
  match postWebhookCuerpo db body s with
  | (.ok _, s1) => ({ status := 200, cuerpo := "OK" }, s1)
  | (.error _, s1) => ({ status := 500, cuerpo := "Error" }, s1)

/-! ## Well-formed events (the request shape of the external interface) -/

namespace JVal

/-- Whether a value is a string. -/
def esCadena : JVal → Bool
  | str _ => true
  | _ => false

/-- Whether a value is an object. -/
def esObjeto : JVal → Bool
  | obj _ => true
  | _ => false

/-- The field of an object, `undefined` for an absent field or a non-object. -/
def campo (v : JVal) (k : String) : JVal :=
  match v with
  | obj campos => buscar campos k
  | _ => undefined

end JVal

/-- A media payload: an object with a string `id` and a string `mime_type`
(caption and filename are optional). -/
def medioBienFormado (p : JVal) : Bool :=
  p.esObjeto && (p.campo "id").esCadena && (p.campo "mime_type").esCadena

/-- A well-formed `MessageEvent`: an object with string `id`, `from` and `type`
and the payload of its type: a text body, a media reference with its mime
type, or a location object whose coordinates can be printed; any other type
needs no payload. -/
def eventoBienFormado (message : JVal) : Bool :=
  message.esObjeto && (message.campo "id").esCadena && (message.campo "from").esCadena &&
  (message.campo "type").esCadena &&
  (if message.campo "type" = .str "text" then
     ((message.campo "text").campo "body").esCadena
   else if message.campo "type" = .str "image" then medioBienFormado (message.campo "image")
   else if message.campo "type" = .str "document" then
     medioBienFormado (message.campo "document")
   else if message.campo "type" = .str "audio" then medioBienFormado (message.campo "audio")
   else if message.campo "type" = .str "video" then medioBienFormado (message.campo "video")
   else if message.campo "type" = .str "location" then
     (message.campo "location").esObjeto &&
     ((message.campo "location").campo "latitude").imprimible &&
     ((message.campo "location").campo "longitude").imprimible
   else true)

/-- A well-formed contact hint: absent, an empty list, or a list whose first
entry carries `profile.name` as a string. -/
def contactsBienFormado (contacts : JVal) : Bool :=
  match contacts with
  | .undefined => true
  | .arr [] => true
  | .arr (primero :: _) => ((primero.campo "profile").campo "name").esCadena
  | _ => false

/-- A well-formed event all of whose insert parameters are defined: a document
carries its filename (the one parameter a well-formed event can leave
`undefined`). -/
def eventoCompleto (message : JVal) : Bool :=
  eventoBienFormado message &&
  (decide (message.campo "type" ≠ .str "document") ||
    ((message.campo "document").campo "filename").definido)

/-! ## The relational store -/

/-- The part of the table definitions that is not in the repository: which
uniqueness constraints the store enforces and the column default of
`conversaciones.estado`. -/
structure Esquema where
  /-- A UNIQUE constraint on `contactos.numero_whatsapp`. -/
  numeroUnico : Bool
  /-- A UNIQUE constraint on `mensajes.whatsapp_message_id`. -/
  mensajeIdUnico : Bool
  /-- The default of `conversaciones.estado`, used by inserts that omit the column. -/
  estadoPorDefecto : String
  /-- Whether `conversaciones.fecha_ultima_actividad` defaults to the current
  time (else to NULL) in inserts that omit the column. -/
  actividadPorDefecto : Bool
deriving DecidableEq

/-- A row of `contactos` (the columns written by the webhook). -/
structure Contacto where
  id : Nat
  numero_whatsapp : JVal
  nombre : JVal
  tipo_contacto : JVal
  fecha_ultima_interaccion : Option Nat
  activo : Bool
deriving DecidableEq

/-- A row of `conversaciones`. -/
structure Conversacion where
  id : Nat
  contacto_id : Nat
  estado : String
  titulo : JVal
  fecha_ultima_actividad : Option Nat
  asunto_id : JVal
  equipo_asignado_id : JVal
  usuario_asignado_id : JVal
  prioridad : JVal
  descripcion : JVal
  notas_internas : JVal
  satisfaccion_cliente : JVal
  asignado_por_usuario_id : JVal
  fecha_cierre : Option Nat
deriving DecidableEq

/-- A row of `mensajes`. -/
structure Mensaje where
  id : Nat
  conversacion_id : Nat
  whatsapp_message_id : JVal
  tipo_mensaje : JVal
  direccion : String
  remitente_numero : JVal
  contenido : JVal
  archivo_url : JVal
  archivo_nombre : JVal
  archivo_tipo : JVal
  archivo_tamano : JVal
  metadata : JVal
  fecha_entrega : Option Nat
  fecha_lectura : Option Nat
  leido : Bool
deriving DecidableEq

/-- A row of one of the catalogue tables `asuntos`, `equipos`, `usuarios`, as
far as the conversation routes read them. -/
structure Catalogo where
  id : Nat
  activo : Bool
deriving DecidableEq

/-- The store: the tables, their auto-increment counters and the clock read by
`NOW()`. -/
structure Almacen where
  contactos : List Contacto
  conversaciones : List Conversacion
  mensajes : List Mensaje
  asuntos : List Catalogo
  equipos : List Catalogo
  usuarios : List Catalogo
  sigContacto : Nat
  sigConversacion : Nat
  sigMensaje : Nat
  ahora : Nat
deriving DecidableEq

namespace Almacen

/-- The empty store at time 0, keys starting at 1. -/
def vacio : Almacen :=
  { contactos := [], conversaciones := [], mensajes := [], asuntos := [], equipos := [],
    usuarios := [], sigContacto := 1, sigConversacion := 1, sigMensaje := 1, ahora := 0 }

/-- The SQL comparison `columna = ?` on text and number values: never true
when a side is NULL, exact on strings and on numbers. -/
def sqlEq : JVal → JVal → Bool
  | .str a, .str b => decide (a = b)
  | .num a, .num b => decide (a = b)
  | .dec a c, .dec b d => decide (a = b ∧ c = d)
  | _, _ => false

/-- The order of `ORDER BY fecha_ultima_actividad DESC`: NULL sorts below
every time. -/
def anterior : Option Nat → Option Nat → Bool
  | none, some _ => true
  | some a, some b => decide (a < b)
  | _, none => false

/-- The first row of `ORDER BY fecha_ultima_actividad DESC`: a row of greatest
activity time, the earliest such row of the table on a tie. -/
def masReciente : List Conversacion → Option Conversacion
  | [] => none
  | c :: resto =>
    match masReciente resto with
    | none => some c
    | some d => if anterior c.fecha_ultima_actividad d.fecha_ultima_actividad then some d
                else some c

/-- The rows a conversation lookup ranges over: the conversations of a contact
whose estado is not cerrado. -/
def abiertasDe (s : Almacen) (contactoId : Nat) : List Conversacion :=
  s.conversaciones.filter fun c => decide (c.contacto_id = contactoId ∧ c.estado ≠ "cerrado")

/-- The rows of `mensajes` with a given external id. -/
def mensajesCon (s : Almacen) (wamid : JVal) : List Mensaje :=
  s.mensajes.filter fun m => sqlEq m.whatsapp_message_id wamid

/-- The rows of `contactos` with a given number. -/
def contactosCon (s : Almacen) (numero : JVal) : List Contacto :=
  s.contactos.filter fun k => sqlEq k.numero_whatsapp numero

/-- The row created by the contact insert of `procesarMensajeEntrante`; the
omitted column `activo` takes the default 1. -/
def contactoNuevo (s : Almacen) (numero nombre : JVal) : Contacto :=
  { id := s.sigContacto, numero_whatsapp := numero, nombre := nombre,
    tipo_contacto := .str "prospecto", fecha_ultima_interaccion := some s.ahora,
    activo := true }

/-- The row created by the conversation insert of `procesarMensajeEntrante`. -/
def conversacionNueva (s : Almacen) (contactoId : Nat) (titulo : String) : Conversacion :=
  { id := s.sigConversacion, contacto_id := contactoId, estado := "nuevo",
    titulo := .str titulo, fecha_ultima_actividad := some s.ahora,
    asunto_id := .null, equipo_asignado_id := .null, usuario_asignado_id := .null,
    prioridad := .null, descripcion := .null, notas_internas := .null,
    satisfaccion_cliente := .null, asignado_por_usuario_id := .null, fecha_cierre := none }

/-- The row created by the message insert of `procesarMensajeEntrante`. -/
def mensajeNuevo (s : Almacen) (m : MensajeNuevo) : Mensaje :=
  { id := s.sigMensaje, conversacion_id := m.conversacion_id,
    whatsapp_message_id := m.whatsapp_message_id, tipo_mensaje := m.tipo_mensaje,
    direccion := "entrante", remitente_numero := m.remitente_numero,
    contenido := m.contenido, archivo_url := m.archivo_url,
    archivo_nombre := m.archivo_nombre, archivo_tipo := m.archivo_tipo,
    archivo_tamano := m.archivo_tamano, metadata := m.metadata,
    fecha_entrega := none, fecha_lectura := none, leido := false }

/-- The update `SET fecha_ultima_interaccion = NOW() WHERE id = ?` on one row. -/
def tocarContacto (id ahora : Nat) (k : Contacto) : Contacto :=
  if k.id = id then { k with fecha_ultima_interaccion := some ahora } else k

/-- The update `SET fecha_ultima_actividad = NOW() WHERE id = ?` on one row. -/
def tocarConversacion (id ahora : Nat) (c : Conversacion) : Conversacion :=
  if c.id = id then { c with fecha_ultima_actividad := some ahora } else c

/-- The effect of the SET clause built by `procesarEstadoMensaje` on one row;
`none` for a clause the store cannot parse. -/
def aplicarCampo (campo : String) (ahora : Nat) (m : Mensaje) : Option Mensaje :=
  if campo = "fecha_entrega = NOW()" then some { m with fecha_entrega := some ahora }
  else if campo = "fecha_lectura = NOW()" then some { m with fecha_lectura := some ahora }
  else if campo = "fecha_entrega = NULL, fecha_lectura = NULL" then
    some { m with fecha_entrega := none, fecha_lectura := none }
  else none

/-- The update `UPDATE mensajes SET <campo> WHERE whatsapp_message_id = ?` on
one row. -/
def marcar (campo : String) (wamid : JVal) (ahora : Nat) (m : Mensaje) : Mensaje :=
  if sqlEq m.whatsapp_message_id wamid then (aplicarCampo campo ahora m).getD m else m

/-- Whether the store can parse a SET clause. -/
def campoValido (campo : String) : Bool :=
  decide (campo = "fecha_entrega = NOW()" ∨ campo = "fecha_lectura = NOW()" ∨
    campo = "fecha_entrega = NULL, fecha_lectura = NULL")

/-- The error of `connection.execute` (`src/database_config_updated.js`, line
68) for a bind value `undefined`, thrown before the statement is sent. -/
def sinDefinir : String :=
  "TypeError: Bind parameters must not contain undefined. To pass SQL NULL specify JS null"

/-- The store behind `db.query` for the statements of the webhook. `db.query`
runs `connection.execute`, which throws when a bind value is `undefined`,
before the statement reaches the store. A statement that is sent fails only on
an enforced uniqueness constraint (or a SET clause that does not parse), and a
failed statement leaves the store as it was. Every other bind value is stored
as given. A column that an INSERT omits is NULL, except `activo` (1), `leido`
(0) and the columns whose default is a field of `Esquema`. -/
def bd (esq : Esquema) : Db Almacen where
  selectContacto numero := fun s =>
    if !numero.definido then (.error sinDefinir, s)
    else (.ok ((s.contactosCon numero).map (·.id)), s)
  insertContacto numero nombre := fun s =>
    if !(numero.definido && nombre.definido) then (.error sinDefinir, s)
    else if esq.numeroUnico && (s.contactosCon numero).length ≠ 0 then
      (.error "ER_DUP_ENTRY: contactos.numero_whatsapp", s)
    else
      (.ok s.sigContacto,
        { s with contactos := s.contactos ++ [s.contactoNuevo numero nombre],
                 sigContacto := s.sigContacto + 1 })
  updateContacto id := fun s =>
    (.ok (), { s with contactos := s.contactos.map (tocarContacto id s.ahora) })
  selectConversacion contactoId := fun s =>
    (.ok ((masReciente (s.abiertasDe contactoId)).toList.map (·.id)), s)
  insertConversacion contactoId titulo := fun s =>
    (.ok s.sigConversacion,
      { s with conversaciones := s.conversaciones ++ [s.conversacionNueva contactoId titulo],
               sigConversacion := s.sigConversacion + 1 })
  updateConversacion id := fun s =>
    (.ok (), { s with conversaciones := s.conversaciones.map (tocarConversacion id s.ahora) })
  insertMensaje m := fun s =>
    if !m.definido then (.error sinDefinir, s)
    else if esq.mensajeIdUnico && (s.mensajesCon m.whatsapp_message_id).length ≠ 0 then
      (.error "ER_DUP_ENTRY: mensajes.whatsapp_message_id", s)
    else
      (.ok (), { s with mensajes := s.mensajes ++ [s.mensajeNuevo m],
                        sigMensaje := s.sigMensaje + 1 })
  updateMensajes campo wamid := fun s =>
    if !wamid.definido then (.error sinDefinir, s)
    else if campoValido campo then
      (.ok (), { s with mensajes := s.mensajes.map (marcar campo wamid s.ahora) })
    else (.error "ER_PARSE_ERROR", s)

end Almacen

/-! ## Invariants and observations used by the theorems -/

/-- An effect preserves a property of the store, whether it returns or throws. -/
def Efecto.Preserva {σ α : Type} (P : σ → Prop) (m : Efecto σ α) : Prop :=
  ∀ s, P s → P (m s).2

/-- The single-open-conversation invariant: for every contact key, at most one
conversation of that contact has an estado other than cerrado. -/
def Almacen.unaAbiertaPorContacto (s : Almacen) : Prop :=
  ∀ contactoId, (s.abiertasDe contactoId).length ≤ 1

/-- Key integrity of the store: every key in use is below its auto-increment
counter, and every foreign key is a key already issued. -/
def Almacen.Coherente (s : Almacen) : Prop :=
  (∀ k ∈ s.contactos, k.id < s.sigContacto) ∧
  (∀ c ∈ s.conversaciones, c.id < s.sigConversacion ∧ c.contacto_id < s.sigContacto) ∧
  (∀ m ∈ s.mensajes, m.id < s.sigMensaje ∧ m.conversacion_id < s.sigConversacion)

instance (s : Almacen) : Decidable s.Coherente := by
  unfold Almacen.Coherente
  infer_instance

/-- The bind parameters of the message insert for an extracted event. -/
def parametros (message : JVal) (x : Extraido) (conversacionId : Nat) : MensajeNuevo :=
  { conversacion_id := conversacionId, whatsapp_message_id := message.campo "id",
    tipo_mensaje := x.tipoMensaje, remitente_numero := x.numeroRemitente,
    contenido := x.contenido, archivo_url := x.archivoUrl,
    archivo_nombre := x.archivoNombre, archivo_tipo := x.archivoTipo,
    archivo_tamano := x.archivoTamano, metadata := message }

/-- The store with its clock set to `t`: time passing between two calls. -/
def Almacen.conReloj (s : Almacen) (t : Nat) : Almacen := { s with ahora := t }

/-- The store after `procesarMensajeEntrante` on the relational store. -/
def recibir (esq : Esquema) (message contacts : JVal) (s : Almacen) : Almacen :=
  (procesarMensajeEntrante (Almacen.bd esq) message contacts s).2

/-- The store after `procesarEstadoMensaje` on the relational store. -/
def recibirEstado (esq : Esquema) (status : JVal) (s : Almacen) : Almacen :=
  (procesarEstadoMensaje (Almacen.bd esq) status s).2

/-! ## Request bodies the webhook can traverse -/

/-- Whether a computation returned rather than threw. -/
def esOk {α : Type} : Except String α → Bool
  | .ok _ => true
  | .error _ => false

namespace JVal

/-- Neither `undefined` nor `null`: a value whose properties can be read. -/
def noNulo : JVal → Bool
  | undefined => false
  | null => false
  | _ => true

/-- A value a `for ... of` loop accepts: an array or a string. -/
def iterable : JVal → Bool
  | arr _ => true
  | str _ => true
  | _ => false

/-- The values a `for ... of` loop visits, none for a value that is not iterable. -/
def elementos : JVal → List JVal
  | arr xs => xs
  | str s => s.toList.map fun c => str (String.singleton c)
  | _ => []

end JVal

/-- A `value` the handler can traverse: not null, and its `messages` and
`statuses` fields each falsy or iterable. -/
def valueRecorrible (value : JVal) : Bool :=
  value.noNulo &&
  (!(value.campo "messages").esVerdadero || (value.campo "messages").iterable) &&
  (!(value.campo "statuses").esVerdadero || (value.campo "statuses").iterable)

/-- A change the handler can traverse: not null, and with a traversable
`value` when its field is `messages`. -/
def changeRecorrible (change : JVal) : Bool :=
  change.noNulo &&
  (!decide (change.campo "field" = .str "messages") || valueRecorrible (change.campo "value"))

/-- An entry the handler can traverse: not null, its `changes` falsy or
iterable, every change traversable. -/
def entryRecorrible (entry : JVal) : Bool :=
  entry.noNulo && ((entry.campo "changes").o (.arr [])).iterable &&
  ((entry.campo "changes").o (.arr [])).elementos.all changeRecorrible

/-- A request body the handler can traverse without a TypeError. -/
def cuerpoRecorrible (body : JVal) : Bool :=
  body.noNulo &&
  (!decide (body.campo "object" = .str "whatsapp_business_account") ||
    (((body.campo "entry").o (.arr [])).iterable &&
      ((body.campo "entry").o (.arr [])).elementos.all entryRecorrible))

/-! ## The staff routes of `src/conversaciones_route.js` that write `conversaciones` -/

namespace JVal

/-- The row key a bind parameter denotes in `WHERE id = ?`: a non-negative
number without a fraction, or a string of decimal digits. -/
def comoId : JVal → Option Nat
  | num n => if 0 ≤ n then some n.toNat else none
  | str s => s.toNat?
  | _ => none

/-- A decimal value `mantisa * 10 ^ exponente`. -/
structure Decimal where
  mantisa : Int
  exponente : Int
deriving DecidableEq

/-- The characters that `StringToNumber` strips from both ends: the white
space and line terminators of the language. -/
def esEspacio (c : Char) : Bool :=
  decide (c.toNat ∈
    [9, 10, 11, 12, 13, 32, 160, 5760, 8232, 8233, 8239, 8287, 12288, 65279]) ||
    (decide (8192 ≤ c.toNat) && decide (c.toNat ≤ 8202))

/-- A text without the white space at its ends. -/
def recortar (cs : List Char) : List Char :=
  ((cs.dropWhile esEspacio).reverse.dropWhile esEspacio).reverse

/-- The value of a digit in a base up to 16, `none` for any other character. -/
def valorDigito (base : Nat) (c : Char) : Option Nat :=
  let v :=
    if 48 ≤ c.toNat ∧ c.toNat ≤ 57 then some (c.toNat - 48)
    else if 97 ≤ c.toNat ∧ c.toNat ≤ 102 then some (c.toNat - 87)
    else if 65 ≤ c.toNat ∧ c.toNat ≤ 70 then some (c.toNat - 55)
    else none
  v.bind fun d => if d < base then some d else none

/-- The value of a non-empty run of digits in a base, `none` for any other text. -/
def leerDigitos (base : Nat) (cs : List Char) : Option Nat :=
  match cs with
  | [] => none
  | _ =>
    cs.foldl (fun acc c => acc.bind fun n => (valorDigito base c).map fun d => n * base + d)
      (some 0)

/-- The exponent part of a decimal literal: nothing, or `e` or `E`, an optional
sign and digits. -/
def leerExponente (cs : List Char) : Option Int :=
  match cs with
  | [] => some 0
  | c :: resto =>
    if c.toNat = 101 ∨ c.toNat = 69 then
      match resto with
      | s :: ds =>
        if s.toNat = 43 then (leerDigitos 10 ds).map Int.ofNat
        else if s.toNat = 45 then (leerDigitos 10 ds).map fun n => - Int.ofNat n
        else (leerDigitos 10 resto).map Int.ofNat
      | [] => none
    else none

/-- The value of an unsigned decimal literal: digits with an optional fraction
and exponent, or a fraction alone; `none` for any other text, `Infinity`
included. -/
def leerDecimal (cs : List Char) : Option Decimal :=
  let esDigito := fun c : Char => decide (48 ≤ c.toNat ∧ c.toNat ≤ 57)
  let entera := cs.takeWhile esDigito
  let tras := cs.dropWhile esDigito
  let partes : List Char × List Char :=
    match tras with
    | c :: r => if c.toNat = 46 then (r.takeWhile esDigito, r.dropWhile esDigito) else ([], tras)
    | [] => ([], [])
  if entera = [] ∧ partes.1 = [] then none
  else
    match leerDigitos 10 (Char.ofNat 48 :: (entera ++ partes.1)), leerExponente partes.2 with
    | some m, some e =>
      some { mantisa := Int.ofNat m, exponente := e - Int.ofNat partes.1.length }
    | _, _ => none

/-- The conversion `StringToNumber`, exact (before rounding to a Number value);
`none` stands for NaN and for the two infinities. -/
def cadenaANumero (s : String) : Option Decimal :=
  match recortar s.toList with
  | [] => some { mantisa := 0, exponente := 0 }
  | c :: resto =>
    if c.toNat = 43 then leerDecimal resto
    else if c.toNat = 45 then
      (leerDecimal resto).map fun d => { d with mantisa := - d.mantisa }
    else if c.toNat = 48 then
      match resto with
      | x :: ds =>
        if x.toNat = 120 ∨ x.toNat = 88 then
          (leerDigitos 16 ds).map fun n => { mantisa := Int.ofNat n, exponente := 0 }
        else if x.toNat = 111 ∨ x.toNat = 79 then
          (leerDigitos 8 ds).map fun n => { mantisa := Int.ofNat n, exponente := 0 }
        else if x.toNat = 98 ∨ x.toNat = 66 then
          (leerDigitos 2 ds).map fun n => { mantisa := Int.ofNat n, exponente := 0 }
        else leerDecimal (c :: resto)
      | [] => some { mantisa := 0, exponente := 0 }
    else leerDecimal (c :: resto)

/-- The conversion to a number done by `>=` and `<=` (`ToPrimitive`, then
`ToNumber`), exact; `none` stands for NaN and the infinities. An array or an
object is converted through its string form, which may throw. -/
def aNumero : JVal → Except String (Option Decimal)
  | undefined => .ok none
  | null => .ok (some { mantisa := 0, exponente := 0 })
  | bool b => .ok (some { mantisa := if b then 1 else 0, exponente := 0 })
  | num n => .ok (some { mantisa := n, exponente := 0 })
  | dec m e => .ok (some { mantisa := m, exponente := e })
  | str s => .ok (cadenaANumero s)
  | arr xs =>
    match aCadena (arr xs) with
    | .ok s => .ok (cadenaANumero s)
    | .error e => .error e
  | obj campos =>
    match aCadena (obj campos) with
    | .ok s => .ok (cadenaANumero s)
    | .error e => .error e

/-- Whether the Number value nearest to a decimal is at least 1 and at most 5,
as `v >= 1 && v <= 5` tests it: the values that round up to 1 start at
`1 - 2^-54` and those that round down to 5 stop at `5 + 2^-51` (both ends
round to even). -/
def Decimal.entreUnoYCinco (d : Decimal) : Bool :=
  if d.mantisa < 0 then false
  else if 0 ≤ d.exponente then
    decide (2 ^ 54 - 1 ≤ d.mantisa.toNat * 10 ^ d.exponente.toNat * 2 ^ 54) &&
      decide (d.mantisa.toNat * 10 ^ d.exponente.toNat * 2 ^ 51 ≤ 5 * 2 ^ 51 + 1)
  else
    decide ((2 ^ 54 - 1) * 10 ^ (- d.exponente).toNat ≤ d.mantisa.toNat * 2 ^ 54) &&
      decide (d.mantisa.toNat * 2 ^ 51 ≤ (5 * 2 ^ 51 + 1) * 10 ^ (- d.exponente).toNat)

end JVal

/-- The authenticated user `req.usuario`. -/
structure Usuario where
  id : JVal
  rol : JVal
  equipo_id : JVal
deriving DecidableEq

namespace Almacen

/-- Whether `SELECT id FROM <tabla> WHERE id = ? AND activo = 1` returns a row. -/
def activoEn (tabla : List Catalogo) (param : JVal) : Bool :=
  tabla.any fun r => r.activo && decide (param.comoId = some r.id)

/-- Whether `SELECT id FROM contactos WHERE id = ? AND activo = 1` returns a row. -/
def contactoActivo (s : Almacen) (param : JVal) : Bool :=
  s.contactos.any fun k => k.activo && decide (param.comoId = some k.id)

end Almacen

/-- The list `prioridadesValidas`. -/
def prioridadesValidas : List JVal := [.str "baja", .str "media", .str "alta", .str "urgente"]

/-- The list `estadosValidos`. -/
def estadosValidos : List String := ["nuevo", "en_proceso", "pendiente", "resuelto", "cerrado"]

/-- The handler `router.post('/')` of the conversation routes, lines 174-267,
after authentication. The insert binds `titulo`, `descripcion` and
`req.usuario.id` as received, so `execute` throws when one of them is
`undefined` and the catch answers 500. The inserted row takes the column
defaults of the schema for `estado` and `fecha_ultima_actividad`. -/
def postConversaciones (esq : Esquema) (usuario : Usuario) (body : JVal) (s : Almacen) :
    Respuesta × Almacen :=
  if !body.noNulo then ({ status := 500, cuerpo := "Error interno del servidor" }, s)
  else if !(body.campo "contacto_id").esVerdadero then
    ({ status := 400, cuerpo := "El contacto es requerido" }, s)
  else if !s.contactoActivo (body.campo "contacto_id") then
    ({ status := 400, cuerpo := "Contacto no válido" }, s)
  else if (body.campo "asunto_id").esVerdadero &&
      !Almacen.activoEn s.asuntos (body.campo "asunto_id") then
    ({ status := 400, cuerpo := "Asunto no válido" }, s)
  else if (body.campo "equipo_asignado_id").esVerdadero &&
      !Almacen.activoEn s.equipos (body.campo "equipo_asignado_id") then
    ({ status := 400, cuerpo := "Equipo no válido" }, s)
  else if (body.campo "usuario_asignado_id").esVerdadero &&
      !Almacen.activoEn s.usuarios (body.campo "usuario_asignado_id") then
    ({ status := 400, cuerpo := "Usuario asignado no válido" }, s)
  else if !((body.campo "titulo").definido && (body.campo "descripcion").definido &&
      usuario.id.definido) then
    ({ status := 500, cuerpo := "Error interno del servidor" }, s)
  else
    ({ status := 201, cuerpo := "Conversación creada exitosamente" },
      { s with
        conversaciones := s.conversaciones ++
          [{ id := s.sigConversacion,
             contacto_id := ((body.campo "contacto_id").comoId).getD 0,
             estado := esq.estadoPorDefecto,
             titulo := body.campo "titulo",
             fecha_ultima_actividad := if esq.actividadPorDefecto then some s.ahora else none,
             asunto_id := (body.campo "asunto_id").o .null,
             equipo_asignado_id := (body.campo "equipo_asignado_id").o .null,
             usuario_asignado_id := (body.campo "usuario_asignado_id").o .null,
             prioridad := if body.campo "prioridad" ∈ prioridadesValidas
               then body.campo "prioridad" else .str "media",
             descripcion := body.campo "descripcion",
             notas_internas := .null, satisfaccion_cliente := .null,
             asignado_por_usuario_id := usuario.id, fecha_cierre := none }],
        sigConversacion := s.sigConversacion + 1 })

/-- One entry of `updateFields` in `router.put('/:id')`, with its bind parameter. -/
inductive Asignacion where
  | asunto (v : JVal)
  | equipo (v : JVal)
  | usuario (v : JVal)
  | estado (e : String)
  | fechaCierre
  | prioridad (v : JVal)
  | titulo (v : JVal)
  | descripcion (v : JVal)
  | notas (v : JVal)
  | satisfaccion (v : JVal)
  | fechaActividad
deriving DecidableEq

/-- The effect of one assignment of the `UPDATE conversaciones SET ...` on a row. -/
def Asignacion.aplicar (ahora : Nat) (c : Conversacion) : Asignacion → Conversacion
  | .asunto v => { c with asunto_id := v }
  | .equipo v => { c with equipo_asignado_id := v }
  | .usuario v => { c with usuario_asignado_id := v }
  | .estado e => { c with estado := e }
  | .fechaCierre => { c with fecha_cierre := some ahora }
  | .prioridad v => { c with prioridad := v }
  | .titulo v => { c with titulo := v }
  | .descripcion v => { c with descripcion := v }
  | .notas v => { c with notas_internas := v }
  | .satisfaccion v => { c with satisfaccion_cliente := v }
  | .fechaActividad => { c with fecha_ultima_actividad := some ahora }

/-- The assignments pushed for a reference column (`asunto_id`,
`equipo_asignado_id`, `usuario_asignado_id`), lines 305-354: nothing when the
field is absent, a 400 response when it is truthy and names no active row. -/
def camposReferencia (tabla : List Catalogo) (v : JVal) (asignar : JVal → Asignacion)
    (error : String) : Except Respuesta (List Asignacion) :=
  if v = .undefined then .ok []
  else if v.esVerdadero && !Almacen.activoEn tabla v then
    .error { status := 400, cuerpo := error }
  else .ok [asignar (v.o .null)]

/-- The assignments pushed for `estado`, lines 356-367. -/
def camposEstado (estado : JVal) : List Asignacion :=
  if estado.esVerdadero then
    match estado with
    | .str e =>
      if e ∈ estadosValidos then
        if e = "cerrado" then [.estado e, .fechaCierre] else [.estado e]
      else []
    | _ => []
  else []

/-- The assignments pushed for `prioridad`, lines 369-375. -/
def camposPrioridad (prioridad : JVal) : List Asignacion :=
  if prioridad.esVerdadero && decide (prioridad ∈ prioridadesValidas) then [.prioridad prioridad]
  else []

/-- The assignment pushed for a free column, lines 377-390. -/
def campoLibre (v : JVal) (asignar : JVal → Asignacion) : List Asignacion :=
  if v = .undefined then [] else [asignar v]

/-- The assignment pushed for `satisfaccion_cliente`, lines 392-397. -/
def camposSatisfaccion (v : JVal) : Except Respuesta (List Asignacion) :=
  if v = .undefined then .ok []
  else
    match v.aNumero with
    | .error _ => .error { status := 500, cuerpo := "Error interno del servidor" }
    | .ok (some d) => if d.entreUnoYCinco then .ok [.satisfaccion v] else .ok []
    | .ok none => .ok []

/-- The list `updateFields` of `router.put('/:id')`, lines 301-400, or the 400
response of a failed reference check, or the 500 response when the comparison
of `satisfaccion_cliente` throws. -/
def updateFields (s : Almacen) (body : JVal) : Except Respuesta (List Asignacion) := do
  let asunto ← camposReferencia s.asuntos (body.campo "asunto_id") .asunto "Asunto no válido"
  let equipo ← camposReferencia s.equipos (body.campo "equipo_asignado_id") .equipo
    "Equipo no válido"
  let usuario ← camposReferencia s.usuarios (body.campo "usuario_asignado_id") .usuario
    "Usuario asignado no válido"
  let satisfaccion ← camposSatisfaccion (body.campo "satisfaccion_cliente")
  pure (asunto ++ equipo ++ usuario ++ camposEstado (body.campo "estado") ++
    camposPrioridad (body.campo "prioridad") ++ campoLibre (body.campo "titulo") .titulo ++
    campoLibre (body.campo "descripcion") .descripcion ++
    campoLibre (body.campo "notas_internas") .notas ++
    satisfaccion ++ [.fechaActividad])

/-- The statement `UPDATE conversaciones SET ... WHERE id = ?` on one row. -/
def actualizarConversacion (id ahora : Nat) (campos : List Asignacion) (c : Conversacion) :
    Conversacion :=
  if c.id = id then campos.foldl (Asignacion.aplicar ahora) c else c

/-- The handler `router.put('/:id')` of the conversation routes, lines 270-428,
after authentication; `id` is the key named by the path. -/
def putConversaciones (usuario : Usuario) (id : Nat) (body : JVal) (s : Almacen) :
    Respuesta × Almacen :=
  if !body.noNulo then ({ status := 500, cuerpo := "Error interno del servidor" }, s)
  else
    match s.conversaciones.filter (fun c => decide (c.id = id)) with
    | [] => ({ status := 404, cuerpo := "Conversación no encontrada" }, s)
    | conversacion :: _ =>
      if usuario.rol ≠ .str "admin" ∧ conversacion.equipo_asignado_id ≠ usuario.equipo_id ∧
          conversacion.usuario_asignado_id ≠ usuario.id then
        ({ status := 403, cuerpo := "No tiene acceso a esta conversación" }, s)
      else
        match updateFields s body with
        | .error respuesta => (respuesta, s)
        | .ok campos =>
          if campos.length = 1 then
            ({ status := 400, cuerpo := "No hay campos para actualizar" }, s)
          else
            ({ status := 200, cuerpo := "Conversación actualizada exitosamente" },
              { s with conversaciones :=
                  s.conversaciones.map (actualizarConversacion id s.ahora campos) })

/-! ## Reachable stores and concrete inputs -/

/-- A schema with both uniqueness constraints, `nuevo` as default estado. -/
def esquemaEstricto : Esquema :=
  { numeroUnico := true, mensajeIdUnico := true, estadoPorDefecto := "nuevo",
    actividadPorDefecto := true }

/-- An administrator. -/
def admin : Usuario := { id := .num 1, rol := .str "admin", equipo_id := .null }

/-- A text message event. -/
def eventoTexto (id numero texto : String) : JVal :=
  .obj [("id", .str id), ("from", .str numero), ("type", .str "text"),
        ("text", .obj [("body", .str texto)])]

/-- The stores reachable from the empty store by inbound message processing,
staff conversation creation and staff conversation update, with time passing
between the steps. -/
inductive Alcanzable (esq : Esquema) : Almacen → Prop where
  | vacio : Alcanzable esq Almacen.vacio
  | reloj (s : Almacen) (t : Nat) : Alcanzable esq s → Alcanzable esq (s.conReloj t)
  | mensaje (s : Almacen) (message contacts : JVal) :
      Alcanzable esq s → Alcanzable esq (recibir esq message contacts s)
  | crear (s : Almacen) (usuario : Usuario) (body : JVal) :
      Alcanzable esq s → Alcanzable esq (postConversaciones esq usuario body s).2
  | actualizar (s : Almacen) (usuario : Usuario) (id : Nat) (body : JVal) :
      Alcanzable esq s → Alcanzable esq (putConversaciones usuario id body s).2

/-- The store after: a first message of a new number, the staff closing its
conversation, a second message of the number (which opens a second
conversation), the staff setting the first conversation back to `nuevo`. -/
def trazaReapertura : Almacen :=
  (putConversaciones admin 1 (.obj [("estado", .str "nuevo")])
    (recibir esquemaEstricto (eventoTexto "wamid.2" "5215512345678" "Sigo aqui") .undefined
      (putConversaciones admin 1 (.obj [("estado", .str "cerrado")])
        (recibir esquemaEstricto (eventoTexto "wamid.1" "5215512345678" "Hola") .undefined
          Almacen.vacio)).2)).2

/-- The store after a first message of a new number and the staff creating a
conversation for the same contact. -/
def trazaCreacion : Almacen :=
  (postConversaciones esquemaEstricto admin
    (.obj [("contacto_id", .num 1), ("titulo", .str "Seguimiento"), ("descripcion", .str "")])
    (recibir esquemaEstricto (eventoTexto "wamid.1" "5215512345678" "Hola") .undefined
      Almacen.vacio)).2

/-- A contact hint carrying the profile name Ana. -/
def pistaAna : JVal := .arr [.obj [("profile", .obj [("name", .str "Ana")])]]

/-- A first text message of the number 5215512345678. -/
def eventoHola : JVal := eventoTexto "wamid.1" "5215512345678" "Hola"

/-- A second text message of the same number. -/
def eventoSigo : JVal := eventoTexto "wamid.2" "5215512345678" "Sigo aqui"

/-- A text message of another number. -/
def eventoOtro : JVal := eventoTexto "wamid.5" "5215599999999" "Buenas"

/-- The store after the first message arrives at the empty store. -/
def almacenConMensaje : Almacen := recibir esquemaEstricto eventoHola pistaAna Almacen.vacio

/-- The store after the staff closes the conversation of the first message. -/
def almacenCerrado : Almacen :=
  (putConversaciones admin 1 (.obj [("estado", .str "cerrado")]) almacenConMensaje).2

/-- The contact row of `almacenConMensaje`. -/
def contactoAna : Contacto :=
  { id := 1, numero_whatsapp := .str "5215512345678", nombre := .str "Ana",
    tipo_contacto := .str "prospecto", fecha_ultima_interaccion := some 0, activo := true }

/-- The conversation row of `almacenConMensaje`. -/
def conversacionAna : Conversacion :=
  { id := 1, contacto_id := 1, estado := "nuevo",
    titulo := .str "Conversación con 5215512345678", fecha_ultima_actividad := some 0,
    asunto_id := .null, equipo_asignado_id := .null, usuario_asignado_id := .null,
    prioridad := .null, descripcion := .null, notas_internas := .null,
    satisfaccion_cliente := .null, asignado_por_usuario_id := .null, fecha_cierre := none }

/-- The message row of `almacenConMensaje`. -/
def mensajeHola : Mensaje :=
  { id := 1, conversacion_id := 1, whatsapp_message_id := .str "wamid.1",
    tipo_mensaje := .str "text", direccion := "entrante",
    remitente_numero := .str "5215512345678", contenido := .str "Hola", archivo_url := .null,
    archivo_nombre := .null, archivo_tipo := .null, archivo_tamano := .null,
    metadata := eventoHola, fecha_entrega := none, fecha_lectura := none, leido := false }

/-- A status event for an external message id. -/
def eventoEstado (id estado : String) : JVal := .obj [("id", .str id), ("status", .str estado)]

/-- A webhook body whose only change has field `messages` and the given value
(no `value` property at all for `undefined`). -/
def cuerpoCon (value : JVal) : JVal :=
  .obj [("object", .str "whatsapp_business_account"),
        ("entry", .arr [.obj [("changes", .arr [.obj [("field", .str "messages"),
                                                      ("value", value)]])]])]

/-- A webhook body whose only change has field `messages` and no value. -/
def cuerpoSinValue : JVal :=
  .obj [("object", .str "whatsapp_business_account"),
        ("entry", .arr [.obj [("changes", .arr [.obj [("field", .str "messages")]])]])]

/-- A staff update that does not reopen: when the conversation it names is
closed, the update assigns no estado or assigns `cerrado`. -/
def noReabre (s : Almacen) (id : Nat) (body : JVal) : Prop :=
  (∃ c ∈ s.conversaciones, c.id = id ∧ c.estado = "cerrado") →
    (body.campo "estado" = .str "cerrado" ∨ camposEstado (body.campo "estado") = [])

/-- The stores reachable from the empty store by inbound message processing,
status processing and staff updates that do not reopen a closed conversation. -/
inductive AlcanzableSinReabrir (esq : Esquema) : Almacen → Prop where
  | vacio : AlcanzableSinReabrir esq Almacen.vacio
  | reloj (s : Almacen) (t : Nat) :
      AlcanzableSinReabrir esq s → AlcanzableSinReabrir esq (s.conReloj t)
  | mensaje (s : Almacen) (message contacts : JVal) :
      AlcanzableSinReabrir esq s → AlcanzableSinReabrir esq (recibir esq message contacts s)
  | estadoMensaje (s : Almacen) (status : JVal) :
      AlcanzableSinReabrir esq s → AlcanzableSinReabrir esq (recibirEstado esq status s)
  | actualizar (s : Almacen) (usuario : Usuario) (id : Nat) (body : JVal) :
      AlcanzableSinReabrir esq s → noReabre s id body →
      AlcanzableSinReabrir esq (putConversaciones usuario id body s).2

/-! ## The events of a notification -/

/-- One event of a notification: a message with the contact hint of its
batch, or a status. -/
inductive Evento where
  | mensaje (message contacts : JVal)
  | estado (status : JVal)

/-- The processor of an event. -/
def procesarEvento {σ : Type} (db : Db σ) : Evento → Efecto σ Unit
  | .mensaje message contacts => procesarMensajeEntrante db message contacts
  | .estado status => procesarEstadoMensaje db status

/-- The events of a value: its messages, then its statuses. -/
def eventosDeValue (value : JVal) : List Evento :=
  (if (value.campo "messages").esVerdadero then (value.campo "messages").elementos
    else []).map (fun message => Evento.mensaje message (value.campo "contacts")) ++
  (if (value.campo "statuses").esVerdadero then (value.campo "statuses").elementos
    else []).map Evento.estado

/-- The events of a change: those of its value when its field is messages. -/
def eventosDeChange (change : JVal) : List Evento :=
  if change.campo "field" = .str "messages" then eventosDeValue (change.campo "value") else []

/-- The events of an entry: those of its changes, in order. -/
def eventosDeEntry (entry : JVal) : List Evento :=
  ((entry.campo "changes").o (.arr [])).elementos.flatMap eventosDeChange

/-- The events of a payload: those of its entries when its object is
whatsapp_business_account, none otherwise. -/
def eventosDe (body : JVal) : List Evento :=
  if body.campo "object" = .str "whatsapp_business_account" then
    ((body.campo "entry").o (.arr [])).elementos.flatMap eventosDeEntry
  else []

/-- A text event without its text field. -/
def eventoSinTexto : JVal :=
  .obj [("id", .str "wamid.8"), ("from", .str "5215512345678"), ("type", .str "text")]

/-- An image event with caption. -/
def eventoImagen : JVal :=
  .obj [("id", .str "wamid.6"), ("from", .str "5215512345678"), ("type", .str "image"),
        ("image", .obj [("id", .str "media.1"), ("mime_type", .str "image/jpeg"),
                        ("caption", .str "Foto")])]

/-- An event of a kind the processor does not know. -/
def eventoSticker : JVal :=
  .obj [("id", .str "wamid.4"), ("from", .str "5215512345678"), ("type", .str "sticker")]

/-- A payload of another object kind. -/
def cuerpoOtro : JVal := .obj [("object", .str "page"), ("entry", .arr [.null])]

/-! ## The subscription handshake of `src/main_server_updated.js` -/

/-- A response whose body is a value of the request. -/
structure RespuestaEco where
  status : Nat
  cuerpo : JVal
deriving DecidableEq

/-- The value of an environment variable: a string, or `undefined` when unset. -/
def variableDeEntorno : Option String → JVal
  | some t => .str t
  | none => .undefined

/-- The handler `app.get('/webhook')`, lines 117-134: `verifyToken` is
`process.env.WHATSAPP_VERIFY_TOKEN`, `query` is `req.query`. -/
def getWebhook (verifyToken : Option String) (query : JVal) : RespuestaEco :=
  if (query.campo "hub.mode").esVerdadero && (query.campo "hub.verify_token").esVerdadero then
    if query.campo "hub.mode" = .str "subscribe" ∧
        query.campo "hub.verify_token" = variableDeEntorno verifyToken then
      { status := 200, cuerpo := query.campo "hub.challenge" }
    else { status := 403, cuerpo := .str "Forbidden" }
  else { status := 400, cuerpo := .str "Bad Request" }

/-! ## The routes of `src/mensajes_route.js` that write `mensajes` -/

/-- The access check shared by the conversation and message routes: the user
is an administrator, or of the team of the conversation, or its assignee. -/
def sinAcceso (usuario : Usuario) (c : Conversacion) : Bool :=
  decide (usuario.rol ≠ .str "admin" ∧ c.equipo_asignado_id ≠ usuario.equipo_id ∧
    c.usuario_asignado_id ≠ usuario.id)

/-- The update of `router.get('/conversacion/:conversacionId')`, lines 63-67,
on one row: the unread inbound messages of the conversation are marked read. -/
def leerMensaje (conversacionId ahora : Nat) (m : Mensaje) : Mensaje :=
  if m.conversacion_id = conversacionId ∧ m.direccion = "entrante" ∧ m.leido = false then
    { m with leido := true, fecha_lectura := some ahora }
  else m

/-- The handler `router.get('/conversacion/:conversacionId')`, lines 11-85,
after authentication, as far as the store goes: `conversacionId` is the key
named by the path, `consultaOk` tells whether the two paged SELECT statements
on `mensajes` succeed (the page of messages in the response is left out). -/
def getMensajesConversacion (usuario : Usuario) (conversacionId : Nat) (consultaOk : Bool)
    (s : Almacen) : Respuesta × Almacen :=
  match s.conversaciones.filter (fun c => decide (c.id = conversacionId)) with
  | [] => ({ status := 404, cuerpo := "Conversación no encontrada" }, s)
  | conversacion :: _ =>
    if sinAcceso usuario conversacion then
      ({ status := 403, cuerpo := "No tiene acceso a esta conversación" }, s)
    else if !consultaOk then ({ status := 500, cuerpo := "Error interno del servidor" }, s)
    else
      ({ status := 200, cuerpo := "mensajes" },
        { s with mensajes := s.mensajes.map (leerMensaje conversacionId s.ahora) })

/-- The update of `router.patch('/:id/leido')`, lines 239-243, on one row. -/
def marcarLeido (id ahora : Nat) (m : Mensaje) : Mensaje :=
  if m.id = id then { m with leido := true, fecha_lectura := some ahora } else m

/-- The rows of the join of `router.patch('/:id/leido')`, lines 213-219: the
conversations of the messages with the given key. -/
def conversacionesDelMensaje (s : Almacen) (id : Nat) : List Conversacion :=
  (s.mensajes.filter (fun m => decide (m.id = id))).flatMap fun m =>
    s.conversaciones.filter (fun c => decide (c.id = m.conversacion_id))

/-- The handler `router.patch('/:id/leido')`, lines 208-255, after
authentication; `id` is the key named by the path. -/
def patchMensajeLeido (usuario : Usuario) (id : Nat) (s : Almacen) : Respuesta × Almacen :=
  match conversacionesDelMensaje s id with
  | [] => ({ status := 404, cuerpo := "Mensaje no encontrado" }, s)
  | mensaje :: _ =>
    if sinAcceso usuario mensaje then
      ({ status := 403, cuerpo := "No tiene acceso a este mensaje" }, s)
    else
      ({ status := 200, cuerpo := "Mensaje marcado como leído" },
        { s with mensajes := s.mensajes.map (marcarLeido id s.ahora) })

/-- One operation on the store among those that write existing `mensajes`
rows: a webhook status event, the two staff routes, or time passing. -/
inductive Operacion where
  | estado (status : JVal)
  | leer (usuario : Usuario) (conversacionId : Nat) (consultaOk : Bool)
  | marcar (usuario : Usuario) (id : Nat)
  | reloj (t : Nat)

/-- The store after one operation. -/
def Operacion.aplicar (esq : Esquema) (s : Almacen) : Operacion → Almacen
  | .estado status => recibirEstado esq status s
  | .leer usuario conversacionId consultaOk =>
    (getMensajesConversacion usuario conversacionId consultaOk s).2
  | .marcar usuario id => (patchMensajeLeido usuario id s).2
  | .reloj t => s.conReloj t

/-- The store after a sequence of operations. -/
def aplicarOperaciones (esq : Esquema) (ops : List Operacion) (s : Almacen) : Almacen :=
  ops.foldl (Operacion.aplicar esq) s

/-! ## The contact creation route of `src/contactos_route.js` -/

/-- The cleaning `numero.replace(/\\D/g, '')`: the decimal digits of the string. -/
def limpiarNumero (numero : String) : String :=
  String.mk (numero.toList.filter Char.isDigit)

/-- The list `tiposValidos`. -/
def tiposValidos : List JVal := [.str "cliente", .str "prospecto", .str "proveedor", .str "otro"]

/-- The fields of the request body that the insert of `router.post('/')` binds
as received, lines 159-162. -/
def camposDeContacto : List String :=
  ["nombre", "email", "empresa", "direccion", "ciudad", "estado", "codigo_postal", "notas"]

/-- The handler `router.post('/')` of the contact routes, lines 126-182, after
authentication, for the columns of `Contacto`. A truthy `numero_whatsapp` that
is not a string has no `replace` method and the TypeError is answered 500. The
insert binds eight body fields and `req.usuario.id` as received, so `execute`
throws when one of them is `undefined` and the catch answers 500. The insert
cannot meet a uniqueness conflict after the check that precedes it. -/
def postContactos (usuario : Usuario) (body : JVal) (s : Almacen) : Respuesta × Almacen :=
  if !body.noNulo then ({ status := 500, cuerpo := "Error interno del servidor" }, s)
  else if !(body.campo "numero_whatsapp").esVerdadero then
    ({ status := 400, cuerpo := "El número de WhatsApp es requerido" }, s)
  else
    match body.campo "numero_whatsapp" with
    | .str numero =>
      if (s.contactosCon (.str (limpiarNumero numero))).length > 0 then
        ({ status := 400, cuerpo := "Ya existe un contacto con este número de WhatsApp" }, s)
      else if !(camposDeContacto.all (fun k => (body.campo k).definido) &&
          usuario.id.definido) then
        ({ status := 500, cuerpo := "Error interno del servidor" }, s)
      else
        ({ status := 201, cuerpo := "Contacto creado exitosamente" },
          { s with
            contactos := s.contactos ++
              [{ id := s.sigContacto, numero_whatsapp := .str (limpiarNumero numero),
                 nombre := body.campo "nombre",
                 tipo_contacto := if body.campo "tipo_contacto" ∈ tiposValidos
                   then body.campo "tipo_contacto" else .str "prospecto",
                 fecha_ultima_interaccion := none, activo := true }],
            sigContacto := s.sigContacto + 1 })
    | _ => ({ status := 500, cuerpo := "Error interno del servidor" }, s)

/-- The digits-only normalization of a stored number (any other value is
left as it is). -/
def normalizar : JVal → JVal
  | .str numero => .str (limpiarNumero numero)
  | v => v

/-! ## Stores and store behaviours for the contact claims -/

/-- Decidable equality of the outcomes of a computation. -/
instance decEqExcept {ε α : Type} [DecidableEq ε] [DecidableEq α] : DecidableEq (Except ε α)
  | .ok a, .ok b =>
    if h : a = b then isTrue (by rw [h]) else isFalse (by intro h2; cases h2; exact h rfl)
  | .error a, .error b =>
    if h : a = b then isTrue (by rw [h]) else isFalse (by intro h2; cases h2; exact h rfl)
  | .ok _, .error _ => isFalse (by intro h; cases h)
  | .error _, .ok _ => isFalse (by intro h; cases h)

/-- A complete body of POST /contactos for the number +52 1 55 1234 5678. -/
def cuerpoContactoAna : JVal :=
  .obj [("numero_whatsapp", .str "+52 1 55 1234 5678"), ("nombre", .str "Ana"),
        ("email", .null), ("tipo_contacto", .str "cliente"), ("empresa", .null),
        ("direccion", .null), ("ciudad", .null), ("estado", .null),
        ("codigo_postal", .null), ("notas", .null)]

/-- The store after a staff member creates the contact +52 1 55 1234 5678 and a
message then arrives whose sender is written +5215512345678. -/
def trazaNumeroSinNormalizar : Almacen :=
  recibir esquemaEstricto (eventoTexto "wamid.7" "+5215512345678" "Hola") .undefined
    (postContactos admin cuerpoContactoAna Almacen.vacio).2

/-- The store after two messages whose senders are written 5215512345678 and
+5215512345678. -/
def trazaDosEscrituras : Almacen :=
  recibir esquemaEstricto (eventoTexto "wamid.7" "+5215512345678" "Hola") .undefined
    almacenConMensaje

/-- A store behaviour in which the contact lookup misses the rows (the read of
an execution that loses a first-contact race) while inserts see them. -/
def bdCarrera (esq : Esquema) : Db Almacen :=
  { Almacen.bd esq with selectContacto := fun _ s => (.ok [], s) }

/-! ## Concurrent executions: interleaving at the store statements -/

/-- An execution in progress: finished, or about to issue one statement, given
by its effect on the store and by what remains after it. The statements are the
only points where an execution suspends, so they are the grain of interleaving. -/
inductive Proc (σ : Type) : Type where
  | fin : Proc σ
  | paso (efecto : σ → σ) (resto : σ → Proc σ) : Proc σ

namespace Proc

variable {σ α : Type}

/-- One statement followed by the continuation on its result; a statement that
throws ends the execution (the catch of the processor only logs). -/
def sentencia (op : Efecto σ α) (k : α → Proc σ) : Proc σ :=
  .paso (fun s => (op s).2) (fun s =>
    match (op s).1 with
    | .ok a => k a
    | .error _ => .fin)

/-- Run an execution alone, to its end. -/
def ejecutar : Proc σ → σ → σ
  | .fin, s => s
  | .paso efecto resto, s => ejecutar (resto s) (efecto s)

/-- Run two executions under a schedule: `true` lets the first issue its next
statement, `false` the second; when the schedule is used up, the first runs
until it finishes and then the second. -/
def intercalar : List Bool → Proc σ → Proc σ → σ → σ
  | [], p, q, s => ejecutar q (ejecutar p s)
  | true :: plan, .paso efecto resto, q, s => intercalar plan (resto s) q (efecto s)
  | true :: plan, .fin, q, s => intercalar plan .fin q s
  | false :: plan, p, .paso efecto resto, s => intercalar plan p (resto s) (efecto s)
  | false :: plan, p, .fin, s => intercalar plan p .fin s

/-- Every statement of the execution keeps a property of the store. -/
def Mantiene (I : σ → Prop) : Proc σ → Prop
  | .fin => True
  | .paso efecto resto => (∀ s, I s → I (efecto s)) ∧ ∀ s, Mantiene I (resto s)

/-- The execution makes a property of the store hold before it ends, whatever
store each of its statements finds. -/
def Establece (E : σ → Prop) : Proc σ → Prop
  | .fin => False
  | .paso efecto resto => ∀ s, E (efecto s) ∨ Establece E (resto s)

end Proc

/-- The last statement of `procesarMensajeEntrante`, lines 151-162. -/
def procInsertar {σ : Type} (db : Db σ) (message : JVal) (x : Extraido)
    (conversacionId : Nat) : Proc σ :=
  match message.prop "id" with
  | .error _ => .fin
  | .ok messageId =>
    .sentencia (db.insertMensaje
      { conversacion_id := conversacionId, whatsapp_message_id := messageId,
        tipo_mensaje := x.tipoMensaje, remitente_numero := x.numeroRemitente,
        contenido := x.contenido, archivo_url := x.archivoUrl,
        archivo_nombre := x.archivoNombre, archivo_tipo := x.archivoTipo,
        archivo_tamano := x.archivoTamano, metadata := message }) (fun _ => .fin)

/-- The statements of conversation resolution, lines 123-149, and what follows. -/
def procConversacion {σ : Type} (db : Db σ) (message : JVal) (x : Extraido)
    (contactoId : Nat) : Proc σ :=
  .sentencia (db.selectConversacion contactoId) fun conversacion =>
    match conversacion with
    | [] =>
      match x.numeroRemitente.aCadena with
      | .error _ => .fin
      | .ok numero =>
        .sentencia (db.insertConversacion contactoId ("Conversación con " ++ numero))
          (fun conversacionId => procInsertar db message x conversacionId)
    | id :: _ =>
      .sentencia (db.updateConversacion id) (fun _ => procInsertar db message x id)

/-- The function `procesarMensajeEntrante` as an execution that suspends at each
of its store statements. -/
def procMensaje {σ : Type} (db : Db σ) (message contacts : JVal) : Proc σ :=
  match extraerContenido message with
  | .error _ => .fin
  | .ok x =>
    .sentencia (db.selectContacto x.numeroRemitente) fun contacto =>
      match contacto with
      | [] =>
        match nombreContacto contacts x.numeroRemitente with
        | .error _ => .fin
        | .ok nombre =>
          .sentencia (db.insertContacto x.numeroRemitente nombre)
            (fun contactoId => procConversacion db message x contactoId)
      | id :: _ =>
        .sentencia (db.updateContacto id) (fun _ => procConversacion db message x id)

/-- A schema without the uniqueness constraint on `contactos.numero_whatsapp`. -/
def esquemaSinUnicidad : Esquema := { esquemaEstricto with numeroUnico := false }

/-- The store after two executions race from the empty store on the first two
messages of a number: each issues its contact lookup before the other has
inserted, then the first runs to its end and the second follows. -/
def carrera (esq : Esquema) : Almacen :=
  Proc.intercalar [true, false] (procMensaje (Almacen.bd esq) eventoHola pistaAna)
    (procMensaje (Almacen.bd esq) eventoSigo pistaAna) Almacen.vacio

/-! ## Inputs and relations for the behaviour of single events and staff updates -/

/-- The six message kinds with a type-specific payload read by extraction. -/
def tiposConocidos : List String := ["text", "image", "document", "audio", "video", "location"]

/-- An image event without its image field. -/
def eventoSinImagen : JVal :=
  .obj [("id", .str "wamid.9"), ("from", .str "5215512345678"), ("type", .str "image")]

/-- The store after: a first message, the staff closing its conversation, a
second message (which opens conversation 2), and, at time 5, the staff setting
conversation 1 back to `en_proceso`. Contact 1 has two open conversations,
number 1 the more recently active. -/
def almacenDosAbiertas : Almacen :=
  (putConversaciones admin 1 (.obj [("estado", .str "en_proceso")])
    ((recibir esquemaEstricto eventoSigo .undefined almacenCerrado).conReloj 5)).2

/-- The store after the first message of Ana and a message of another number. -/
def almacenDosMensajes : Almacen := recibir esquemaEstricto eventoOtro pistaAna almacenConMensaje

/-- A change whose value introduces the second message of Ana and carries a
status of a given kind for it. -/
def cambioConEstado (estado : String) : JVal :=
  .obj [("field", .str "messages"),
        ("value", .obj [("statuses", .arr [eventoEstado "wamid.2" estado]),
                        ("contacts", pistaAna), ("messages", .arr [eventoSigo])])]

/-- The conversations of `t` are those of `s`, row by row in the same order
and each with its key, followed by new ones, and no row that is closed in `s`
has another estado in `t`. -/
def Almacen.conservaCerradas (s t : Almacen) : Prop :=
  ∃ (f : Conversacion → Conversacion) (nuevas : List Conversacion),
    t.conversaciones = s.conversaciones.map f ++ nuevas ∧
    ∀ c ∈ s.conversaciones, (f c).id = c.id ∧ (c.estado = "cerrado" → (f c).estado = "cerrado")

/-- The store `t` follows from `s` by a sequence of inbound message processing,
status processing and staff updates that do not reopen a closed conversation,
with time passing between the steps. -/
inductive SigueSinReabrir (esq : Esquema) (s : Almacen) : Almacen → Prop where
  | inicio : SigueSinReabrir esq s s
  | reloj (t : Almacen) (n : Nat) :
      SigueSinReabrir esq s t → SigueSinReabrir esq s (t.conReloj n)
  | mensaje (t : Almacen) (message contacts : JVal) :
      SigueSinReabrir esq s t → SigueSinReabrir esq s (recibir esq message contacts t)
  | estadoMensaje (t : Almacen) (status : JVal) :
      SigueSinReabrir esq s t → SigueSinReabrir esq s (recibirEstado esq status t)
  | actualizar (t : Almacen) (usuario : Usuario) (id : Nat) (body : JVal) :
      SigueSinReabrir esq s t → noReabre t id body →
      SigueSinReabrir esq s (putConversaciones usuario id body t).2

/-! ## The configuration routes of `src/configuraciones_route.js` -/

/-- A row of `configuraciones`: the columns the two routes select. -/
structure Configuracion where
  clave : JVal
  valor : JVal
  descripcion : JVal
  tipo : JVal
deriving DecidableEq

/-- A response sent with `res.json`. -/
structure RespuestaJson where
  status : Nat
  cuerpo : JVal
deriving DecidableEq

/-- Whether a text starts with another. -/
def empiezaCon : List Char → List Char → Bool
  | _, [] => true
  | [], _ :: _ => false
  | x :: xs, y :: ys => x == y && empiezaCon xs ys

/-- The test `String.prototype.includes`: whether a text occurs inside another. -/
def contiene : List Char → List Char → Bool
  | [], sub => empiezaCon [] sub
  | x :: xs, sub => empiezaCon (x :: xs) sub || contiene xs sub

/-- The call `v.includes(t)` for a text `t`: substring test on a string,
membership on an array, a TypeError on any other value. -/
def JVal.incluye (v : JVal) (t : String) : Except String Bool :=
  match v with
  | .str s => .ok (contiene s.toList t.toList)
  | .arr xs => .ok (decide (JVal.str t ∈ xs))
  | _ => .error "TypeError: includes is not a function"

/-- The test of lines 23 and 57:
`config.clave.includes('token') || config.clave.includes('password')`. -/
def esSensible (clave : JVal) : Except String Bool := do
  let a ← clave.incluye "token"
  if a then pure true else clave.incluye "password"

/-- The row as the two routes send it, lines 21-26 and 56-59: the value of a
sensitive key is replaced by a mark that tells only whether it is set. -/
def ocultar (config : Configuracion) : Except String JVal := do
  let sensible ← esSensible config.clave
  pure (.obj [("clave", config.clave),
    ("valor", if sensible then
        (if config.valor.esVerdadero then .str "***configurado***" else .str "")
      else config.valor),
    ("descripcion", config.descripcion), ("tipo", config.tipo)])

/-- The callback of `configuraciones.map` applied to each row in turn; it stops
at the first row on which it throws. -/
def ocultarTodas : List Configuracion → Except String (List JVal)
  | [] => .ok []
  | config :: resto => do
    let fila ← ocultar config
    let filas ← ocultarTodas resto
    pure (fila :: filas)

/-- Insertion of a row into rows sorted by `clave`; `orden a b` tells whether
`a` sorts no later than `b` in the collation of the column. -/
def insertarPorClave (orden : JVal → JVal → Bool) (c : Configuracion) :
    List Configuracion → List Configuracion
  | [] => [c]
  | d :: resto =>
    if orden c.clave d.clave then c :: d :: resto
    else d :: insertarPorClave orden c resto

/-- The rows in the order of `ORDER BY clave ASC`. -/
def ordenarPorClave (orden : JVal → JVal → Bool) : List Configuracion → List Configuracion
  | [] => []
  | c :: resto => insertarPorClave orden c (ordenarPorClave orden resto)

/-- The body `{ error: ... }` of an error response. -/
def cuerpoError (mensaje : String) : JVal := .obj [("error", .str mensaje)]

/-- The handler `router.get('/')`, lines 12-36, after authentication and the
role check: `tabla` is the table, `orden` the collation of `clave` (the table
definitions are not in the repository), `consultaOk` tells whether the query
succeeds. -/
def getConfiguraciones (orden : JVal → JVal → Bool) (consultaOk : Bool)
    (tabla : List Configuracion) : RespuestaJson :=
  if !consultaOk then { status := 500, cuerpo := cuerpoError "Error interno del servidor" }
  else
    match ocultarTodas (ordenarPorClave orden tabla) with
    | .ok filas => { status := 200, cuerpo := .arr filas }
    | .error _ => { status := 500, cuerpo := cuerpoError "Error interno del servidor" }

/-- The handler `router.get('/:clave')`, lines 39-69, after authentication and
the role check; `clave` is the path parameter. -/
def getConfiguracion (clave : String) (consultaOk : Bool) (tabla : List Configuracion) :
    RespuestaJson :=
  if !consultaOk then { status := 500, cuerpo := cuerpoError "Error interno del servidor" }
  else
    match tabla.filter (fun c => Almacen.sqlEq c.clave (.str clave)) with
    | [] => { status := 404, cuerpo := cuerpoError "Configuración no encontrada" }
    | config :: _ =>
      match ocultar config with
      | .ok fila => { status := 200, cuerpo := fila }
      | .error _ => { status := 500, cuerpo := cuerpoError "Error interno del servidor" }

/-- Two rows that differ at most in the value of a sensitive key, set in both. -/
def mismoSalvoSecreto (a b : Configuracion) : Prop :=
  a.clave = b.clave ∧ a.descripcion = b.descripcion ∧ a.tipo = b.tipo ∧
    (a.valor = b.valor ∨
      (esSensible a.clave = .ok true ∧ a.valor.esVerdadero = true ∧
        b.valor.esVerdadero = true))

/-- A configuration table with one sensitive key and one plain key. -/
def tablaEjemplo (secreto : String) : List Configuracion :=
  [{ clave := .str "whatsapp_access_token", valor := .str secreto,
     descripcion := .str "Token de acceso", tipo := .str "string" },
   { clave := .str "horario_inicio", valor := .str "09:00",
     descripcion := .str "Inicio", tipo := .str "string" },
   { clave := .str "smtp_password", valor := .str "",
     descripcion := .null, tipo := .str "string" }]

/-- The order of strings by code point, other values first. -/
def ordenBinario : JVal → JVal → Bool
  | .str a, .str b => decide (a ≤ b)
  | .str _, _ => false
  | _, _ => true

/-! ## Inputs on which a read throws or an insert parameter is undefined -/

/-- A contact hint whose first entry has no profile: `[{}]`. -/
def pistaSinPerfil : JVal := .arr [.obj []]

/-- A contact hint whose profile has no name: `[{profile: {}}]`. -/
def pistaSinNombre : JVal := .arr [.obj [("profile", .obj [])]]

/-- A document event with its media reference and mime type and no filename. -/
def eventoDocumento : JVal :=
  .obj [("id", .str "wamid.7"), ("from", .str "5215512345678"), ("type", .str "document"),
        ("document", .obj [("id", .str "media.7"), ("mime_type", .str "application/pdf")])]

/-- A document event carrying its filename. -/
def eventoFactura : JVal :=
  .obj [("id", .str "wamid.7"), ("from", .str "5215512345678"), ("type", .str "document"),
        ("document", .obj [("id", .str "media.7"), ("mime_type", .str "application/pdf"),
                           ("filename", .str "factura.pdf")])]

/-- A text event of another number without its id. -/
def eventoSinId : JVal :=
  .obj [("from", .str "5215599999999"), ("type", .str "text"),
        ("text", .obj [("body", .str "Buenas")])]

/-- An event whose type is an object with an own `toString` property. -/
def eventoTipoObjeto : JVal :=
  .obj [("id", .str "wamid.4"), ("from", .str "5215512345678"),
        ("type", .obj [("toString", .null)])]

/-- The store after the webhook handles, from the empty store, a batch that
holds the event without id before the first message of Ana. -/
def loteConMalformado : Almacen :=
  (postWebhook (Almacen.bd esquemaEstricto)
    (cuerpoCon (.obj [("messages", .arr [eventoSinId, eventoHola])])) Almacen.vacio).2

/-- The store after the webhook handles the same batch without the event
that lacks its id. -/
def loteSinMalformado : Almacen :=
  (postWebhook (Almacen.bd esquemaEstricto)
    (cuerpoCon (.obj [("messages", .arr [eventoHola])])) Almacen.vacio).2

/-- The second conversation of `almacenDosAbiertas`, opened by the second
message of Ana at time 0. -/
def conversacionSegunda : Conversacion :=
  { conversacionAna with id := 2 }

/-- A change that introduces the first message of another number with a
delivered status for it and a contact hint whose first entry has no profile. -/
def cambioSinPerfil : JVal :=
  .obj [("field", .str "messages"),
        ("value", .obj [("statuses", .arr [eventoEstado "wamid.5" "delivered"]),
                        ("contacts", pistaSinPerfil), ("messages", .arr [eventoOtro])])]

/-- A location event whose coordinates have a fraction. -/
def eventoUbicacion : JVal :=
  .obj [("id", .str "wamid.10"), ("from", .str "5215512345678"), ("type", .str "location"),
        ("location", .obj [("latitude", .dec 194326 (-4)),
                           ("longitude", .dec (-991332) (-4))])]

/-- The first conversation of `almacenDosAbiertas`: closed at time 0 and set
back to `en_proceso` at time 5. -/
def conversacionEnProceso : Conversacion :=
  { conversacionAna with estado := "en_proceso", fecha_ultima_actividad := some 5,
                         fecha_cierre := some 0 }

/-! ## Lemmas: effects, JSON reads, extraction and the two resolution steps -/

open JVal Almacen


namespace Efecto
variable {σ α β : Type}
@[simp] theorem pure_apply (a : α) (s : σ) : (pure a : Efecto σ α) s = (.ok a, s) := rfl
@[simp] theorem puro_apply (a : α) (s : σ) : (puro a : Efecto σ α) s = (.ok a, s) := rfl
@[simp] theorem deExcept_apply (x : Except String α) (s : σ) : deExcept x s = (x, s) := rfl
theorem bind_apply (m : Efecto σ α) (f : α → Efecto σ β) (s : σ) :
    (m >>= f) s = match m s with
      | (.ok a, s1) => f a s1
      | (.error e, s1) => (.error e, s1) := rfl
theorem bind_ok (m : Efecto σ α) (f : α → Efecto σ β) (s s1 : σ) (a : α)
    (h : m s = (.ok a, s1)) : (m >>= f) s = f a s1 := by
  rw [bind_apply, h]
theorem bind_error (m : Efecto σ α) (f : α → Efecto σ β) (s s1 : σ) (e : String)
    (h : m s = (.error e, s1)) : (m >>= f) s = (.error e, s1) := by
  rw [bind_apply, h]
@[simp] theorem atrapar_fst (m : Efecto σ Unit) (s : σ) : (atrapar m s).1 = .ok () := by
  unfold atrapar; split <;> rfl
@[simp] theorem atrapar_snd (m : Efecto σ Unit) (s : σ) : (atrapar m s).2 = (m s).2 := by
  unfold atrapar; split <;> simp_all
end Efecto

theorem prop_obj (cs : List (String × JVal)) (k : String) :
    (JVal.obj cs).prop k = .ok ((JVal.obj cs).campo k) := rfl

theorem prop_de_objeto (v : JVal) (k : String) (h : v.esObjeto = true) :
    v.prop k = .ok (v.campo k) := by
  cases v <;> simp [esObjeto] at h
  rfl

theorem objeto_de_campo (v : JVal) (k : String) (h : (v.campo k).esCadena = true) :
    v.esObjeto = true := by
  cases v <;> simp_all [campo, esCadena, esObjeto]

theorem extraer_bienFormado (m : JVal) (h : eventoBienFormado m = true) :
    ∃ x, extraerContenido m = .ok x ∧ x.numeroRemitente = m.campo "from" ∧
      x.tipoMensaje = m.campo "type" := by
  unfold eventoBienFormado at h
  simp only [Bool.and_eq_true] at h
  obtain ⟨⟨⟨⟨ho, hid⟩, hfrom⟩, htype⟩, hp⟩ := h
  unfold extraerContenido
  simp only [prop_de_objeto m _ ho, bind, Except.bind, pure, Except.pure]
  split_ifs at hp ⊢ with h1 h2 h3 h4 h5 h6
  · have ht : (m.campo "text").esObjeto = true := objeto_de_campo _ _ hp
    simp only [prop_de_objeto _ _ ht]
    exact ⟨_, rfl, rfl, rfl⟩
  · unfold medioBienFormado at hp
    simp only [Bool.and_eq_true] at hp
    simp only [prop_de_objeto _ _ hp.1.1]
    exact ⟨_, rfl, rfl, rfl⟩
  · unfold medioBienFormado at hp
    simp only [Bool.and_eq_true] at hp
    simp only [prop_de_objeto _ _ hp.1.1]
    exact ⟨_, rfl, rfl, rfl⟩
  · unfold medioBienFormado at hp
    simp only [Bool.and_eq_true] at hp
    simp only [prop_de_objeto _ _ hp.1.1]
    exact ⟨_, rfl, rfl, rfl⟩
  · unfold medioBienFormado at hp
    simp only [Bool.and_eq_true] at hp
    simp only [prop_de_objeto _ _ hp.1.1]
    exact ⟨_, rfl, rfl, rfl⟩
  · simp only [Bool.and_eq_true] at hp
    obtain ⟨⟨hl, hlat⟩, hlon⟩ := hp
    simp only [prop_de_objeto _ _ hl]
    unfold imprimible at hlat hlon
    cases ha : ((m.campo "location").campo "latitude").aCadena with
    | error e => rw [ha] at hlat; cases hlat
    | ok a =>
      cases hb : ((m.campo "location").campo "longitude").aCadena with
      | error e => rw [hb] at hlon; cases hlon
      | ok b => exact ⟨_, rfl, rfl, rfl⟩
  · obtain ⟨t, ht⟩ : ∃ t, m.campo "type" = .str t := by
      cases hty : m.campo "type" <;> simp_all [esCadena]
    rw [ht]
    exact ⟨_, rfl, rfl, rfl⟩

open Efecto

theorem objeto_de_campo_objeto (v : JVal) (k : String) (h : (v.campo k).esObjeto = true) :
    v.esObjeto = true := by
  cases v <;> simp_all [campo, esObjeto]

theorem verdadero_de_objeto (v : JVal) (h : v.esObjeto = true) : v.esVerdadero = true := by
  cases v <;> simp_all [esObjeto, esVerdadero]

theorem nombre_bienFormado (contacts numero : JVal) (h : contactsBienFormado contacts = true) :
    ∃ nombre, nombreContacto contacts numero = .ok nombre ∧
      (numero.definido = true → nombre.definido = true) := by
  unfold contactsBienFormado at h
  split at h
  · exact ⟨numero, rfl, fun h => h⟩
  · exact ⟨numero, rfl, fun h => h⟩
  · rename_i primero _
    have h1 := objeto_de_campo _ _ h
    have h2 := objeto_de_campo_objeto _ _ h1
    refine ⟨(primero.campo "profile").campo "name", ?_, fun _ => ?_⟩
    · have hv := verdadero_de_objeto _ h2
      have ha : ∀ xs, (JVal.arr xs).esVerdadero = true := fun _ => rfl
      simp [nombreContacto, indice, hv, ha, prop_de_objeto _ _ h2,
        prop_de_objeto _ _ h1, bind, Except.bind]
    · cases hn : (primero.campo "profile").campo "name" <;> simp_all [esCadena, definido]
  · simp at h

theorem resolverContacto_nuevo (esq : Esquema) (contacts numero nombre : JVal) (s : Almacen)
    (hk : s.contactosCon numero = [])
    (hn : nombreContacto contacts numero = .ok nombre)
    (hd : numero.definido = true) (hnd : nombre.definido = true) :
    resolverContacto (bd esq) contacts numero s =
      (.ok s.sigContacto,
        { s with contactos := s.contactos ++ [s.contactoNuevo numero nombre],
                 sigContacto := s.sigContacto + 1 }) := by
  simp [resolverContacto, bind_apply, bd, hk, hn, hd, hnd]

/-- A value that matches a stored number is defined. -/
theorem definido_de_sqlEq (a b : JVal) (h : sqlEq a b = true) : b.definido = true := by
  cases a <;> cases b <;> simp_all [sqlEq, definido]

theorem definido_de_contactosCon (s : Almacen) (numero : JVal) (k : Contacto)
    (resto : List Contacto) (hk : s.contactosCon numero = k :: resto) :
    numero.definido = true := by
  have hm : k ∈ s.contactosCon numero := by rw [hk]; exact List.mem_cons_self _ _
  exact definido_de_sqlEq _ _ (List.mem_filter.1 hm).2

theorem definido_de_cadena (v : JVal) (h : v.esCadena = true) : v.definido = true := by
  cases v <;> simp_all [esCadena, definido]

theorem resolverContacto_existente (esq : Esquema) (contacts numero : JVal) (s : Almacen)
    (k : Contacto) (resto : List Contacto) (hk : s.contactosCon numero = k :: resto) :
    resolverContacto (bd esq) contacts numero s =
      (.ok k.id, { s with contactos := s.contactos.map (tocarContacto k.id s.ahora) }) := by
  simp [resolverContacto, bind_apply, bd, hk, definido_de_contactosCon s numero k resto hk]

theorem resolverConversacion_nueva (esq : Esquema) (contactoId : Nat) (numero : JVal)
    (titulo : String) (s : Almacen) (h : s.abiertasDe contactoId = [])
    (ht : numero.aCadena = .ok titulo) :
    resolverConversacion (bd esq) contactoId numero s =
      (.ok s.sigConversacion,
        { s with conversaciones := s.conversaciones ++
                   [s.conversacionNueva contactoId ("Conversación con " ++ titulo)],
                 sigConversacion := s.sigConversacion + 1 }) := by
  simp [resolverConversacion, bind_apply, bd, h, masReciente, ht]

/-- A title that cannot be printed stops conversation resolution before the insert. -/
theorem resolverConversacion_sin_titulo (esq : Esquema) (contactoId : Nat) (numero : JVal)
    (e : String) (s : Almacen) (h : s.abiertasDe contactoId = [])
    (ht : numero.aCadena = .error e) :
    resolverConversacion (bd esq) contactoId numero s = (.error e, s) := by
  simp [resolverConversacion, bind_apply, bd, h, masReciente, ht]

theorem aCadena_cadena (v : JVal) (h : v.esCadena = true) :
    ∃ t, v = .str t ∧ v.aCadena = .ok t := by
  cases v <;> simp_all [esCadena]
  rfl

theorem resolverConversacion_existente (esq : Esquema) (contactoId : Nat) (numero : JVal)
    (s : Almacen) (c : Conversacion) (h : masReciente (s.abiertasDe contactoId) = some c) :
    resolverConversacion (bd esq) contactoId numero s =
      (.ok c.id,
        { s with conversaciones := s.conversaciones.map (tocarConversacion c.id s.ahora) }) := by
  simp [resolverConversacion, bind_apply, bd, h]


namespace Efecto
variable {σ α β : Type}

theorem preserva_pure (P : σ → Prop) (a : α) : Preserva P (pure a : Efecto σ α) :=
  fun _ h => h

theorem preserva_deExcept (P : σ → Prop) (x : Except String α) :
    Preserva P (deExcept x : Efecto σ α) := fun _ h => h

theorem preserva_bind (P : σ → Prop) (m : Efecto σ α) (f : α → Efecto σ β)
    (hm : Preserva P m) (hf : ∀ a, Preserva P (f a)) : Preserva P (m >>= f) := by
  intro s hs
  rw [bind_apply]
  have h1 := hm s hs
  rcases hms : m s with ⟨r, s1⟩
  rw [hms] at h1
  cases r with
  | error e => exact h1
  | ok a => exact hf a s1 h1

theorem preserva_atrapar (P : σ → Prop) (m : Efecto σ Unit) (hm : Preserva P m) :
    Preserva P (atrapar m) := by
  intro s hs
  rw [atrapar_snd]
  exact hm s hs

theorem preserva_paraCada (P : σ → Prop) (xs : List α) (f : α → Efecto σ Unit)
    (hf : ∀ a, Preserva P (f a)) : Preserva P (paraCada xs f) := by
  induction xs with
  | nil => exact fun _ h => h
  | cons x resto ih =>
    unfold paraCada
    exact preserva_bind P (f x) _ (hf x) (fun _ => ih)

end Efecto

theorem masReciente_eq_none (l : List Conversacion) : masReciente l = none ↔ l = [] := by
  cases l with
  | nil => simp [masReciente]
  | cons c resto =>
    simp only [masReciente]
    split
    · simp
    · split <;> simp

theorem masReciente_mem (l : List Conversacion) (c : Conversacion)
    (h : masReciente l = some c) : c ∈ l := by
  induction l generalizing c with
  | nil => simp [masReciente] at h
  | cons d resto ih =>
    simp only [masReciente] at h
    split at h
    · simp at h; simp [h]
    · rename_i e he
      split at h
      · simp at h; subst h; exact List.mem_cons_of_mem _ (ih e he)
      · simp at h; simp [h]

theorem abiertasDe_congr (s t : Almacen) (h : t.conversaciones = s.conversaciones) (cid : Nat) :
    t.abiertasDe cid = s.abiertasDe cid := by
  simp [abiertasDe, h]

theorem unaAbierta_congr (s t : Almacen) (h : t.conversaciones = s.conversaciones)
    (hs : s.unaAbiertaPorContacto) : t.unaAbiertaPorContacto := by
  intro cid
  rw [abiertasDe_congr s t h]
  exact hs cid

theorem preserva_resolverContacto (esq : Esquema) (contacts numero : JVal)
    (P : Almacen → Prop)
    (hP : ∀ (s : Almacen) ks n, P s → P { s with contactos := ks, sigContacto := n }) :
    Preserva P (resolverContacto (bd esq) contacts numero) := by
  unfold resolverContacto
  refine preserva_bind P _ _ (fun s hs => ?_) (fun contacto => ?_)
  · simp only [bd]
    split_ifs <;> exact hs
  cases contacto with
  | nil =>
    refine preserva_bind P _ _ (preserva_deExcept P _) (fun nombre s hs => ?_)
    simp only [bd]
    split_ifs
    · exact hs
    · exact hs
    · exact hP s _ _ hs
  | cons id resto =>
    refine preserva_bind P _ _ (fun s hs => ?_) (fun _ => preserva_pure P _)
    exact hP s _ s.sigContacto hs

theorem preserva_resolverConversacion (esq : Esquema) (contactoId : Nat) (numero : JVal)
    (P : Almacen → Prop)
    (hP : ∀ (s : Almacen) cs n, P s → P { s with conversaciones := cs, sigConversacion := n }) :
    Preserva P (resolverConversacion (bd esq) contactoId numero) := by
  unfold resolverConversacion
  refine preserva_bind P _ _ (fun s hs => hs) (fun conversacion => ?_)
  cases conversacion with
  | nil =>
    exact preserva_bind P _ _ (preserva_deExcept P _) (fun titulo s hs => hP s _ _ hs)
  | cons id resto =>
    refine preserva_bind P _ _ (fun s hs => ?_) (fun _ => preserva_pure P _)
    exact hP s _ s.sigConversacion hs

theorem preserva_insertMensaje (esq : Esquema) (m : MensajeNuevo) (P : Almacen → Prop)
    (hP : ∀ (s : Almacen) ms n, P s → P { s with mensajes := ms, sigMensaje := n }) :
    Preserva P ((bd esq).insertMensaje m) := by
  intro s hs
  simp only [bd]
  split_ifs
  · exact hs
  · exact hs
  · exact hP s _ _ hs

theorem preserva_updateMensajes (esq : Esquema) (campo : String) (wamid : JVal)
    (P : Almacen → Prop)
    (hP : ∀ (s : Almacen) ms n, P s → P { s with mensajes := ms, sigMensaje := n }) :
    Preserva P ((bd esq).updateMensajes campo wamid) := by
  intro s hs
  simp only [bd]
  split_ifs
  · exact hs
  · exact hP s _ s.sigMensaje hs
  · exact hs

theorem unaAbierta_resolverConversacion (esq : Esquema) (contactoId : Nat) (numero : JVal) :
    Preserva unaAbiertaPorContacto (resolverConversacion (bd esq) contactoId numero) := by
  intro s hs
  cases h : masReciente (s.abiertasDe contactoId) with
  | none =>
    cases ht : numero.aCadena with
    | error e =>
      rw [resolverConversacion_sin_titulo esq contactoId numero e s
        ((masReciente_eq_none _).1 h) ht]
      exact hs
    | ok titulo =>
      rw [resolverConversacion_nueva esq contactoId numero titulo s
        ((masReciente_eq_none _).1 h) ht]
      intro cid
      have h0 := (masReciente_eq_none _).1 h
      simp only [abiertasDe, List.filter_append] at h0 ⊢
      by_cases hc : cid = contactoId
      · subst hc
        rw [h0]
        simp [conversacionNueva]
      · have := hs cid
        simp only [abiertasDe] at this
        simpa [conversacionNueva, Ne.symm hc] using this
  | some c =>
    rw [resolverConversacion_existente esq contactoId numero s c h]
    intro cid
    have := hs cid
    simp only [abiertasDe, List.filter_map] at this ⊢
    rw [List.length_map]
    convert this using 2
    apply List.filter_congr
    intro d _
    simp only [Function.comp, tocarConversacion]
    split_ifs <;> rfl

theorem unaAbierta_procesarMensajeEntrante (esq : Esquema) (message contacts : JVal) :
    Preserva unaAbiertaPorContacto (procesarMensajeEntrante (bd esq) message contacts) := by
  apply preserva_atrapar
  unfold procesarMensajeEntranteCuerpo
  refine preserva_bind _ _ _ (preserva_deExcept _ _) (fun x => ?_)
  refine preserva_bind _ _ _
    (preserva_resolverContacto esq _ _ _ (fun s _ _ h => unaAbierta_congr s _ rfl h))
    (fun contactoId => ?_)
  refine preserva_bind _ _ _ (unaAbierta_resolverConversacion esq _ _) (fun conversacionId => ?_)
  refine preserva_bind _ _ _ (preserva_deExcept _ _) (fun messageId => ?_)
  exact preserva_insertMensaje esq _ _ (fun s _ _ h => unaAbierta_congr s _ rfl h)

theorem preserva_procesarEstadoMensaje (esq : Esquema) (status : JVal) (P : Almacen → Prop)
    (hP : ∀ (s : Almacen) ms n, P s → P { s with mensajes := ms, sigMensaje := n }) :
    Preserva P (procesarEstadoMensaje (bd esq) status) := by
  apply preserva_atrapar
  unfold procesarEstadoMensajeCuerpo
  refine preserva_bind _ _ _ (preserva_deExcept _ _) (fun messageId => ?_)
  refine preserva_bind _ _ _ (preserva_deExcept _ _) (fun estado => ?_)
  split_ifs
  · exact preserva_updateMensajes esq _ _ P hP
  · exact preserva_pure P _


theorem cuerpo_bienFormado {σ : Type} (db : Db σ) (message contacts : JVal)
    (hm : eventoBienFormado message = true) :
    ∃ x, extraerContenido message = .ok x ∧ ∀ s,
      procesarMensajeEntranteCuerpo db message contacts s =
        (resolverContacto db contacts (message.campo "from") >>= fun contactoId =>
          resolverConversacion db contactoId (message.campo "from") >>= fun conversacionId =>
            db.insertMensaje (parametros message x conversacionId)) s := by
  obtain ⟨x, hx, hfrom, _⟩ := extraer_bienFormado message hm
  refine ⟨x, hx, fun s => ?_⟩
  have ho : message.esObjeto = true := by
    unfold eventoBienFormado at hm
    simp only [Bool.and_eq_true] at hm
    exact hm.1.1.1.1
  unfold procesarMensajeEntranteCuerpo
  simp only [bind_apply, deExcept_apply, hx, hfrom, prop_de_objeto _ _ ho, parametros]

theorem id_cadena (message : JVal) (hm : eventoBienFormado message = true) :
    (message.campo "id").esCadena = true := by
  unfold eventoBienFormado at hm
  simp only [Bool.and_eq_true] at hm
  exact hm.1.1.1.2

theorem from_cadena (message : JVal) (hm : eventoBienFormado message = true) :
    (message.campo "from").esCadena = true := by
  unfold eventoBienFormado at hm
  simp only [Bool.and_eq_true] at hm
  exact hm.1.1.2

theorem definido_o (a b : JVal) (hb : b.definido = true) : (a.o b).definido = true := by
  unfold o
  split_ifs with h
  · cases a <;> simp_all [esVerdadero, definido]
  · exact hb

theorem definido_de_objeto (v : JVal) (h : v.esObjeto = true) : v.definido = true := by
  cases v <;> simp_all [esObjeto, definido]

theorem completo_bienFormado (m : JVal) (h : eventoCompleto m = true) :
    eventoBienFormado m = true := by
  unfold eventoCompleto at h
  simp only [Bool.and_eq_true] at h
  exact h.1

/-- Every bind value of the message insert is defined for a well-formed event
whose document, if it is one, carries its filename. -/
theorem parametros_definidos (m : JVal) (h : eventoCompleto m = true) (x : Extraido)
    (hx : extraerContenido m = .ok x) (cid : Nat) :
    (parametros m x cid).definido = true := by
  unfold eventoCompleto at h
  simp only [Bool.and_eq_true, Bool.or_eq_true, decide_eq_true_eq] at h
  obtain ⟨hb, hdoc⟩ := h
  unfold eventoBienFormado at hb
  simp only [Bool.and_eq_true] at hb
  obtain ⟨⟨⟨⟨ho, hid⟩, hfrom⟩, htype⟩, hp⟩ := hb
  have d1 := definido_de_cadena _ hid
  have d2 := definido_de_cadena _ hfrom
  have d3 := definido_de_cadena _ htype
  have d4 := definido_de_objeto _ ho
  have dn : JVal.null.definido = true := rfl
  have ds : ∀ t : String, (JVal.str t).definido = true := fun _ => rfl
  unfold extraerContenido at hx
  simp only [prop_de_objeto m _ ho, bind, Except.bind, pure, Except.pure] at hx
  split_ifs at hp hx with h1 h2 h3 h4 h5 h6
  · have ht : (m.campo "text").esObjeto = true := objeto_de_campo _ _ hp
    simp only [prop_de_objeto _ _ ht] at hx
    cases hx
    simp [parametros, MensajeNuevo.definido, d1, d2, d3, d4, dn, definido_de_cadena _ hp]
  · unfold medioBienFormado at hp
    simp only [Bool.and_eq_true] at hp
    simp only [prop_de_objeto _ _ hp.1.1] at hx
    cases hx
    simp [parametros, MensajeNuevo.definido, d1, d2, d3, d4, dn, definido_de_cadena _ hp.1.2,
      definido_de_cadena _ hp.2, definido_o _ _ (ds _)]
  · unfold medioBienFormado at hp
    simp only [Bool.and_eq_true] at hp
    simp only [prop_de_objeto _ _ hp.1.1] at hx
    cases hx
    have hf : ((m.campo "document").campo "filename").definido = true := by
      rcases hdoc with hdoc | hdoc
      · exact absurd h3 hdoc
      · exact hdoc
    simp [parametros, MensajeNuevo.definido, d1, d2, d3, d4, dn, definido_de_cadena _ hp.1.2,
      definido_de_cadena _ hp.2, definido_o _ _ (ds _), hf]
  · unfold medioBienFormado at hp
    simp only [Bool.and_eq_true] at hp
    simp only [prop_de_objeto _ _ hp.1.1] at hx
    cases hx
    simp [parametros, MensajeNuevo.definido, d1, d2, d3, d4, dn, definido_de_cadena _ hp.1.2,
      definido_de_cadena _ hp.2, ds]
  · unfold medioBienFormado at hp
    simp only [Bool.and_eq_true] at hp
    simp only [prop_de_objeto _ _ hp.1.1] at hx
    cases hx
    simp [parametros, MensajeNuevo.definido, d1, d2, d3, d4, dn, definido_de_cadena _ hp.1.2,
      definido_de_cadena _ hp.2, definido_o _ _ (ds _)]
  · simp only [Bool.and_eq_true] at hp
    obtain ⟨⟨hl, hlat⟩, hlon⟩ := hp
    simp only [prop_de_objeto _ _ hl] at hx
    cases ha : ((m.campo "location").campo "latitude").aCadena with
    | error e => rw [ha] at hx; cases hx
    | ok a =>
      cases hb : ((m.campo "location").campo "longitude").aCadena with
      | error e => rw [ha, hb] at hx; cases hx
      | ok b =>
        rw [ha, hb] at hx
        cases hx
        simp [parametros, MensajeNuevo.definido, d1, d2, d3, d4, dn, ds]
  · obtain ⟨t, ht⟩ : ∃ t, m.campo "type" = .str t := by
      cases hty : m.campo "type" <;> simp_all [esCadena]
    rw [ht] at hx
    cases hx
    simp [parametros, MensajeNuevo.definido, d1, d2, d4, dn, ds]

theorem insertMensaje_ok (esq : Esquema) (p : MensajeNuevo) (s : Almacen)
    (hd : p.definido = true)
    (h : esq.mensajeIdUnico = true → s.mensajesCon p.whatsapp_message_id = []) :
    (bd esq).insertMensaje p s =
      (.ok (), { s with mensajes := s.mensajes ++ [s.mensajeNuevo p],
                        sigMensaje := s.sigMensaje + 1 }) := by
  simp only [bd, hd, Bool.not_true, Bool.false_eq_true, if_false]
  rw [if_neg]
  intro hc
  simp only [Bool.and_eq_true, decide_eq_true_eq] at hc
  exact hc.2 (by rw [h hc.1]; rfl)

theorem insertMensaje_rechazado (esq : Esquema) (p : MensajeNuevo) (s : Almacen)
    (hd : p.definido = true)
    (hu : esq.mensajeIdUnico = true) (h : s.mensajesCon p.whatsapp_message_id ≠ []) :
    (bd esq).insertMensaje p s = (.error "ER_DUP_ENTRY: mensajes.whatsapp_message_id", s) := by
  simp only [bd, hd, Bool.not_true, Bool.false_eq_true, if_false]
  rw [if_pos]
  simp only [Bool.and_eq_true, decide_eq_true_eq]
  exact ⟨hu, fun hl => h (List.length_eq_zero.1 hl)⟩

/-- An insert with an undefined parameter throws before it is sent. -/
theorem insertMensaje_indefinido (esq : Esquema) (p : MensajeNuevo) (s : Almacen)
    (hd : p.definido = false) :
    (bd esq).insertMensaje p s = (.error sinDefinir, s) := by
  simp only [bd, hd, Bool.not_false, if_true]

/-- An insert that finds the external id stored under the uniqueness
constraint leaves the store as it was, whatever its parameters. -/
theorem insertMensaje_repetido (esq : Esquema) (p : MensajeNuevo) (s : Almacen)
    (hu : esq.mensajeIdUnico = true) (h : s.mensajesCon p.whatsapp_message_id ≠ []) :
    ((bd esq).insertMensaje p s).2 = s := by
  cases hd : p.definido with
  | false => rw [insertMensaje_indefinido esq p s hd]
  | true => rw [insertMensaje_rechazado esq p s hd hu h]

theorem sqlEq_cadena (a b : JVal) (hb : b.esCadena = true) : sqlEq a b = decide (a = b) := by
  cases b <;> simp [esCadena] at hb
  cases a <;> simp [sqlEq]

theorem resolverContacto_exito (esq : Esquema) (contacts numero : JVal) (s : Almacen)
    (hc : contactsBienFormado contacts = true) (hd : numero.definido = true) :
    ∃ contactoId ks n, resolverContacto (bd esq) contacts numero s =
      (.ok contactoId, { s with contactos := ks, sigContacto := n }) := by
  cases hk : s.contactosCon numero with
  | nil =>
    obtain ⟨nombre, hn, hnd⟩ := nombre_bienFormado contacts numero hc
    exact ⟨_, _, _, resolverContacto_nuevo esq contacts numero nombre s hk hn hd (hnd hd)⟩
  | cons k resto =>
    exact ⟨_, _, s.sigContacto, resolverContacto_existente esq contacts numero s k resto hk⟩

theorem resolverConversacion_exito (esq : Esquema) (contactoId : Nat) (numero : JVal)
    (titulo : String) (s : Almacen) (ht : numero.aCadena = .ok titulo) :
    ∃ conversacionId cs n, resolverConversacion (bd esq) contactoId numero s =
      (.ok conversacionId, { s with conversaciones := cs, sigConversacion := n }) := by
  cases h : masReciente (s.abiertasDe contactoId) with
  | none =>
    exact ⟨_, _, _, resolverConversacion_nueva esq contactoId numero titulo s
      ((masReciente_eq_none _).1 h) ht⟩
  | some c =>
    exact ⟨_, _, s.sigConversacion, resolverConversacion_existente esq contactoId numero s c h⟩

theorem mensajes_tras_recibir (esq : Esquema) (message contacts : JVal) (s : Almacen)
    (hm : eventoCompleto message = true) (hc : contactsBienFormado contacts = true) :
    ∃ r : Mensaje, r.whatsapp_message_id = message.campo "id" ∧
      (recibir esq message contacts s).mensajes =
        if esq.mensajeIdUnico = true ∧ s.mensajesCon (message.campo "id") ≠ [] then s.mensajes
        else s.mensajes ++ [r] := by
  have hb := completo_bienFormado message hm
  obtain ⟨x, hx, hcuerpo⟩ := cuerpo_bienFormado (bd esq) message contacts hb
  obtain ⟨titulo, _, ht⟩ := aCadena_cadena _ (from_cadena message hb)
  obtain ⟨cid, ks, n, h1⟩ := resolverContacto_exito esq contacts (message.campo "from") s hc
    (definido_de_cadena _ (from_cadena message hb))
  obtain ⟨vid, cs, n2, h2⟩ := resolverConversacion_exito esq cid (message.campo "from") titulo
    { s with contactos := ks, sigContacto := n } ht
  have hd := parametros_definidos message hm x hx vid
  refine ⟨Almacen.mensajeNuevo s (parametros message x vid), rfl, ?_⟩
  simp only [recibir, procesarMensajeEntrante, atrapar_snd, hcuerpo]
  rw [bind_ok _ _ _ _ _ h1, bind_ok _ _ _ _ _ h2]
  by_cases hr : esq.mensajeIdUnico = true ∧ s.mensajesCon (message.campo "id") ≠ []
  · rw [if_pos hr, insertMensaje_rechazado esq _ _ (by exact hd) hr.1 (by exact hr.2)]
  · rw [if_neg hr, insertMensaje_ok esq _ _ (by exact hd) (fun hu => by
      by_contra hne
      exact hr ⟨hu, hne⟩)]
    rfl

theorem filter_sqlEq_cadena (l : List Mensaje) (v : JVal) (hv : v.esCadena = true) :
    l.filter (fun r => sqlEq r.whatsapp_message_id v) =
      l.filter (fun r => decide (r.whatsapp_message_id = v)) := by
  apply List.filter_congr
  intro r _
  exact sqlEq_cadena _ _ hv

/-- After a well-formed event the number of rows with its external id is one
when there was none, and unchanged otherwise (under the uniqueness constraint). -/
theorem cuenta_tras_recibir (esq : Esquema) (hu : esq.mensajeIdUnico = true)
    (message contacts : JVal) (s : Almacen)
    (hm : eventoCompleto message = true) (hc : contactsBienFormado contacts = true) :
    ((recibir esq message contacts s).mensajesCon (message.campo "id")).length =
      if (s.mensajesCon (message.campo "id")).length = 0 then 1
      else (s.mensajesCon (message.campo "id")).length := by
  obtain ⟨r, hr, hms⟩ := mensajes_tras_recibir esq message contacts s hm hc
  have hid := id_cadena message (completo_bienFormado message hm)
  simp only [mensajesCon, hms]
  by_cases h0 : (List.filter (fun m => sqlEq m.whatsapp_message_id (message.campo "id"))
      s.mensajes).length = 0
  · have hnil := List.length_eq_zero.1 h0
    rw [if_neg (by simp [mensajesCon, hnil]), if_pos h0, List.filter_append, hnil]
    have : sqlEq r.whatsapp_message_id (message.campo "id") = true := by
      rw [sqlEq_cadena _ _ hid, hr]; simp
    simp [this]
  · rw [if_pos ⟨hu, by simpa [mensajesCon, List.length_eq_zero] using h0⟩, if_neg h0]

@[simp] theorem tocarContacto_id (id t : Nat) (k : Contacto) :
    (tocarContacto id t k).id = k.id := by
  unfold tocarContacto; split <;> rfl

@[simp] theorem tocarContacto_numero (id t : Nat) (k : Contacto) :
    (tocarContacto id t k).numero_whatsapp = k.numero_whatsapp := by
  unfold tocarContacto; split <;> rfl

@[simp] theorem tocarConversacion_id (id t : Nat) (c : Conversacion) :
    (tocarConversacion id t c).id = c.id := by
  unfold tocarConversacion; split <;> rfl

@[simp] theorem tocarConversacion_contacto (id t : Nat) (c : Conversacion) :
    (tocarConversacion id t c).contacto_id = c.contacto_id := by
  unfold tocarConversacion; split <;> rfl

@[simp] theorem tocarConversacion_estado (id t : Nat) (c : Conversacion) :
    (tocarConversacion id t c).estado = c.estado := by
  unfold tocarConversacion; split <;> rfl

theorem tocarConversacion_fecha (id t : Nat) (c : Conversacion) (h : c.id = id) :
    (tocarConversacion id t c).fecha_ultima_actividad = some t := by
  unfold tocarConversacion; rw [if_pos h]

theorem filter_tocarContacto (l : List Contacto) (id t : Nat) (numero : JVal) :
    (l.map (tocarContacto id t)).filter (fun k => sqlEq k.numero_whatsapp numero) =
      (l.filter (fun k => sqlEq k.numero_whatsapp numero)).map (tocarContacto id t) := by
  rw [List.filter_map]
  congr 1
  apply List.filter_congr
  intro k _
  simp

theorem filter_tocarConversacion (l : List Conversacion) (id t contactoId : Nat) :
    (l.map (tocarConversacion id t)).filter
        (fun c => decide (c.contacto_id = contactoId ∧ c.estado ≠ "cerrado")) =
      (l.filter (fun c => decide (c.contacto_id = contactoId ∧ c.estado ≠ "cerrado"))).map
        (tocarConversacion id t) := by
  rw [List.filter_map]
  congr 1
  apply List.filter_congr
  intro k _
  simp

/-- The store after a complete well-formed event from a known contact whose
most recently active open conversation is `c`, with an external id the store
accepts. -/
theorem recibir_reutiliza (esq : Esquema) (s : Almacen) (message contacts : JVal)
    (k : Contacto) (resto : List Contacto) (c : Conversacion)
    (hm : eventoCompleto message = true)
    (hk : s.contactosCon (message.campo "from") = k :: resto)
    (hab : masReciente (s.abiertasDe k.id) = some c)
    (hfresco : esq.mensajeIdUnico = true → s.mensajesCon (message.campo "id") = []) :
    ∃ r : Mensaje, r.whatsapp_message_id = message.campo "id" ∧ r.conversacion_id = c.id ∧
      recibir esq message contacts s =
        { s with contactos := s.contactos.map (tocarContacto k.id s.ahora),
                 conversaciones := s.conversaciones.map (tocarConversacion c.id s.ahora),
                 mensajes := s.mensajes ++ [r],
                 sigMensaje := s.sigMensaje + 1 } := by
  obtain ⟨x, hx, hcuerpo⟩ := cuerpo_bienFormado (bd esq) message contacts
    (completo_bienFormado message hm)
  have h1 := resolverContacto_existente esq contacts _ s k resto hk
  have hmr : masReciente (Almacen.abiertasDe
      { s with contactos := s.contactos.map (tocarContacto k.id s.ahora) } k.id) = some c := hab
  have h2 := resolverConversacion_existente esq k.id (message.campo "from") _ c hmr
  refine ⟨s.mensajeNuevo (parametros message x c.id), rfl, rfl, ?_⟩
  simp only [recibir, procesarMensajeEntrante, atrapar_snd, hcuerpo]
  rw [bind_ok _ _ _ _ _ h1, bind_ok _ _ _ _ _ h2,
    insertMensaje_ok esq _ _ (by exact parametros_definidos message hm x hx c.id)
      (by exact hfresco)]
  rfl

theorem campoValido_updateField (estado : JVal) (h : updateField estado ≠ "") :
    campoValido (updateField estado) = true := by
  unfold updateField at h ⊢
  split_ifs at h ⊢ <;> first | rfl | exact absurd rfl h

/-- The store after a status event that is an object. -/
theorem recibirEstado_objeto (esq : Esquema) (status : JVal) (s : Almacen)
    (ho : status.esObjeto = true) :
    procesarEstadoMensaje (bd esq) status s =
      (.ok (), if updateField (status.campo "status") = "" then s
        else { s with mensajes := (s.mensajes.map
                (marcar (updateField (status.campo "status")) (status.campo "id") s.ahora)) }) := by
  unfold procesarEstadoMensaje atrapar procesarEstadoMensajeCuerpo
  simp only [bind_apply, deExcept_apply, prop_de_objeto _ _ ho]
  by_cases h : updateField (status.campo "status") = ""
  · simp [h]
  · cases hd : (status.campo "id").definido with
    | true => simp [h, bd, hd, campoValido_updateField _ h]
    | false =>
      have hu : status.campo "id" = .undefined := by
        cases hi : status.campo "id" <;> simp_all [definido]
      have hmap : s.mensajes.map (marcar (updateField (status.campo "status"))
          (status.campo "id") s.ahora) = s.mensajes := by
        conv_rhs => rw [← List.map_id s.mensajes]
        apply List.map_congr_left
        intro r _
        rw [hu]
        cases hw : r.whatsapp_message_id <;> simp [marcar, sqlEq]
      simp [h, bd, hd, hmap]

/-- A status event that is not an object changes nothing. -/
theorem recibirEstado_no_objeto (esq : Esquema) (status : JVal) (s : Almacen)
    (ho : status.esObjeto = false) :
    procesarEstadoMensaje (bd esq) status s = (.ok (), s) := by
  unfold procesarEstadoMensaje atrapar procesarEstadoMensajeCuerpo
  cases status <;> simp [esObjeto] at ho <;>
    simp [bind_apply, deExcept_apply, JVal.prop, updateField]

theorem marcar_sin_efecto (campo : String) (wamid : JVal) (t : Nat) (l : List Mensaje)
    (h : ∀ r ∈ l, sqlEq r.whatsapp_message_id wamid = false) :
    l.map (marcar campo wamid t) = l := by
  conv_rhs => rw [← List.map_id l]
  apply List.map_congr_left
  intro r hr
  simp [marcar, h r hr]

theorem marcar_mem (campo : String) (wamid : JVal) (t : Nat) (l : List Mensaje) (r : Mensaje)
    (hr : r ∈ l) : marcar campo wamid t r ∈ l.map (marcar campo wamid t) :=
  List.mem_map_of_mem _ hr

/-! ## Lemmas: when the webhook handler throws -/

theorem prop_noNulo (v : JVal) (k : String) (h : v.noNulo = true) :
    v.prop k = .ok (v.campo k) := by
  cases v <;> simp [noNulo] at h <;> rfl

theorem prop_nulo (v : JVal) (k : String) (h : v.noNulo = false) :
    ∃ e, v.prop k = .error e := by
  cases v <;> simp [noNulo] at h
  · exact ⟨_, rfl⟩
  · exact ⟨_, rfl⟩

theorem iterar_iterable (v : JVal) (h : v.iterable = true) : v.iterar = .ok v.elementos := by
  cases v <;> simp [iterable] at h <;> rfl

theorem iterar_no_iterable (v : JVal) (h : v.iterable = false) : ∃ e, v.iterar = .error e := by
  cases v <;> simp [iterable] at h <;> exact ⟨_, rfl⟩

theorem paraCada_esOk {σ α : Type} (xs : List α) (f : α → Efecto σ Unit) (p : α → Bool)
    (hf : ∀ x s, esOk (f x s).1 = p x) (s : σ) :
    esOk (paraCada xs f s).1 = xs.all p := by
  induction xs generalizing s with
  | nil => rfl
  | cons x resto ih =>
    have hx := hf x s
    simp only [paraCada, ligar, List.all_cons]
    rcases hfx : f x s with ⟨r, s1⟩
    rw [hfx] at hx
    cases r with
    | error e =>
      simp only [esOk] at hx ⊢
      rw [← hx]; rfl
    | ok a =>
      simp only [esOk] at hx
      rw [← hx, Bool.true_and]
      exact ih s1

theorem procesarMensajeEntrante_esOk {σ : Type} (db : Db σ) (message contacts : JVal) (s : σ) :
    esOk (procesarMensajeEntrante db message contacts s).1 = true := by
  unfold procesarMensajeEntrante
  rw [atrapar_fst]; rfl

theorem procesarEstadoMensaje_esOk {σ : Type} (db : Db σ) (status : JVal) (s : σ) :
    esOk (procesarEstadoMensaje db status s).1 = true := by
  unfold procesarEstadoMensaje
  rw [atrapar_fst]; rfl

theorem paraCada_ok {σ α : Type} (xs : List α) (f : α → Efecto σ Unit)
    (hf : ∀ x s, esOk (f x s).1 = true) (s : σ) :
    ∃ s1, paraCada xs f s = (.ok (), s1) := by
  have h := paraCada_esOk xs f (fun _ => true) hf s
  rcases hp : paraCada xs f s with ⟨r, s1⟩
  rw [hp] at h
  cases r with
  | error e => simp [esOk] at h
  | ok a => exact ⟨s1, rfl⟩

theorem esOk_bind_const {σ α β : Type} (m : Efecto σ α) (f : α → Efecto σ β) (q : Bool)
    (hf : ∀ a s, esOk (f a s).1 = q) (s : σ) :
    esOk ((m >>= f) s).1 = (esOk (m s).1 && q) := by
  rw [bind_apply]
  rcases hm : m s with ⟨r, s1⟩
  cases r with
  | error e => rfl
  | ok a =>
    show esOk (f a s1).1 = (true && q)
    rw [Bool.true_and]
    exact hf a s1

theorem paraCada_siempre_ok {σ α : Type} (xs : List α) (f : α → Efecto σ Unit)
    (hf : ∀ x s, esOk (f x s).1 = true) (s : σ) : esOk (paraCada xs f s).1 = true := by
  rw [paraCada_esOk xs f (fun _ => true) hf s]
  simp

/-- A loop whose body never throws fails only when its subject is truthy and
not iterable. -/
theorem bucle_esOk {σ : Type} (v : JVal) (f : JVal → Efecto σ Unit)
    (hf : ∀ x s, esOk (f x s).1 = true) (s : σ) :
    esOk ((if v.esVerdadero = true then do
            let lista ← deExcept v.iterar
            paraCada lista f
          else pure ()) s).1 = (!v.esVerdadero || v.iterable) := by
  cases hv : v.esVerdadero with
  | false => simp [esOk]
  | true =>
    simp only [if_true, Bool.not_true, Bool.false_or]
    rw [esOk_bind_const _ _ true (fun lista s => paraCada_siempre_ok lista f hf s)]
    cases hi : v.iterable with
    | false =>
      obtain ⟨e, he⟩ := iterar_no_iterable v hi
      simp [he, esOk]
    | true => simp [iterar_iterable v hi, esOk]

theorem procesarMensajes_esOk {σ : Type} (db : Db σ) (value : JVal) (s : σ) :
    esOk (procesarMensajes db value s).1 =
      (value.noNulo &&
        (!(value.campo "messages").esVerdadero || (value.campo "messages").iterable)) := by
  unfold procesarMensajes
  cases hv : value.noNulo with
  | false =>
    obtain ⟨e, he⟩ := prop_nulo value "messages" hv
    simp [bind_apply, he, esOk]
  | true =>
    rw [bind_apply]
    simp only [deExcept_apply, prop_noNulo _ _ hv, Bool.true_and]
    exact bucle_esOk _ _
      (fun x s => by rw [bind_apply]; exact procesarMensajeEntrante_esOk db x _ s) s

theorem procesarEstados_esOk {σ : Type} (db : Db σ) (value : JVal) (s : σ) :
    esOk (procesarEstados db value s).1 =
      (value.noNulo &&
        (!(value.campo "statuses").esVerdadero || (value.campo "statuses").iterable)) := by
  unfold procesarEstados
  cases hv : value.noNulo with
  | false =>
    obtain ⟨e, he⟩ := prop_nulo value "statuses" hv
    simp [bind_apply, he, esOk]
  | true =>
    rw [bind_apply]
    simp only [deExcept_apply, prop_noNulo _ _ hv, Bool.true_and]
    exact bucle_esOk _ _ (fun x s => procesarEstadoMensaje_esOk db x s) s

theorem procesarChange_esOk {σ : Type} (db : Db σ) (change : JVal) (s : σ) :
    esOk (procesarChange db change s).1 = changeRecorrible change := by
  unfold procesarChange changeRecorrible
  cases hn : change.noNulo with
  | false =>
    obtain ⟨e, he⟩ := prop_nulo change "field" hn
    simp [bind_apply, he, esOk]
  | true =>
    rw [bind_apply]
    simp only [deExcept_apply, prop_noNulo _ _ hn, Bool.true_and]
    by_cases hf : change.campo "field" = .str "messages"
    · simp only [hf, if_true, decide_True, Bool.not_true, Bool.false_or]
      rw [bind_apply]
      simp only [deExcept_apply]
      rw [esOk_bind_const _ _ _ (fun _ s1 => procesarEstados_esOk db _ s1),
        procesarMensajes_esOk]
      unfold valueRecorrible
      cases (change.campo "value").noNulo <;> simp
    · simp [hf, esOk]

theorem procesarEntry_esOk {σ : Type} (db : Db σ) (entry : JVal) (s : σ) :
    esOk (procesarEntry db entry s).1 = entryRecorrible entry := by
  unfold procesarEntry entryRecorrible
  cases hn : entry.noNulo with
  | false =>
    obtain ⟨e, he⟩ := prop_nulo entry "changes" hn
    simp [bind_apply, he, esOk]
  | true =>
    rw [bind_apply]
    simp only [deExcept_apply, prop_noNulo _ _ hn, Bool.true_and]
    rw [bind_apply]
    cases hi : ((entry.campo "changes").o (.arr [])).iterable with
    | false =>
      obtain ⟨e, he⟩ := iterar_no_iterable _ hi
      simp [he, esOk]
    | true =>
      simp only [deExcept_apply, iterar_iterable _ hi, Bool.true_and]
      exact paraCada_esOk _ _ _ (procesarChange_esOk db) s

theorem postWebhookCuerpo_esOk {σ : Type} (db : Db σ) (body : JVal) (s : σ) :
    esOk (postWebhookCuerpo db body s).1 = cuerpoRecorrible body := by
  unfold postWebhookCuerpo cuerpoRecorrible
  cases hn : body.noNulo with
  | false =>
    obtain ⟨e, he⟩ := prop_nulo body "object" hn
    simp [bind_apply, he, esOk]
  | true =>
    rw [bind_apply]
    simp only [deExcept_apply, prop_noNulo _ _ hn, Bool.true_and]
    by_cases ho : body.campo "object" = .str "whatsapp_business_account"
    · simp only [ho, if_true, decide_True, Bool.not_true, Bool.false_or]
      rw [bind_apply]
      simp only [deExcept_apply]
      rw [bind_apply]
      cases hi : ((body.campo "entry").o (.arr [])).iterable with
      | false =>
        obtain ⟨e, he⟩ := iterar_no_iterable _ hi
        simp [he, esOk]
      | true =>
        simp only [deExcept_apply, iterar_iterable _ hi, Bool.true_and]
        exact paraCada_esOk _ _ _ (procesarEntry_esOk db) s
    · simp [ho, esOk]

/-! ## Lemmas: staff updates and the single-open-conversation invariant -/

theorem aplicar_contacto (ahora : Nat) (c : Conversacion) (a : Asignacion) :
    (a.aplicar ahora c).contacto_id = c.contacto_id := by
  cases a <;> rfl

theorem foldl_aplicar_contacto (ahora : Nat) (campos : List Asignacion) (c : Conversacion) :
    (campos.foldl (Asignacion.aplicar ahora) c).contacto_id = c.contacto_id := by
  induction campos generalizing c with
  | nil => rfl
  | cons a resto ih => rw [List.foldl_cons, ih, aplicar_contacto]

theorem foldl_aplicar_estado (ahora : Nat) (campos : List Asignacion) (c : Conversacion) :
    (campos.foldl (Asignacion.aplicar ahora) c).estado = c.estado ∨
    ∃ e, Asignacion.estado e ∈ campos ∧
      (campos.foldl (Asignacion.aplicar ahora) c).estado = e := by
  induction campos generalizing c with
  | nil => exact Or.inl rfl
  | cons a resto ih =>
    rw [List.foldl_cons]
    rcases ih (a.aplicar ahora c) with h | ⟨e, he, hr⟩
    · cases a with
      | estado e => exact Or.inr ⟨e, List.mem_cons_self _ _, h⟩
      | _ => exact Or.inl h
    · exact Or.inr ⟨e, List.mem_cons_of_mem _ he, hr⟩

theorem estado_en_updateFields (s : Almacen) (body : JVal) (campos : List Asignacion)
    (e : String) (h : updateFields s body = .ok campos) (he : Asignacion.estado e ∈ campos) :
    Asignacion.estado e ∈ camposEstado (body.campo "estado") := by
  unfold updateFields at h
  simp only [bind, Except.bind, pure, Except.pure] at h
  split at h
  · simp at h
  · rename_i asunto ha
    split at h
    · simp at h
    · rename_i equipo hq
      split at h
      · simp at h
      · rename_i usuario hu
        split at h
        · simp at h
        · rename_i satisfaccion hsat
          simp only [Except.ok.injEq] at h
          subst h
          have r1 : Asignacion.estado e ∉ asunto := by
            unfold camposReferencia at ha
            split_ifs at ha <;> simp at ha <;> subst ha <;> simp
          have r2 : Asignacion.estado e ∉ equipo := by
            unfold camposReferencia at hq
            split_ifs at hq <;> simp at hq <;> subst hq <;> simp
          have r3 : Asignacion.estado e ∉ usuario := by
            unfold camposReferencia at hu
            split_ifs at hu <;> simp at hu <;> subst hu <;> simp
          have r4 : Asignacion.estado e ∉ camposPrioridad (body.campo "prioridad") := by
            unfold camposPrioridad; split_ifs <;> simp
          have r5 : ∀ v f, (∀ x, f x ≠ Asignacion.estado e) →
              Asignacion.estado e ∉ campoLibre v f := by
            intro v f hf
            unfold campoLibre; split_ifs
            · simp
            · simp; exact fun h => hf v h.symm
          have r6 : Asignacion.estado e ∉ satisfaccion := by
            unfold camposSatisfaccion at hsat
            split_ifs at hsat
            · simp at hsat; subst hsat; simp
            · split at hsat
              · simp at hsat
              · split_ifs at hsat <;> simp at hsat <;> subst hsat <;> simp
              · simp at hsat; subst hsat; simp
          simp only [List.mem_append, List.mem_singleton] at he
          rcases he with ((((((((h | h) | h) | h) | h) | h) | h) | h) | h) | h
          · exact absurd h r1
          · exact absurd h r2
          · exact absurd h r3
          · exact h
          · exact absurd h r4
          · exact absurd h (r5 _ _ (by intro x hx; cases hx))
          · exact absurd h (r5 _ _ (by intro x hx; cases hx))
          · exact absurd h (r5 _ _ (by intro x hx; cases hx))
          · exact absurd h r6
          · cases h


/-- A row-wise update that keeps the contact and opens nothing cannot raise
the number of open conversations of a contact. -/
theorem abiertas_no_crecen (l : List Conversacion) (f : Conversacion → Conversacion)
    (contactoId : Nat)
    (hf : ∀ c ∈ l, (f c).contacto_id = c.contacto_id ∧
      ((f c).estado ≠ "cerrado" → c.estado ≠ "cerrado")) :
    ((l.map f).filter
        (fun c => decide (c.contacto_id = contactoId ∧ c.estado ≠ "cerrado"))).length ≤
      (l.filter
        (fun c => decide (c.contacto_id = contactoId ∧ c.estado ≠ "cerrado"))).length := by
  induction l with
  | nil => simp
  | cons c resto ih =>
    have hc := hf c (List.mem_cons_self _ _)
    have ih2 := ih (fun d hd => hf d (List.mem_cons_of_mem _ hd))
    simp only [List.map_cons, List.filter_cons]
    by_cases h1 : (f c).contacto_id = contactoId ∧ (f c).estado ≠ "cerrado"
    · have h2 : c.contacto_id = contactoId ∧ c.estado ≠ "cerrado" :=
        ⟨hc.1 ▸ h1.1, hc.2 h1.2⟩
      simp only [ne_eq] at h1 h2 ih2 ⊢
      simp only [h1, h2, and_self, decide_True, if_true, List.length_cons, not_false_eq_true]
      omega
    · simp only [h1, decide_False, Bool.false_eq_true, if_false]
      split_ifs
      · simp only [List.length_cons]; omega
      · exact ih2

theorem unaAbierta_putConversaciones (usuario : Usuario) (id : Nat) (body : JVal) (s : Almacen)
    (hs : s.unaAbiertaPorContacto) (hno : noReabre s id body) :
    (putConversaciones usuario id body s).2.unaAbiertaPorContacto := by
  unfold putConversaciones
  split_ifs
  · exact hs
  · split
    · exact hs
    · split_ifs
      · exact hs
      · split
        · exact hs
        · rename_i campos hcampos
          split_ifs
          · exact hs
          · intro contactoId
            refine le_trans (abiertas_no_crecen _ _ contactoId ?_) (hs contactoId)
            intro c hc
            unfold actualizarConversacion
            split_ifs with hid
            · refine ⟨foldl_aplicar_contacto _ _ _, fun hab hce => ?_⟩
              rcases foldl_aplicar_estado s.ahora campos c with h | ⟨e, he, hr⟩
              · exact hab (h.trans hce)
              · have hmem := estado_en_updateFields s body campos e hcampos he
                rcases hno ⟨c, hc, hid, hce⟩ with hb | hb
                · rw [hb] at hmem
                  have : e = "cerrado" := by
                    simp [camposEstado, esVerdadero, estadosValidos] at hmem
                    exact hmem
                  exact hab (hr.trans this)
                · rw [hb] at hmem
                  cases hmem
            · exact ⟨rfl, fun h => h⟩

/-! ## Lemmas: batches, events and the stored row -/

theorem procesarMensajeEntrante_extraccion_fallida {σ : Type} (db : Db σ)
    (message contacts : JVal) (s : σ) (e : String) (h : extraerContenido message = .error e) :
    procesarMensajeEntrante db message contacts s = (.ok (), s) := by
  unfold procesarMensajeEntrante atrapar procesarMensajeEntranteCuerpo
  simp [bind_apply, h]

theorem paraCada_append {σ α : Type} (xs ys : List α) (f : α → Efecto σ Unit) (s : σ) :
    paraCada (xs ++ ys) f s =
      match paraCada xs f s with
      | (.ok _, s1) => paraCada ys f s1
      | (.error e, s1) => (.error e, s1) := by
  induction xs generalizing s with
  | nil => rfl
  | cons x resto ih =>
    simp only [List.cons_append, paraCada, ligar]
    rcases f x s with ⟨r, s1⟩
    cases r with
    | error e => rfl
    | ok a => exact ih s1

theorem paraCada_sin_efecto {σ α : Type} (xs ys : List α) (x : α) (f : α → Efecto σ Unit)
    (hx : ∀ s, f x s = (.ok (), s)) (s : σ) :
    paraCada (xs ++ x :: ys) f s = paraCada (xs ++ ys) f s := by
  rw [paraCada_append, paraCada_append]
  rcases paraCada xs f s with ⟨r, s1⟩
  cases r with
  | error e => rfl
  | ok a =>
    show paraCada (x :: ys) f s1 = paraCada ys f s1
    simp only [paraCada, ligar, hx]

theorem procesarMensajes_sin_malformado {σ : Type} (db : Db σ) (malo : JVal)
    (antes despues : List JVal) (resto : List (String × JVal)) (s : σ) (e : String)
    (hmalo : extraerContenido malo = .error e) :
    procesarMensajes db (.obj (("messages", .arr (antes ++ malo :: despues)) :: resto)) s =
      procesarMensajes db (.obj (("messages", .arr (antes ++ despues)) :: resto)) s := by
  unfold procesarMensajes
  simp only [bind_apply, deExcept_apply, JVal.prop, buscar, if_true, esVerdadero, iterar]
  exact paraCada_sin_efecto antes despues malo _
    (fun s1 => by
      rw [bind_apply]
      exact procesarMensajeEntrante_extraccion_fallida db malo _ s1 e hmalo) s

theorem procesarEstados_resto {σ : Type} (db : Db σ) (a b : JVal)
    (resto : List (String × JVal)) (s : σ) :
    procesarEstados db (.obj (("messages", a) :: resto)) s =
      procesarEstados db (.obj (("messages", b) :: resto)) s := by
  unfold procesarEstados
  simp [bind_apply, JVal.prop, buscar]

theorem paraCada_uno {σ α : Type} (x : α) (f : α → Efecto σ Unit) (s : σ) :
    paraCada [x] f s =
      match f x s with
      | (.ok _, s1) => (.ok (), s1)
      | (.error e, s1) => (.error e, s1) := by
  simp only [paraCada, ligar]
  rcases f x s with ⟨r, s1⟩
  cases r <;> rfl

theorem procesarChange_messages {σ : Type} (db : Db σ) (value : JVal) (s : σ) :
    procesarChange db (.obj [("field", .str "messages"), ("value", value)]) s =
      (procesarMensajes db value >>= fun _ => procesarEstados db value) s := by
  unfold procesarChange
  simp [bind_apply, JVal.prop, buscar]

/-- The handler on a body with a single change of field messages. -/
theorem postWebhook_cuerpoCon {σ : Type} (db : Db σ) (value : JVal) (s : σ) :
    postWebhook db (cuerpoCon value) s =
      match (procesarMensajes db value >>= fun _ => procesarEstados db value) s with
      | (.ok _, s1) => ({ status := 200, cuerpo := "OK" }, s1)
      | (.error _, s1) => ({ status := 500, cuerpo := "Error" }, s1) := by
  have hc := procesarChange_messages db value
  generalize (procesarMensajes db value >>= fun _ => procesarEstados db value) = m at hc ⊢
  have hentry : ∀ s, procesarEntry db
      (.obj [("changes", .arr [.obj [("field", .str "messages"), ("value", value)]])]) s =
      match m s with
      | (.ok _, s1) => (.ok (), s1)
      | (.error e, s1) => (.error e, s1) := by
    intro s
    unfold procesarEntry
    simp only [bind_apply, deExcept_apply, JVal.prop, buscar, if_true, JVal.o, esVerdadero,
      iterar]
    rw [paraCada_uno, hc]
  unfold postWebhook postWebhookCuerpo cuerpoCon
  simp only [bind_apply, deExcept_apply, JVal.prop, buscar, if_true, JVal.o, esVerdadero,
    iterar]
  simp only [String.reduceEq, if_false, if_true]
  rw [paraCada_uno, hentry]
  rcases m s with ⟨r, s1⟩
  cases r <;> rfl

theorem paraCada_map {σ α β : Type} (xs : List α) (g : α → β) (f : β → Efecto σ Unit) (s : σ) :
    paraCada (xs.map g) f s = paraCada xs (fun x => f (g x)) s := by
  induction xs generalizing s with
  | nil => rfl
  | cons x resto ih =>
    simp only [List.map_cons, paraCada, ligar]
    rcases f (g x) s with ⟨r, s1⟩
    cases r with
    | error e => rfl
    | ok a => exact ih s1

theorem paraCada_congr {σ α : Type} (xs : List α) (f g : α → Efecto σ Unit)
    (h : ∀ x ∈ xs, ∀ s, f x s = g x s) (s : σ) : paraCada xs f s = paraCada xs g s := by
  induction xs generalizing s with
  | nil => rfl
  | cons x resto ih =>
    simp only [paraCada, ligar, h x (List.mem_cons_self _ _)]
    rcases g x s with ⟨r, s1⟩
    cases r with
    | error e => rfl
    | ok a => exact ih (fun y hy => h y (List.mem_cons_of_mem _ hy)) s1

theorem paraCada_flatMap {σ α β : Type} (xs : List α) (h : α → List β)
    (g : α → Efecto σ Unit) (f : β → Efecto σ Unit)
    (hg : ∀ x ∈ xs, ∀ s, g x s = paraCada (h x) f s) (s : σ) :
    paraCada xs g s = paraCada (xs.flatMap h) f s := by
  induction xs generalizing s with
  | nil => rfl
  | cons x resto ih =>
    rw [List.flatMap_cons, paraCada_append]
    simp only [paraCada, ligar, hg x (List.mem_cons_self _ _)]
    rcases paraCada (h x) f s with ⟨r, s1⟩
    cases r with
    | error e => rfl
    | ok a => exact ih (fun y hy => hg y (List.mem_cons_of_mem _ hy)) s1

/-- A truthy-or-skipped loop over an iterable value is the loop over its elements. -/
theorem bucle_elementos {σ : Type} (v : JVal) (f : JVal → Efecto σ Unit) (s : σ)
    (h : (!v.esVerdadero || v.iterable) = true) :
    (if v.esVerdadero = true then do
        let lista ← deExcept v.iterar
        paraCada lista f
      else pure ()) s =
      paraCada (if v.esVerdadero then v.elementos else []) f s := by
  cases hv : v.esVerdadero with
  | false => rfl
  | true =>
    rw [hv] at h
    simp only [Bool.not_true, Bool.false_or] at h
    simp only [if_true, bind_apply, deExcept_apply, iterar_iterable v h]

theorem procesarChange_eventos {σ : Type} (db : Db σ) (change : JVal) (s : σ)
    (h : changeRecorrible change = true) :
    procesarChange db change s = paraCada (eventosDeChange change) (procesarEvento db) s := by
  unfold changeRecorrible at h
  simp only [Bool.and_eq_true, Bool.or_eq_true, Bool.not_eq_true', decide_eq_false_iff_not]
    at h
  obtain ⟨hn, hv⟩ := h
  unfold procesarChange eventosDeChange
  rw [bind_apply]
  simp only [deExcept_apply, prop_noNulo _ _ hn]
  by_cases hf : change.campo "field" = .str "messages"
  · rcases hv with hv | hv
    · exact absurd hf hv
    · unfold valueRecorrible at hv
      simp only [Bool.and_eq_true] at hv
      obtain ⟨⟨hvn, hms⟩, hst⟩ := hv
      simp only [hf, if_true]
      rw [bind_apply]
      simp only [deExcept_apply, prop_noNulo _ _ hn]
      rw [bind_apply]
      unfold eventosDeValue
      rw [paraCada_append]
      have h1 : ∀ s, procesarMensajes db (change.campo "value") s =
          paraCada ((if ((change.campo "value").campo "messages").esVerdadero
              then ((change.campo "value").campo "messages").elementos else []).map
            (fun message => Evento.mensaje message ((change.campo "value").campo "contacts")))
            (procesarEvento db) s := by
        intro s
        unfold procesarMensajes
        rw [bind_apply]
        simp only [deExcept_apply, prop_noNulo _ _ hvn]
        rw [bucle_elementos _ _ _ hms, paraCada_map]
        apply paraCada_congr
        intro x _ s1
        rw [bind_apply]
        rfl
      have h2 : ∀ s, procesarEstados db (change.campo "value") s =
          paraCada ((if ((change.campo "value").campo "statuses").esVerdadero
              then ((change.campo "value").campo "statuses").elementos else []).map
            Evento.estado) (procesarEvento db) s := by
        intro s
        unfold procesarEstados
        rw [bind_apply]
        simp only [deExcept_apply, prop_noNulo _ _ hvn]
        rw [bucle_elementos _ _ _ hst, paraCada_map]
        rfl
      rw [h1]
      rcases paraCada _ (procesarEvento db) s with ⟨r, s1⟩
      cases r with
      | error e => rfl
      | ok a => exact h2 s1
  · simp only [hf, if_false]
    rfl

theorem procesarEntry_eventos {σ : Type} (db : Db σ) (entry : JVal) (s : σ)
    (h : entryRecorrible entry = true) :
    procesarEntry db entry s = paraCada (eventosDeEntry entry) (procesarEvento db) s := by
  unfold entryRecorrible at h
  simp only [Bool.and_eq_true, List.all_eq_true] at h
  obtain ⟨⟨hn, hi⟩, hall⟩ := h
  unfold procesarEntry eventosDeEntry
  rw [bind_apply]
  simp only [deExcept_apply, prop_noNulo _ _ hn]
  rw [bind_apply]
  simp only [deExcept_apply, iterar_iterable _ hi]
  exact paraCada_flatMap _ _ _ _ (fun x hx s => procesarChange_eventos db x s (hall x hx)) s

theorem postWebhookCuerpo_eventos {σ : Type} (db : Db σ) (body : JVal) (s : σ)
    (h : cuerpoRecorrible body = true) :
    postWebhookCuerpo db body s = paraCada (eventosDe body) (procesarEvento db) s := by
  unfold cuerpoRecorrible at h
  simp only [Bool.and_eq_true, Bool.or_eq_true, Bool.not_eq_true', decide_eq_false_iff_not,
    List.all_eq_true] at h
  obtain ⟨hn, hv⟩ := h
  unfold postWebhookCuerpo eventosDe
  rw [bind_apply]
  simp only [deExcept_apply, prop_noNulo _ _ hn]
  by_cases ho : body.campo "object" = .str "whatsapp_business_account"
  · rcases hv with hv | ⟨hi, hall⟩
    · exact absurd ho hv
    · simp only [ho, if_true]
      rw [bind_apply]
      simp only [deExcept_apply, prop_noNulo _ _ hn]
      rw [bind_apply]
      simp only [deExcept_apply, iterar_iterable _ hi]
      exact paraCada_flatMap _ _ _ _ (fun x hx s => procesarEntry_eventos db x s (hall x hx)) s
  · simp only [ho, if_false]
    rfl

theorem procesarEvento_esOk {σ : Type} (db : Db σ) (ev : Evento) (s : σ) :
    esOk (procesarEvento db ev s).1 = true := by
  cases ev with
  | mensaje m c => exact procesarMensajeEntrante_esOk db m c s
  | estado st => exact procesarEstadoMensaje_esOk db st s

theorem extraer_noNulo (message : JVal) (x : Extraido)
    (h : extraerContenido message = .ok x) : message.noNulo = true := by
  cases hn : message.noNulo with
  | true => rfl
  | false =>
    obtain ⟨e, he⟩ := prop_nulo message "from" hn
    unfold extraerContenido at h
    simp only [he, bind, Except.bind] at h
    cases h

/-- What `procesarMensajeEntrante` does to `mensajes` on the relational store:
nothing, or one appended row carrying the extracted values. -/
theorem fila_almacenada (esq : Esquema) (s : Almacen) (message contacts : JVal) :
    (recibir esq message contacts s).mensajes = s.mensajes ∨
    ∃ x conversacionId, extraerContenido message = .ok x ∧
      (recibir esq message contacts s).mensajes =
        s.mensajes ++ [s.mensajeNuevo (parametros message x conversacionId)] := by
  unfold recibir procesarMensajeEntrante
  rw [atrapar_snd]
  unfold procesarMensajeEntranteCuerpo
  rw [bind_apply]
  cases hx : extraerContenido message with
  | error e => exact Or.inl rfl
  | ok x =>
    have hn := extraer_noNulo message x hx
    simp only [deExcept_apply]
    rw [bind_apply]
    have hP1 := preserva_resolverContacto esq contacts x.numeroRemitente
      (fun t => t.mensajes = s.mensajes ∧ t.sigMensaje = s.sigMensaje)
      (fun t _ _ h => h) s ⟨rfl, rfl⟩
    rcases h1 : resolverContacto (bd esq) contacts x.numeroRemitente s with ⟨r1, s1⟩
    rw [h1] at hP1
    cases r1 with
    | error e => exact Or.inl hP1.1
    | ok contactoId =>
      simp only []
      rw [bind_apply]
      have hP2 := preserva_resolverConversacion esq contactoId x.numeroRemitente
        (fun t => t.mensajes = s.mensajes ∧ t.sigMensaje = s.sigMensaje)
        (fun t _ _ h => h) s1 hP1
      rcases h2 : resolverConversacion (bd esq) contactoId x.numeroRemitente s1 with ⟨r2, s2⟩
      rw [h2] at hP2
      cases r2 with
      | error e => exact Or.inl hP2.1
      | ok conversacionId =>
        simp only []
        rw [bind_apply]
        simp only [deExcept_apply, prop_noNulo _ _ hn]
        simp only [bd]
        split_ifs
        · exact Or.inl hP2.1
        · exact Or.inl hP2.1
        · refine Or.inr ⟨x, conversacionId, rfl, ?_⟩
          have e1 : s2.mensajes = s.mensajes := hP2.1
          have e2 : s2.sigMensaje = s.sigMensaje := hP2.2
          simp only [mensajeNuevo, parametros, e1, e2]

/-- No row is stored for an event whose insert has an undefined parameter. -/
theorem sin_fila_si_indefinido (esq : Esquema) (s : Almacen) (message contacts : JVal)
    (h : ∀ x, extraerContenido message = .ok x →
      ∀ v, (parametros message x v).definido = false) :
    (recibir esq message contacts s).mensajes = s.mensajes := by
  unfold recibir procesarMensajeEntrante
  rw [atrapar_snd]
  unfold procesarMensajeEntranteCuerpo
  rw [bind_apply]
  cases hx : extraerContenido message with
  | error e => rfl
  | ok x =>
    have hn := extraer_noNulo message x hx
    simp only [deExcept_apply]
    rw [bind_apply]
    have hP1 := preserva_resolverContacto esq contacts x.numeroRemitente
      (fun t => t.mensajes = s.mensajes ∧ t.sigMensaje = s.sigMensaje)
      (fun t _ _ h => h) s ⟨rfl, rfl⟩
    rcases h1 : resolverContacto (bd esq) contacts x.numeroRemitente s with ⟨r1, s1⟩
    rw [h1] at hP1
    cases r1 with
    | error e => exact hP1.1
    | ok contactoId =>
      simp only []
      rw [bind_apply]
      have hP2 := preserva_resolverConversacion esq contactoId x.numeroRemitente
        (fun t => t.mensajes = s.mensajes ∧ t.sigMensaje = s.sigMensaje)
        (fun t _ _ h => h) s1 hP1
      rcases h2 : resolverConversacion (bd esq) contactoId x.numeroRemitente s1 with ⟨r2, s2⟩
      rw [h2] at hP2
      cases r2 with
      | error e => exact hP2.1
      | ok conversacionId =>
        simp only []
        rw [bind_apply]
        simp only [deExcept_apply, prop_noNulo _ _ hn]
        have hd := h x hx conversacionId
        simp only [parametros] at hd
        simp only [bd, hd, Bool.not_false, if_true]
        exact hP2.1

theorem tipo_cadena (message : JVal) (hm : eventoBienFormado message = true) :
    (message.campo "type").esCadena = true := by
  unfold eventoBienFormado at hm
  simp only [Bool.and_eq_true] at hm
  exact hm.1.2

theorem completo_de_bienFormado (message : JVal) (hm : eventoBienFormado message = true)
    (h : message.campo "type" ≠ .str "document") : eventoCompleto message = true := by
  unfold eventoCompleto
  simp [hm, h]

theorem fila_almacenada_bienFormado (esq : Esquema) (s : Almacen) (message contacts : JVal)
    (hm : eventoCompleto message = true) (hc : contactsBienFormado contacts = true)
    (hfresco : esq.mensajeIdUnico = true → s.mensajesCon (message.campo "id") = []) :
    ∃ x conversacionId, extraerContenido message = .ok x ∧
      (recibir esq message contacts s).mensajes =
        s.mensajes ++ [s.mensajeNuevo (parametros message x conversacionId)] := by
  rcases fila_almacenada esq s message contacts with h | h
  · obtain ⟨r, _, hr⟩ := mensajes_tras_recibir esq message contacts s hm hc
    rw [if_neg (fun hcon => hcon.2 (hfresco hcon.1))] at hr
    rw [h] at hr
    have := congrArg List.length hr
    simp at this
  · exact h

theorem extraer_tipo_desconocido (message : JVal) (hn : message.noNulo = true)
    (h1 : message.campo "type" ≠ .str "text") (h2 : message.campo "type" ≠ .str "image")
    (h3 : message.campo "type" ≠ .str "document") (h4 : message.campo "type" ≠ .str "audio")
    (h5 : message.campo "type" ≠ .str "video") (h6 : message.campo "type" ≠ .str "location") :
    extraerContenido message =
      match (message.campo "type").aCadena with
      | .ok t => .ok
        { numeroRemitente := message.campo "from", tipoMensaje := message.campo "type",
          contenido := .str ("Mensaje de tipo: " ++ t),
          archivoUrl := .null, archivoNombre := .null, archivoTipo := .null,
          archivoTamano := .null }
      | .error e => .error e := by
  unfold extraerContenido
  simp only [prop_noNulo _ _ hn, bind, Except.bind, h1, h2, h3, h4, h5, h6, if_false]
  cases (message.campo "type").aCadena <;> rfl

/-- Coordinates with a fraction are printed with their shortest digits. -/
theorem extraer_ubicacion :
    eventoCompleto eventoUbicacion = true ∧
    extraerContenido eventoUbicacion = .ok
      { numeroRemitente := .str "5215512345678", tipoMensaje := .str "location",
        contenido := .str "Ubicación: 19.4326, -99.1332",
        archivoUrl := .null, archivoNombre := .null, archivoTipo := .null,
        archivoTamano := .null } := by
  decide

theorem contactos_tras_recibir (esq : Esquema) (s : Almacen) (message contacts nombre : JVal)
    (hm : eventoBienFormado message = true)
    (hnuevo : s.contactosCon (message.campo "from") = [])
    (hn : nombreContacto contacts (message.campo "from") = .ok nombre)
    (hd : nombre.definido = true) :
    (recibir esq message contacts s).contactos =
      s.contactos ++ [s.contactoNuevo (message.campo "from") nombre] := by
  obtain ⟨x, _, hcuerpo⟩ := cuerpo_bienFormado (bd esq) message contacts hm
  have h1 := resolverContacto_nuevo esq contacts _ nombre s hnuevo hn
    (definido_de_cadena _ (from_cadena message hm)) hd
  simp only [recibir, procesarMensajeEntrante, atrapar_snd, hcuerpo]
  rw [bind_ok _ _ _ _ _ h1]
  let P : Almacen → Prop := fun t =>
    t.contactos = s.contactos ++ [s.contactoNuevo (message.campo "from") nombre]
  exact preserva_bind P _ _
    (preserva_resolverConversacion esq _ _ P (fun _ _ _ h => h))
    (fun _ => preserva_insertMensaje esq _ P (fun _ _ _ h => h)) _ rfl

/-! ## Lemmas: the handshake and the frame of the message routes -/

theorem verdadero_cadena (t : String) : (JVal.str t).esVerdadero = true ↔ t ≠ "" := by
  simp [esVerdadero]

theorem marcar_salvo (campo : String) (wamid : JVal) (t : Nat) (r : Mensaje) :
    marcar campo wamid t r =
      { r with fecha_entrega := (marcar campo wamid t r).fecha_entrega,
               fecha_lectura := (marcar campo wamid t r).fecha_lectura } := by
  unfold marcar
  split_ifs
  · unfold aplicarCampo
    split_ifs <;> rfl
  · rfl

theorem leerMensaje_salvo (conversacionId t : Nat) (r : Mensaje) :
    leerMensaje conversacionId t r =
      { r with fecha_lectura := (leerMensaje conversacionId t r).fecha_lectura,
               leido := (leerMensaje conversacionId t r).leido } := by
  unfold leerMensaje
  split_ifs <;> rfl

theorem marcarLeido_salvo (id t : Nat) (r : Mensaje) :
    marcarLeido id t r =
      { r with fecha_lectura := (marcarLeido id t r).fecha_lectura,
               leido := (marcarLeido id t r).leido } := by
  unfold marcarLeido
  split_ifs <;> rfl

theorem recibirEstado_mensajes (esq : Esquema) (status : JVal) (s : Almacen) :
    ∃ g : Mensaje → Mensaje, (recibirEstado esq status s).mensajes = s.mensajes.map g ∧
      ∀ r, g r = { r with fecha_entrega := (g r).fecha_entrega,
                          fecha_lectura := (g r).fecha_lectura } := by
  unfold recibirEstado
  cases ho : status.esObjeto with
  | false =>
    rw [recibirEstado_no_objeto esq status s ho]
    exact ⟨fun r => r, by simp, fun _ => rfl⟩
  | true =>
    rw [recibirEstado_objeto esq status s ho]
    split_ifs
    · exact ⟨fun r => r, by simp, fun _ => rfl⟩
    · exact ⟨_, rfl, marcar_salvo _ _ _⟩

theorem getMensajesConversacion_mensajes (usuario : Usuario) (conversacionId : Nat)
    (consultaOk : Bool) (s : Almacen) :
    ∃ g : Mensaje → Mensaje,
      (getMensajesConversacion usuario conversacionId consultaOk s).2.mensajes =
        s.mensajes.map g ∧
      ∀ r, g r = { r with fecha_lectura := (g r).fecha_lectura, leido := (g r).leido } := by
  unfold getMensajesConversacion
  split
  · exact ⟨fun r => r, by simp, fun _ => rfl⟩
  · split_ifs
    · exact ⟨fun r => r, by simp, fun _ => rfl⟩
    · exact ⟨fun r => r, by simp, fun _ => rfl⟩
    · exact ⟨_, rfl, leerMensaje_salvo _ _⟩

theorem patchMensajeLeido_mensajes (usuario : Usuario) (id : Nat) (s : Almacen) :
    ∃ g : Mensaje → Mensaje,
      (patchMensajeLeido usuario id s).2.mensajes = s.mensajes.map g ∧
      ∀ r, g r = { r with fecha_lectura := (g r).fecha_lectura, leido := (g r).leido } := by
  unfold patchMensajeLeido
  split
  · exact ⟨fun r => r, by simp, fun _ => rfl⟩
  · split_ifs
    · exact ⟨fun r => r, by simp, fun _ => rfl⟩
    · exact ⟨_, rfl, marcarLeido_salvo _ _⟩

theorem salvo_sin_leido (r y : Mensaje)
    (h : y = { r with fecha_entrega := y.fecha_entrega, fecha_lectura := y.fecha_lectura }) :
    y = { r with fecha_entrega := y.fecha_entrega, fecha_lectura := y.fecha_lectura,
                 leido := y.leido } := by
  cases r; cases y
  simp only [Mensaje.mk.injEq] at h ⊢
  simp_all

theorem salvo_sin_entrega (r y : Mensaje)
    (h : y = { r with fecha_lectura := y.fecha_lectura, leido := y.leido }) :
    y = { r with fecha_entrega := y.fecha_entrega, fecha_lectura := y.fecha_lectura,
                 leido := y.leido } := by
  cases r; cases y
  simp only [Mensaje.mk.injEq] at h ⊢
  simp_all

theorem salvo_trans (r y z : Mensaje)
    (a : y = { r with fecha_entrega := y.fecha_entrega, fecha_lectura := y.fecha_lectura,
                      leido := y.leido })
    (b : z = { y with fecha_entrega := z.fecha_entrega, fecha_lectura := z.fecha_lectura,
                      leido := z.leido }) :
    z = { r with fecha_entrega := z.fecha_entrega, fecha_lectura := z.fecha_lectura,
                 leido := z.leido } := by
  cases r; cases y; cases z
  simp only [Mensaje.mk.injEq] at a b ⊢
  simp_all

theorem operacion_mensajes (esq : Esquema) (op : Operacion) (s : Almacen) :
    ∃ g : Mensaje → Mensaje, (op.aplicar esq s).mensajes = s.mensajes.map g ∧
      ∀ r, g r = { r with fecha_entrega := (g r).fecha_entrega,
                          fecha_lectura := (g r).fecha_lectura, leido := (g r).leido } := by
  cases op with
  | estado status =>
    obtain ⟨g, h1, h2⟩ := recibirEstado_mensajes esq status s
    exact ⟨g, h1, fun r => salvo_sin_leido r (g r) (h2 r)⟩
  | leer usuario conversacionId consultaOk =>
    obtain ⟨g, h1, h2⟩ := getMensajesConversacion_mensajes usuario conversacionId consultaOk s
    exact ⟨g, h1, fun r => salvo_sin_entrega r (g r) (h2 r)⟩
  | marcar usuario id =>
    obtain ⟨g, h1, h2⟩ := patchMensajeLeido_mensajes usuario id s
    exact ⟨g, h1, fun r => salvo_sin_entrega r (g r) (h2 r)⟩
  | reloj t => exact ⟨fun r => r, by simp [Operacion.aplicar, conReloj], fun _ => rfl⟩

theorem operaciones_mensajes (esq : Esquema) (ops : List Operacion) (s : Almacen) :
    ∃ g : Mensaje → Mensaje, (aplicarOperaciones esq ops s).mensajes = s.mensajes.map g ∧
      ∀ r, g r = { r with fecha_entrega := (g r).fecha_entrega,
                          fecha_lectura := (g r).fecha_lectura, leido := (g r).leido } := by
  induction ops generalizing s with
  | nil => exact ⟨fun r => r, by simp [aplicarOperaciones], fun _ => rfl⟩
  | cons op resto ih =>
    obtain ⟨g1, h1, hg1⟩ := operacion_mensajes esq op s
    obtain ⟨g2, h2, hg2⟩ := ih (op.aplicar esq s)
    refine ⟨g2 ∘ g1, ?_, fun r => ?_⟩
    · simp only [aplicarOperaciones, List.foldl_cons] at h2 ⊢
      rw [h2, h1, List.map_map]
    · exact salvo_trans r (g1 r) (g2 (g1 r)) (hg1 r) (hg2 (g1 r))

/-! ## Lemmas: interleaved executions -/

theorem ejecutar_sentencia {σ α : Type} (op : Efecto σ α) (k : α → Proc σ) (s : σ) :
    (Proc.sentencia op k).ejecutar s =
      match op s with
      | (.ok a, s1) => (k a).ejecutar s1
      | (.error _, s1) => s1 := by
  simp only [Proc.sentencia, Proc.ejecutar]
  rcases op s with ⟨r, s1⟩
  cases r <;> rfl

/-- Run alone, the execution is the function. -/
theorem ejecutar_procMensaje {σ : Type} (db : Db σ) (message contacts : JVal) (s : σ) :
    (procMensaje db message contacts).ejecutar s =
      (procesarMensajeEntrante db message contacts s).2 := by
  unfold procesarMensajeEntrante procMensaje
  rw [atrapar_snd]
  unfold procesarMensajeEntranteCuerpo
  rw [bind_apply]
  cases hx : extraerContenido message with
  | error e => rfl
  | ok x =>
    simp only [deExcept_apply]
    rw [ejecutar_sentencia, bind_apply]
    unfold resolverContacto
    rw [bind_apply]
    rcases db.selectContacto x.numeroRemitente s with ⟨r1, s1⟩
    cases r1 with
    | error e => rfl
    | ok contacto =>
      have hconv : ∀ (contactoId : Nat) (t : σ),
          (procConversacion db message x contactoId).ejecutar t =
            ((resolverConversacion db contactoId x.numeroRemitente >>= fun conversacionId => do
              let messageId ← deExcept (message.prop "id")
              db.insertMensaje
                { conversacion_id := conversacionId, whatsapp_message_id := messageId,
                  tipo_mensaje := x.tipoMensaje, remitente_numero := x.numeroRemitente,
                  contenido := x.contenido, archivo_url := x.archivoUrl,
                  archivo_nombre := x.archivoNombre, archivo_tipo := x.archivoTipo,
                  archivo_tamano := x.archivoTamano, metadata := message }) t).2 := by
        intro contactoId t
        have hins : ∀ (conversacionId : Nat) (u : σ),
            (procInsertar db message x conversacionId).ejecutar u =
              ((do
                let messageId ← deExcept (message.prop "id")
                db.insertMensaje
                  { conversacion_id := conversacionId, whatsapp_message_id := messageId,
                    tipo_mensaje := x.tipoMensaje, remitente_numero := x.numeroRemitente,
                    contenido := x.contenido, archivo_url := x.archivoUrl,
                    archivo_nombre := x.archivoNombre, archivo_tipo := x.archivoTipo,
                    archivo_tamano := x.archivoTamano, metadata := message } :
                  Efecto σ Unit) u).2 := by
          intro conversacionId u
          unfold procInsertar
          rw [bind_apply]
          cases message.prop "id" with
          | error e => rfl
          | ok messageId =>
            simp only [deExcept_apply]
            rw [ejecutar_sentencia]
            rcases db.insertMensaje _ u with ⟨r, u1⟩
            cases r <;> rfl
        unfold procConversacion resolverConversacion
        rw [ejecutar_sentencia, bind_apply, bind_apply]
        rcases db.selectConversacion contactoId t with ⟨r2, t1⟩
        cases r2 with
        | error e => rfl
        | ok conversacion =>
          cases conversacion with
          | nil =>
            simp only []
            rw [bind_apply]
            cases x.numeroRemitente.aCadena with
            | error e => rfl
            | ok numero =>
              simp only [deExcept_apply]
              rw [ejecutar_sentencia]
              rcases db.insertConversacion contactoId _ t1 with ⟨r3, t2⟩
              cases r3 with
              | error e => rfl
              | ok conversacionId => exact hins conversacionId t2
          | cons id resto =>
            simp only []
            rw [ejecutar_sentencia, bind_apply]
            rcases db.updateConversacion id t1 with ⟨r3, t2⟩
            cases r3 with
            | error e => rfl
            | ok u => exact hins id t2
      cases contacto with
      | nil =>
        simp only []
        rw [bind_apply]
        cases nombreContacto contacts x.numeroRemitente with
        | error e => rfl
        | ok nombre =>
          simp only [deExcept_apply]
          rw [ejecutar_sentencia]
          rcases db.insertContacto x.numeroRemitente nombre s1 with ⟨r2, s2⟩
          cases r2 with
          | error e => rfl
          | ok contactoId => exact hconv contactoId s2
      | cons id resto =>
        simp only []
        rw [ejecutar_sentencia, bind_apply]
        rcases db.updateContacto id s1 with ⟨r2, s2⟩
        cases r2 with
        | error e => rfl
        | ok u => exact hconv id s2


namespace Proc
variable {σ α : Type}

theorem mantiene_sentencia (I : σ → Prop) (op : Efecto σ α) (k : α → Proc σ)
    (hop : ∀ s, I s → I (op s).2) (hk : ∀ a, (k a).Mantiene I) :
    (sentencia op k).Mantiene I := by
  refine ⟨hop, fun s => ?_⟩
  show Mantiene I (match (op s).1 with
    | .ok a => k a
    | .error _ => .fin)
  cases (op s).1 with
  | error e => trivial
  | ok a => exact hk a

theorem ejecutar_mantiene (I : σ → Prop) (p : Proc σ) (hp : p.Mantiene I) (s : σ)
    (hs : I s) : I (p.ejecutar s) := by
  induction p generalizing s with
  | fin => exact hs
  | paso efecto resto ih => exact ih s (hp.2 s) (efecto s) (hp.1 s hs)

theorem ejecutar_establece (E : σ → Prop) (p : Proc σ) (hp : p.Mantiene E)
    (he : p.Establece E) (s : σ) : E (p.ejecutar s) := by
  induction p generalizing s with
  | fin => exact he.elim
  | paso efecto resto ih =>
    rcases he s with h | h
    · exact ejecutar_mantiene E (resto s) (hp.2 s) (efecto s) h
    · exact ih s (hp.2 s) h (efecto s)

theorem intercalar_mantiene (I : σ → Prop) (plan : List Bool) (p q : Proc σ)
    (hp : p.Mantiene I) (hq : q.Mantiene I) (s : σ) (hs : I s) :
    I (intercalar plan p q s) := by
  induction plan generalizing p q s with
  | nil => exact ejecutar_mantiene I q hq _ (ejecutar_mantiene I p hp s hs)
  | cons b plan ih =>
    cases b with
    | true =>
      cases p with
      | fin => exact ih .fin q trivial hq s hs
      | paso efecto resto => exact ih (resto s) q (hp.2 s) hq (efecto s) (hp.1 s hs)
    | false =>
      cases q with
      | fin => exact ih p .fin hp trivial s hs
      | paso efecto resto => exact ih p (resto s) hp (hq.2 s) (efecto s) (hq.1 s hs)

theorem intercalar_establece (E : σ → Prop) (plan : List Bool) (p q : Proc σ)
    (hp : p.Mantiene E) (hq : q.Mantiene E) (he : p.Establece E) (s : σ) :
    E (intercalar plan p q s) := by
  induction plan generalizing p q s with
  | nil => exact ejecutar_mantiene E q hq _ (ejecutar_establece E p hp he s)
  | cons b plan ih =>
    cases b with
    | true =>
      cases p with
      | fin => exact he.elim
      | paso efecto resto =>
        rcases he s with h | h
        · exact intercalar_mantiene E plan (resto s) q (hp.2 s) hq (efecto s) h
        · exact ih (resto s) q (hp.2 s) hq h (efecto s)
    | false =>
      cases q with
      | fin => exact ih p .fin hp trivial he s
      | paso efecto resto => exact ih p (resto s) hp (hq.2 s) he (efecto s)

end Proc


theorem mantiene_procInsertar (esq : Esquema) (message : JVal) (x : Extraido)
    (conversacionId : Nat) (I : Almacen → Prop)
    (hms : ∀ (s : Almacen) ms n, I s → I { s with mensajes := ms, sigMensaje := n }) :
    (procInsertar (bd esq) message x conversacionId).Mantiene I := by
  unfold procInsertar
  cases message.prop "id" with
  | error e => trivial
  | ok messageId =>
    exact Proc.mantiene_sentencia I _ _ (preserva_insertMensaje esq _ I hms) (fun _ => trivial)

theorem mantiene_procConversacion (esq : Esquema) (message : JVal) (x : Extraido)
    (contactoId : Nat) (I : Almacen → Prop)
    (hcs : ∀ (s : Almacen) cs n, I s → I { s with conversaciones := cs, sigConversacion := n })
    (hms : ∀ (s : Almacen) ms n, I s → I { s with mensajes := ms, sigMensaje := n }) :
    (procConversacion (bd esq) message x contactoId).Mantiene I := by
  unfold procConversacion
  refine Proc.mantiene_sentencia I _ _ (fun s hs => hs) (fun conversacion => ?_)
  cases conversacion with
  | nil =>
    simp only []
    cases x.numeroRemitente.aCadena with
    | error e => trivial
    | ok numero =>
      exact Proc.mantiene_sentencia I _ _ (fun s hs => hcs s _ _ hs)
        (fun _ => mantiene_procInsertar esq message x _ I hms)
  | cons id resto =>
    exact Proc.mantiene_sentencia I _ _ (fun s hs => hcs s _ s.sigConversacion hs)
      (fun _ => mantiene_procInsertar esq message x _ I hms)

/-- Every statement of the execution keeps a property of the store that the two
writes to `contactos` keep and that the other tables do not affect. -/
theorem mantiene_procMensaje (esq : Esquema) (message contacts : JVal) (I : Almacen → Prop)
    (hins : ∀ numero nombre s, I s → I ((bd esq).insertContacto numero nombre s).2)
    (hupd : ∀ id s, I s → I ((bd esq).updateContacto id s).2)
    (hcs : ∀ (s : Almacen) cs n, I s → I { s with conversaciones := cs, sigConversacion := n })
    (hms : ∀ (s : Almacen) ms n, I s → I { s with mensajes := ms, sigMensaje := n }) :
    (procMensaje (bd esq) message contacts).Mantiene I := by
  unfold procMensaje
  cases extraerContenido message with
  | error e => trivial
  | ok x =>
    refine Proc.mantiene_sentencia I _ _ (fun s hs => ?_) (fun contacto => ?_)
    · simp only [bd]
      split_ifs <;> exact hs
    cases contacto with
    | nil =>
      simp only []
      cases nombreContacto contacts x.numeroRemitente with
      | error e => trivial
      | ok nombre =>
        exact Proc.mantiene_sentencia I _ _ (hins _ _)
          (fun _ => mantiene_procConversacion esq message x _ I hcs hms)
    | cons id resto =>
      exact Proc.mantiene_sentencia I _ _ (hupd _)
        (fun _ => mantiene_procConversacion esq message x _ I hcs hms)

theorem sqlEq_eq (a b : JVal) (h : sqlEq a b = true) : a = b := by
  cases a <;> cases b <;> simp_all [sqlEq]

/-- Under the uniqueness constraint no statement of the execution makes a
second row for a number. -/
theorem mantiene_a_lo_mas_uno (esq : Esquema) (hu : esq.numeroUnico = true)
    (message contacts numero : JVal) :
    (procMensaje (bd esq) message contacts).Mantiene
      (fun s => (s.contactosCon numero).length ≤ 1) := by
  refine mantiene_procMensaje esq message contacts _ ?_ ?_ (fun _ _ _ h => h)
    (fun _ _ _ h => h)
  · intro n nombre s hs
    simp only [bd, hu, Bool.true_and]
    split_ifs with hd hc
    · exact hs
    · exact hs
    · simp only [decide_not, Bool.not_eq_true', decide_eq_false_iff_not, not_not] at hc
      have hnil := List.length_eq_zero.1 hc
      simp only [contactosCon, List.filter_append]
      by_cases hq : sqlEq n numero = true
      · have hn := sqlEq_eq _ _ hq
        subst hn
        have : s.contactos.filter (fun k => sqlEq k.numero_whatsapp n) = [] := hnil
        rw [this]
        simp only [List.nil_append]
        exact (List.length_filter_le _ _).trans (by simp)
      · have : ([s.contactoNuevo n nombre].filter
            (fun k => sqlEq k.numero_whatsapp numero)) = [] := by
          simp [contactoNuevo, hq]
        rw [this, List.append_nil]
        exact hs
  · intro id s hs
    simp only [bd, contactosCon, filter_tocarContacto, List.length_map]
    exact hs

/-- No statement of the execution removes the rows of a number. -/
theorem mantiene_al_menos_uno (esq : Esquema) (message contacts numero : JVal) :
    (procMensaje (bd esq) message contacts).Mantiene
      (fun s => s.contactosCon numero ≠ []) := by
  refine mantiene_procMensaje esq message contacts _ ?_ ?_ (fun _ _ _ h => h)
    (fun _ _ _ h => h)
  · intro n nombre s hs
    simp only [bd]
    split_ifs
    · exact hs
    · exact hs
    · simp only [contactosCon, List.filter_append]
      intro h
      exact hs (List.append_eq_nil.1 h).1
  · intro id s hs
    simp only [bd, contactosCon, filter_tocarContacto]
    intro h
    exact hs (List.map_eq_nil_iff.1 h)

/-- The execution on a well-formed event leaves a row for the sender, at the
latest with its second statement. -/
theorem establece_contacto (esq : Esquema) (message contacts : JVal)
    (hm : eventoBienFormado message = true) (hc : contactsBienFormado contacts = true) :
    (procMensaje (bd esq) message contacts).Establece
      (fun s => s.contactosCon (message.campo "from") ≠ []) := by
  obtain ⟨x, hx, hfrom, _⟩ := extraer_bienFormado message hm
  obtain ⟨nombre, hn, hnd⟩ := nombre_bienFormado contacts (message.campo "from") hc
  have hcad := from_cadena message hm
  have hdf := definido_de_cadena _ hcad
  have hdn := hnd hdf
  unfold procMensaje
  simp only [hx, hfrom]
  intro s
  have hsel : (bd esq).selectContacto (message.campo "from") s =
      (.ok ((s.contactosCon (message.campo "from")).map (·.id)), s) := by
    simp [bd, hdf]
  cases hk : s.contactosCon (message.campo "from") with
  | cons k resto =>
    left
    show Almacen.contactosCon ((bd esq).selectContacto (message.campo "from") s).2
      (message.campo "from") ≠ []
    rw [hsel, hk]
    exact List.cons_ne_nil _ _
  | nil =>
    right
    beta_reduce
    simp only [hsel, hk, List.map_nil, hn]
    show Proc.Establece _ (Proc.sentencia _ _)
    intro t
    left
    show Almacen.contactosCon ((bd esq).insertContacto (message.campo "from") nombre t).2
      (message.campo "from") ≠ []
    simp only [bd, hdf, hdn, Bool.and_self, Bool.not_true, Bool.false_eq_true, if_false]
    split_ifs with hr
    · simp only [Bool.and_eq_true, decide_eq_true_eq] at hr
      intro h
      exact hr.2 (by rw [h]; rfl)
    · simp only [contactosCon, List.filter_append]
      intro h
      have h2 := (List.append_eq_nil.1 h).2
      have : sqlEq (message.campo "from") (message.campo "from") = true := by
        rw [sqlEq_cadena _ _ hcad]; simp
      simp [contactoNuevo, this] at h2

/-! ## Lemmas: two events of an unseen number, one after the other -/

/-- The store after a complete well-formed event of an unseen number whose
external id the store accepts: one row appended to each of the three tables. -/
theorem recibir_nuevo (esq : Esquema) (s : Almacen) (message contacts : JVal)
    (hm : eventoCompleto message = true) (hc : contactsBienFormado contacts = true)
    (hcoh : s.Coherente)
    (hnuevo : s.contactosCon (message.campo "from") = [])
    (hfresco : esq.mensajeIdUnico = true → s.mensajesCon (message.campo "id") = []) :
    ∃ nombre x numero, nombreContacto contacts (message.campo "from") = .ok nombre ∧
      extraerContenido message = .ok x ∧ message.campo "from" = .str numero ∧
      recibir esq message contacts s =
        { s with
          contactos := s.contactos ++ [s.contactoNuevo (message.campo "from") nombre],
          sigContacto := s.sigContacto + 1,
          conversaciones := s.conversaciones ++ [s.conversacionNueva s.sigContacto
            ("Conversación con " ++ numero)],
          sigConversacion := s.sigConversacion + 1,
          mensajes := s.mensajes ++ [s.mensajeNuevo (parametros message x s.sigConversacion)],
          sigMensaje := s.sigMensaje + 1 } := by
  have hb := completo_bienFormado message hm
  obtain ⟨x, hx, hcuerpo⟩ := cuerpo_bienFormado (bd esq) message contacts hb
  obtain ⟨nombre, hn, hnd⟩ := nombre_bienFormado contacts (message.campo "from") hc
  obtain ⟨numero, hnum, ht⟩ := aCadena_cadena _ (from_cadena message hb)
  have hdf := definido_de_cadena _ (from_cadena message hb)
  have h1 := resolverContacto_nuevo esq contacts _ nombre s hnuevo hn hdf (hnd hdf)
  have hab : Almacen.abiertasDe
      { s with contactos := s.contactos ++ [s.contactoNuevo (message.campo "from") nombre],
               sigContacto := s.sigContacto + 1 } s.sigContacto = [] := by
    simp only [abiertasDe, List.filter_eq_nil_iff]
    intro c hcm
    have := (hcoh.2.1 c hcm).2
    simp only [decide_eq_true_eq, not_and]
    intro h
    omega
  have h2 := resolverConversacion_nueva esq s.sigContacto (message.campo "from") numero _ hab ht
  refine ⟨nombre, x, numero, hn, hx, hnum, ?_⟩
  simp only [recibir, procesarMensajeEntrante, atrapar_snd, hcuerpo]
  rw [bind_ok _ _ _ _ _ h1, bind_ok _ _ _ _ _ h2,
    insertMensaje_ok esq _ _ (by exact parametros_definidos message hm x hx _)
      (by exact hfresco)]
  rfl

/-- Two complete well-formed events of the same unseen number, processed one
after the other: one contact, one conversation of it, and both messages under
it. -/
theorem recibir_dos_seguidos (esq : Esquema) (s : Almacen) (m1 m2 c1 c2 : JVal)
    (h1 : eventoCompleto m1 = true) (hc1 : contactsBienFormado c1 = true)
    (h2 : eventoCompleto m2 = true)
    (hmismo : m2.campo "from" = m1.campo "from")
    (hdist : m1.campo "id" ≠ m2.campo "id")
    (hcoh : s.Coherente)
    (hnuevo : s.contactosCon (m1.campo "from") = [])
    (hf1 : esq.mensajeIdUnico = true → s.mensajesCon (m1.campo "id") = [])
    (hf2 : esq.mensajeIdUnico = true → s.mensajesCon (m2.campo "id") = []) :
    ∃ k c r1 r2, k ∈ (recibir esq m2 c2 (recibir esq m1 c1 s)).contactos ∧
      c ∈ (recibir esq m2 c2 (recibir esq m1 c1 s)).conversaciones ∧
      r1 ∈ (recibir esq m2 c2 (recibir esq m1 c1 s)).mensajes ∧
      r2 ∈ (recibir esq m2 c2 (recibir esq m1 c1 s)).mensajes ∧
      k.numero_whatsapp = m1.campo "from" ∧ c.contacto_id = k.id ∧
      r1.whatsapp_message_id = m1.campo "id" ∧ r1.conversacion_id = c.id ∧
      r2.whatsapp_message_id = m2.campo "id" ∧ r2.conversacion_id = c.id := by
  obtain ⟨nombre, x, numero, _, _, _, hs1⟩ := recibir_nuevo esq s m1 c1 h1 hc1 hcoh hnuevo hf1
  have hb1 := completo_bienFormado m1 h1
  have hb2 := completo_bienFormado m2 h2
  have hcad := from_cadena m1 hb1
  have hid2 := id_cadena m2 hb2
  have hself : sqlEq (m1.campo "from") (m1.campo "from") = true := by
    rw [sqlEq_cadena _ _ hcad]; simp
  have hk : (recibir esq m1 c1 s).contactosCon (m2.campo "from") =
      [s.contactoNuevo (m1.campo "from") nombre] := by
    rw [hs1, hmismo]
    have h0 : s.contactos.filter (fun k => sqlEq k.numero_whatsapp (m1.campo "from")) = [] :=
      hnuevo
    simp [contactosCon, List.filter_append, h0, contactoNuevo, hself]
  have hab : (recibir esq m1 c1 s).abiertasDe (s.contactoNuevo (m1.campo "from") nombre).id =
      [s.conversacionNueva s.sigContacto ("Conversación con " ++ numero)] := by
    rw [hs1]
    have h0 : s.conversaciones.filter (fun c => decide
        (c.contacto_id = (s.contactoNuevo (m1.campo "from") nombre).id ∧
          c.estado ≠ "cerrado")) = [] := by
      simp only [List.filter_eq_nil_iff]
      intro c hcm
      have := (hcoh.2.1 c hcm).2
      simp only [decide_eq_true_eq, not_and, contactoNuevo]
      intro h
      omega
    simp only [abiertasDe, List.filter_append, h0, List.nil_append]
    simp [contactoNuevo, conversacionNueva]
  have hmr : masReciente ((recibir esq m1 c1 s).abiertasDe
      (s.contactoNuevo (m1.campo "from") nombre).id) =
      some (s.conversacionNueva s.sigContacto ("Conversación con " ++ numero)) := by
    rw [hab]
    simp [masReciente]
  have hf2b : esq.mensajeIdUnico = true →
      (recibir esq m1 c1 s).mensajesCon (m2.campo "id") = [] := by
    intro hu
    rw [hs1]
    have h0 : s.mensajes.filter (fun r => sqlEq r.whatsapp_message_id (m2.campo "id")) = [] :=
      hf2 hu
    have hne : sqlEq (m1.campo "id") (m2.campo "id") = false := by
      rw [sqlEq_cadena _ _ hid2]; simpa using hdist
    simp [mensajesCon, List.filter_append, h0, mensajeNuevo, parametros, hne]
  obtain ⟨r2, hr2, hr2c, hs2⟩ := recibir_reutiliza esq (recibir esq m1 c1 s) m2 c2 _ _ _ h2 hk
    hmr hf2b
  have hm1 : (recibir esq m1 c1 s).mensajes =
      s.mensajes ++ [s.mensajeNuevo (parametros m1 x s.sigConversacion)] := by rw [hs1]
  have hk1 : (recibir esq m1 c1 s).contactos =
      s.contactos ++ [s.contactoNuevo (m1.campo "from") nombre] := by rw [hs1]
  have hv1 : (recibir esq m1 c1 s).conversaciones =
      s.conversaciones ++ [s.conversacionNueva s.sigContacto
        ("Conversación con " ++ numero)] := by rw [hs1]
  refine ⟨tocarContacto (s.contactoNuevo (m1.campo "from") nombre).id
      (recibir esq m1 c1 s).ahora (s.contactoNuevo (m1.campo "from") nombre),
    tocarConversacion (s.conversacionNueva s.sigContacto
        ("Conversación con " ++ numero)).id (recibir esq m1 c1 s).ahora
      (s.conversacionNueva s.sigContacto ("Conversación con " ++ numero)),
    s.mensajeNuevo (parametros m1 x s.sigConversacion), r2, ?_, ?_, ?_, ?_, ?_, ?_, rfl, ?_,
    hr2, ?_⟩
  · rw [hs2]
    refine List.mem_map_of_mem _ ?_
    rw [hk1]
    simp
  · rw [hs2]
    refine List.mem_map_of_mem _ ?_
    rw [hv1]
    simp
  · rw [hs2]
    show _ ∈ (recibir esq m1 c1 s).mensajes ++ [r2]
    rw [hm1]
    simp
  · rw [hs2]
    show _ ∈ (recibir esq m1 c1 s).mensajes ++ [r2]
    simp
  · simp [contactoNuevo]
  · simp [contactoNuevo, conversacionNueva]
  · simp [mensajeNuevo, parametros, conversacionNueva]
  · rw [hr2c]
    simp

/-! ## Lemmas: selection, marks, terminal estado and hidden values -/

/-- Extraction throws on a null or undefined event and on an event of a known
kind whose payload of that kind is missing or null. -/
theorem extraer_sin_carga (message : JVal)
    (h : message.noNulo = false ∨
      ∃ t ∈ tiposConocidos, message.campo "type" = .str t ∧ (message.campo t).noNulo = false) :
    esOk (extraerContenido message) = false := by
  rcases h with h | ⟨t, ht, htipo, hcarga⟩
  · obtain ⟨e, he⟩ := prop_nulo message "from" h
    unfold extraerContenido
    simp only [he, bind, Except.bind]
    rfl
  · have hn : message.noNulo = true := by
      cases message <;> simp_all [campo, noNulo]
    obtain ⟨e, he⟩ := prop_nulo (message.campo t) "x" hcarga
    have hp : ∀ k, ∃ e, (message.campo t).prop k = .error e := fun k => prop_nulo _ k hcarga
    simp only [tiposConocidos, List.mem_cons, List.mem_singleton, List.not_mem_nil,
      or_false] at ht
    unfold extraerContenido
    simp only [prop_noNulo _ _ hn, bind, Except.bind, htipo]
    rcases ht with rfl | rfl | rfl | rfl | rfl | rfl
    · obtain ⟨e1, h1⟩ := hp "body"
      simp [h1, esOk]
    · obtain ⟨e1, h1⟩ := hp "caption"
      simp [h1, esOk]
    · obtain ⟨e1, h1⟩ := hp "caption"
      simp [h1, esOk]
    · obtain ⟨e1, h1⟩ := hp "id"
      simp [h1, esOk]
    · obtain ⟨e1, h1⟩ := hp "caption"
      simp [h1, esOk]
    · obtain ⟨e1, h1⟩ := hp "latitude"
      simp [h1, esOk]

theorem anterior_irreflexiva (a : Option Nat) : anterior a a = false := by
  cases a <;> simp [anterior]

theorem anterior_total (a b : Option Nat) (hne : a ≠ b) (h : anterior a b = false) :
    anterior b a = true := by
  cases a <;> cases b <;> simp_all [anterior]
  omega

theorem anterior_asimetrica (a b : Option Nat) (h : anterior a b = true) :
    anterior b a = false := by
  cases a <;> cases b <;> simp_all [anterior]
  omega

theorem anterior_cadena (a b c : Option Nat) (h1 : anterior a b = false)
    (h2 : anterior b c = false) : anterior a c = false := by
  cases a <;> cases b <;> cases c <;> simp_all [anterior]
  omega

/-- The row chosen by the lookup is not older than any row it ranges over. -/
theorem masReciente_max (l : List Conversacion) (c : Conversacion)
    (h : masReciente l = some c) :
    ∀ d ∈ l, anterior c.fecha_ultima_actividad d.fecha_ultima_actividad = false := by
  induction l generalizing c with
  | nil => simp [masReciente] at h
  | cons x resto ih =>
    simp only [masReciente] at h
    split at h
    · rename_i hnone
      have hnil := (masReciente_eq_none _).1 hnone
      simp only [Option.some.injEq] at h
      subst h hnil
      intro d hd
      simp only [List.mem_singleton] at hd
      subst hd
      exact anterior_irreflexiva _
    · rename_i e he
      have ihe := ih e he
      split at h
      · rename_i hlt
        simp only [Option.some.injEq] at h
        subst h
        intro d hd
        rcases List.mem_cons.1 hd with rfl | hd
        · exact anterior_asimetrica _ _ hlt
        · exact ihe d hd
      · rename_i hge
        simp only [Option.some.injEq] at h
        subst h
        intro d hd
        rcases List.mem_cons.1 hd with rfl | hd
        · exact anterior_irreflexiva _
        · exact anterior_cadena _ _ _ (by simpa using hge) (ihe d hd)

theorem anterior_iff (a b : Option Nat) :
    anterior a b = true ↔ ∃ u, b = some u ∧ ∀ t, a = some t → t < u := by
  cases a <;> cases b <;> simp [anterior]

/-- A row strictly more recent than every other row is the one the lookup
returns. -/
theorem masReciente_estricto (l : List Conversacion) (c : Conversacion) (hc : c ∈ l)
    (h : ∀ d ∈ l, d = c ∨
      anterior d.fecha_ultima_actividad c.fecha_ultima_actividad = true) :
    masReciente l = some c := by
  cases hr : masReciente l with
  | none =>
    rw [(masReciente_eq_none l).1 hr] at hc
    cases hc
  | some r =>
    rcases h r (masReciente_mem l r hr) with rfl | hlt
    · rfl
    · rw [masReciente_max l r hr c hc] at hlt
      cases hlt

theorem marcar_entrega (m : String) (t : Nat) (r : Mensaje) :
    marcar "fecha_entrega = NOW()" (.str m) t r =
      if r.whatsapp_message_id = .str m then { r with fecha_entrega := some t } else r := by
  have hs : sqlEq r.whatsapp_message_id (.str m) = decide (r.whatsapp_message_id = .str m) :=
    sqlEq_cadena _ _ rfl
  simp only [marcar, hs, aplicarCampo, decide_eq_true_eq]
  split_ifs <;> simp

theorem marcar_lectura (m : String) (t : Nat) (r : Mensaje) :
    marcar "fecha_lectura = NOW()" (.str m) t r =
      if r.whatsapp_message_id = .str m then { r with fecha_lectura := some t } else r := by
  have hs : sqlEq r.whatsapp_message_id (.str m) = decide (r.whatsapp_message_id = .str m) :=
    sqlEq_cadena _ _ rfl
  have hc : ¬ ("fecha_lectura = NOW()" = "fecha_entrega = NOW()") := by decide
  simp only [marcar, hs, aplicarCampo, decide_eq_true_eq, if_neg hc, if_true, Option.getD]

/-- A loop whose body never throws visits every element, in list order. -/
theorem paraCada_foldl {σ α : Type} (xs : List α) (f : α → Efecto σ Unit)
    (hf : ∀ x s, (f x s).1 = .ok ()) (s : σ) :
    paraCada xs f s = (.ok (), xs.foldl (fun t x => (f x t).2) s) := by
  induction xs generalizing s with
  | nil => rfl
  | cons x resto ih =>
    simp only [paraCada, ligar, List.foldl_cons]
    have h := hf x s
    rcases hx : f x s with ⟨r, s1⟩
    rw [hx] at h
    simp only at h
    subst h
    exact ih s1

theorem campo_objeto (v : JVal) (k : String) (h : v.campo k ≠ .undefined) :
    v.esObjeto = true := by
  cases v <;> simp_all [campo, esObjeto]

/-- The clock of the store is not changed by `procesarMensajeEntrante`. -/
theorem ahora_tras_recibir (esq : Esquema) (message contacts : JVal) (s : Almacen) :
    (recibir esq message contacts s).ahora = s.ahora := by
  have h : Preserva (fun t : Almacen => t.ahora = s.ahora)
      (procesarMensajeEntrante (bd esq) message contacts) := by
    apply preserva_atrapar
    unfold procesarMensajeEntranteCuerpo
    refine preserva_bind _ _ _ (preserva_deExcept _ _) (fun x => ?_)
    refine preserva_bind _ _ _
      (preserva_resolverContacto esq _ _ _ (fun _ _ _ h => h)) (fun contactoId => ?_)
    refine preserva_bind _ _ _
      (preserva_resolverConversacion esq _ _ _ (fun _ _ _ h => h)) (fun conversacionId => ?_)
    refine preserva_bind _ _ _ (preserva_deExcept _ _) (fun messageId => ?_)
    exact preserva_insertMensaje esq _ _ (fun _ _ _ h => h)
  exact h s rfl

/-- A change of field messages whose value holds a messages list and a
statuses list: all the messages in order, then all the statuses in order. -/
theorem procesarChange_listas {σ : Type} (db : Db σ) (t : σ) (change value : JVal)
    (ms sts : List JVal)
    (hf : change.campo "field" = .str "messages") (hv : change.campo "value" = value)
    (hms : value.campo "messages" = .arr ms) (hsts : value.campo "statuses" = .arr sts) :
    procesarChange db change t =
      (.ok (), sts.foldl (fun u st => (procesarEstadoMensaje db st u).2)
        (ms.foldl (fun u m => (procesarMensajeEntrante db m (value.campo "contacts") u).2) t)) := by
  have hco : change.esObjeto = true := campo_objeto change "field" (by rw [hf]; simp)
  have hvo : value.esObjeto = true := campo_objeto value "messages" (by rw [hms]; simp)
  have h1 : procesarMensajes db value t =
      paraCada ms (fun m => procesarMensajeEntrante db m (value.campo "contacts")) t := by
    unfold procesarMensajes
    simp only [bind_apply, deExcept_apply, prop_de_objeto _ _ hvo, hms, esVerdadero, iterar,
      if_true]
    apply paraCada_congr
    intro m _ u
    simp only [bind_apply, deExcept_apply]
  have h2 : ∀ u, procesarEstados db value u = paraCada sts (procesarEstadoMensaje db) u := by
    intro u
    unfold procesarEstados
    simp only [bind_apply, deExcept_apply, prop_de_objeto _ _ hvo, hsts, esVerdadero, iterar,
      if_true]
  unfold procesarChange
  simp only [bind_apply, deExcept_apply, prop_de_objeto _ _ hco, hf, hv, if_true]
  have e1 := paraCada_foldl ms
    (fun m => procesarMensajeEntrante db m (value.campo "contacts"))
    (fun m u => atrapar_fst _ u) t
  rw [h1, e1]
  simp only []
  rw [h2]
  exact paraCada_foldl sts (procesarEstadoMensaje db) (fun st u => atrapar_fst _ u) _

theorem conservaCerradas_refl (s : Almacen) : s.conservaCerradas s :=
  ⟨fun c => c, [], by simp, fun _ _ => ⟨rfl, fun h => h⟩⟩

theorem conservaCerradas_congr (s t u : Almacen) (h : s.conservaCerradas t)
    (hu : u.conversaciones = t.conversaciones) : s.conservaCerradas u := by
  obtain ⟨f, nuevas, h1, h2⟩ := h
  exact ⟨f, nuevas, hu.trans h1, h2⟩

theorem conservaCerradas_trans (s t u : Almacen) (h1 : s.conservaCerradas t)
    (h2 : t.conservaCerradas u) : s.conservaCerradas u := by
  obtain ⟨f, n1, e1, p1⟩ := h1
  obtain ⟨g, n2, e2, p2⟩ := h2
  refine ⟨g ∘ f, n1.map g ++ n2, ?_, fun c hc => ?_⟩
  · rw [e2, e1, List.map_append, List.map_map, List.append_assoc]
  · have hfc : f c ∈ t.conversaciones := by
      rw [e1]
      exact List.mem_append_left _ (List.mem_map_of_mem f hc)
    have a := p1 c hc
    have b := p2 (f c) hfc
    exact ⟨b.1.trans a.1, fun h => b.2 (a.2 h)⟩

theorem conservaCerradas_resolverConversacion (esq : Esquema) (contactoId : Nat)
    (numero : JVal) (s : Almacen) :
    Preserva (fun t => s.conservaCerradas t)
      (resolverConversacion (bd esq) contactoId numero) := by
  intro t ht
  refine conservaCerradas_trans s t _ ht ?_
  cases h : masReciente (t.abiertasDe contactoId) with
  | none =>
    cases ha : numero.aCadena with
    | error e =>
      rw [resolverConversacion_sin_titulo esq contactoId numero e t
        ((masReciente_eq_none _).1 h) ha]
      exact conservaCerradas_refl t
    | ok titulo =>
      rw [resolverConversacion_nueva esq contactoId numero titulo t
        ((masReciente_eq_none _).1 h) ha]
      exact ⟨fun c => c,
        [t.conversacionNueva contactoId ("Conversación con " ++ titulo)], by simp,
        fun _ _ => ⟨rfl, fun h => h⟩⟩
  | some c =>
    rw [resolverConversacion_existente esq contactoId numero t c h]
    exact ⟨tocarConversacion c.id t.ahora, [], by simp, fun d _ => ⟨by simp, fun h => by simpa using h⟩⟩

theorem conservaCerradas_recibir (esq : Esquema) (message contacts : JVal) (s : Almacen) :
    s.conservaCerradas (recibir esq message contacts s) := by
  have h : Preserva (fun t => s.conservaCerradas t)
      (procesarMensajeEntrante (bd esq) message contacts) := by
    apply preserva_atrapar
    unfold procesarMensajeEntranteCuerpo
    refine preserva_bind _ _ _ (preserva_deExcept _ _) (fun x => ?_)
    refine preserva_bind _ _ _
      (preserva_resolverContacto esq _ _ _
        (fun t _ _ h => conservaCerradas_congr s t _ h rfl)) (fun contactoId => ?_)
    refine preserva_bind _ _ _ (conservaCerradas_resolverConversacion esq _ _ s)
      (fun conversacionId => ?_)
    refine preserva_bind _ _ _ (preserva_deExcept _ _) (fun messageId => ?_)
    exact preserva_insertMensaje esq _ _ (fun t _ _ h => conservaCerradas_congr s t _ h rfl)
  exact h s (conservaCerradas_refl s)

theorem conservaCerradas_recibirEstado (esq : Esquema) (status : JVal) (s : Almacen) :
    s.conservaCerradas (recibirEstado esq status s) :=
  preserva_procesarEstadoMensaje esq status (fun t => s.conservaCerradas t)
    (fun t _ _ h => conservaCerradas_congr s t _ h rfl) s (conservaCerradas_refl s)

theorem conservaCerradas_putConversaciones (usuario : Usuario) (id : Nat) (body : JVal)
    (s : Almacen) (hno : noReabre s id body) :
    s.conservaCerradas (putConversaciones usuario id body s).2 := by
  unfold putConversaciones
  split_ifs
  · exact conservaCerradas_refl s
  · split
    · exact conservaCerradas_refl s
    · split_ifs
      · exact conservaCerradas_refl s
      · split
        · exact conservaCerradas_refl s
        · rename_i campos hcampos
          split_ifs
          · exact conservaCerradas_refl s
          · refine ⟨actualizarConversacion id s.ahora campos, [], by simp, fun c hc => ?_⟩
            unfold actualizarConversacion
            split_ifs with hid
            · refine ⟨?_, fun hce => ?_⟩
              · have : ∀ (l : List Asignacion) (d : Conversacion),
                    (l.foldl (Asignacion.aplicar s.ahora) d).id = d.id := by
                  intro l
                  induction l with
                  | nil => intro d; rfl
                  | cons a resto ih =>
                    intro d
                    rw [List.foldl_cons, ih]
                    cases a <;> rfl
                exact this campos c
              · rcases foldl_aplicar_estado s.ahora campos c with h | ⟨e, he, hr⟩
                · exact h.trans hce
                · have hmem := estado_en_updateFields s body campos e hcampos he
                  rcases hno ⟨c, hc, hid, hce⟩ with hb | hb
                  · rw [hb] at hmem
                    have : e = "cerrado" := by
                      simp [camposEstado, esVerdadero, estadosValidos] at hmem
                      exact hmem
                    exact hr.trans this
                  · rw [hb] at hmem
                    cases hmem
            · exact ⟨rfl, fun h => h⟩

theorem empiezaCon_iff (xs sub : List Char) : empiezaCon xs sub = true ↔ sub <+: xs := by
  induction xs generalizing sub with
  | nil => cases sub <;> simp [empiezaCon]
  | cons x xs ih =>
    cases sub with
    | nil => simp [empiezaCon]
    | cons y ys =>
      simp only [empiezaCon, Bool.and_eq_true, beq_iff_eq, ih, List.cons_prefix_cons]
      constructor
      · rintro ⟨h1, h2⟩; exact ⟨h1.symm, h2⟩
      · rintro ⟨h1, h2⟩; exact ⟨h1.symm, h2⟩

/-- The substring test holds exactly when the text occurs as a contiguous part. -/
theorem contiene_iff (xs sub : List Char) : contiene xs sub = true ↔ sub <:+: xs := by
  induction xs with
  | nil =>
    simp only [contiene, empiezaCon_iff, List.prefix_nil, List.infix_nil]
  | cons x xs ih =>
    simp only [contiene, Bool.or_eq_true, empiezaCon_iff, ih, List.infix_cons_iff]

theorem limpiar_lista (numero : String) :
    (limpiarNumero numero).toList = numero.toList.filter Char.isDigit := rfl

theorem esSensible_cadena (k : String) :
    esSensible (.str k) = .ok (contiene k.toList "token".toList ||
      contiene k.toList "password".toList) := by
  simp only [esSensible, JVal.incluye, bind, Except.bind, pure, Except.pure]
  cases contiene k.toList "token".toList <;> rfl

/-- Rows that differ at most in a set sensitive value are sent alike. -/
theorem ocultar_congr (a b : Configuracion) (h : mismoSalvoSecreto a b) :
    ocultar a = ocultar b := by
  obtain ⟨hc, hd, ht, hv⟩ := h
  rcases hv with hv | ⟨hs, ha, hb⟩
  · have : a = b := by
      cases a; cases b; simp_all
    rw [this]
  · unfold ocultar
    rw [← hc, ← hd, ← ht, hs]
    simp only [bind, Except.bind, pure, Except.pure, if_true, ha, hb]

theorem ocultarTodas_congr (l1 l2 : List Configuracion)
    (h : List.Forall₂ mismoSalvoSecreto l1 l2) : ocultarTodas l1 = ocultarTodas l2 := by
  induction h with
  | nil => rfl
  | cons hab _ ih => simp only [ocultarTodas, ocultar_congr _ _ hab, ih]

theorem insertar_congr (orden : JVal → JVal → Bool) (a b : Configuracion)
    (hab : mismoSalvoSecreto a b) (l1 l2 : List Configuracion)
    (h : List.Forall₂ mismoSalvoSecreto l1 l2) :
    List.Forall₂ mismoSalvoSecreto (insertarPorClave orden a l1)
      (insertarPorClave orden b l2) := by
  induction h with
  | nil => exact .cons hab .nil
  | @cons c d r1 r2 hcd hr ih =>
    simp only [insertarPorClave, ← hab.1, ← hcd.1]
    split_ifs
    · exact .cons hab (.cons hcd hr)
    · exact .cons hcd ih

theorem ordenar_congr (orden : JVal → JVal → Bool) (l1 l2 : List Configuracion)
    (h : List.Forall₂ mismoSalvoSecreto l1 l2) :
    List.Forall₂ mismoSalvoSecreto (ordenarPorClave orden l1) (ordenarPorClave orden l2) := by
  induction h with
  | nil => exact .nil
  | cons hab _ ih => exact insertar_congr orden _ _ hab _ _ ih

theorem filtrar_congr (p : JVal → Bool) (l1 l2 : List Configuracion)
    (h : List.Forall₂ mismoSalvoSecreto l1 l2) :
    List.Forall₂ mismoSalvoSecreto (l1.filter fun c => p c.clave)
      (l2.filter fun c => p c.clave) := by
  induction h with
  | nil => exact .nil
  | @cons a b r1 r2 hab _ ih =>
    simp only [List.filter_cons, ← hab.1]
    split_ifs
    · exact .cons hab ih
    · exact ih

theorem insertar_perm (orden : JVal → JVal → Bool) (c : Configuracion)
    (l : List Configuracion) : (insertarPorClave orden c l).Perm (c :: l) := by
  induction l with
  | nil => exact List.Perm.refl _
  | cons d resto ih =>
    simp only [insertarPorClave]
    split_ifs
    · exact List.Perm.refl _
    · exact (List.Perm.cons d ih).trans (List.Perm.swap c d resto)

/-- The sorted rows are the rows of the table. -/
theorem ordenar_perm (orden : JVal → JVal → Bool) (l : List Configuracion) :
    (ordenarPorClave orden l).Perm l := by
  induction l with
  | nil => exact List.Perm.refl _
  | cons c resto ih => exact (insertar_perm orden c _).trans (List.Perm.cons c ih)

/-- The callback of the list route returns on every row whose clave is a
string. -/
theorem ocultarTodas_cadenas (l : List Configuracion)
    (h : ∀ c ∈ l, c.clave.esCadena = true) : ∃ filas, ocultarTodas l = .ok filas := by
  induction l with
  | nil => exact ⟨[], rfl⟩
  | cons c resto ih =>
    obtain ⟨fs, hfs⟩ := ih (fun d hd => h d (List.mem_cons_of_mem _ hd))
    obtain ⟨k, hk⟩ : ∃ k, c.clave = .str k := by
      have := h c (List.mem_cons_self _ _)
      cases hc : c.clave <;> simp_all [esCadena]
    have ho : ∃ fila, ocultar c = .ok fila := by
      unfold ocultar
      rw [hk, esSensible_cadena]
      exact ⟨_, rfl⟩
    obtain ⟨fila, hfila⟩ := ho
    refine ⟨fila :: fs, ?_⟩
    simp only [ocultarTodas, bind, Except.bind, pure, Except.pure, hfila, hfs]

theorem ocultarTodas_filas (l : List Configuracion) (filas : List JVal)
    (h : ocultarTodas l = .ok filas) :
    List.Forall₂ (fun c fila => ocultar c = .ok fila) l filas := by
  induction l generalizing filas with
  | nil =>
    simp only [ocultarTodas, Except.ok.injEq] at h
    subst h
    exact .nil
  | cons c resto ih =>
    simp only [ocultarTodas, bind, Except.bind, pure, Except.pure] at h
    cases hc : ocultar c with
    | error e => rw [hc] at h; cases h
    | ok fila =>
      rw [hc] at h
      cases hr : ocultarTodas resto with
      | error e => rw [hr] at h; cases h
      | ok fs =>
        rw [hr] at h
        simp only [Except.ok.injEq] at h
        subst h
        exact .cons hc (ih fs hr)

/-! ## The claims -/

theorem unaAbierta_vacio : Almacen.vacio.unaAbiertaPorContacto := by
  intro contactoId
  simp [abiertasDe, Almacen.vacio]

/-- C1, refuted as stated: against the store that enforces uniqueness of
whatsapp_message_id, the well-formed first message of a number, processed twice
with a contact hint whose first entry has no profile, leaves no mensajes row
with its id: reading the display name throws in both calls before the contact
is created. -/
theorem C1_contraejemplo :
    esquemaEstricto.mensajeIdUnico = true ∧ eventoBienFormado eventoHola = true ∧
    ((recibir esquemaEstricto eventoHola pistaSinPerfil
        ((recibir esquemaEstricto eventoHola pistaSinPerfil Almacen.vacio).conReloj 7)).mensajes.filter
      (fun r => decide (r.whatsapp_message_id = eventoHola.campo "id"))).length = 0 := by
  decide

/-- C1, amended (idempotent ingestion): against a store that enforces
uniqueness of whatsapp_message_id and holds at most one row with the id of the
event, running procesarMensajeEntrante twice on a well-formed message event
whose insert parameters are all defined (a document carries its filename),
with contact hints that are absent, empty or lead with a profile name (the
clock may move between the two calls), leaves exactly one mensajes row whose
whatsapp_message_id is the id of the event, and neither call raises. -/
theorem C1_ingestion_idempotente (esq : Esquema) (hu : esq.mensajeIdUnico = true)
    (s : Almacen) (message contacts1 contacts2 : JVal) (t2 : Nat)
    (hm : eventoCompleto message = true)
    (hc1 : contactsBienFormado contacts1 = true) (hc2 : contactsBienFormado contacts2 = true)
    (hinv : (s.mensajes.filter
      (fun r => decide (r.whatsapp_message_id = message.campo "id"))).length ≤ 1) :
    (procesarMensajeEntrante (bd esq) message contacts1 s).1 = .ok () ∧
    (procesarMensajeEntrante (bd esq) message contacts2
      ((recibir esq message contacts1 s).conReloj t2)).1 = .ok () ∧
    ((recibir esq message contacts2
        ((recibir esq message contacts1 s).conReloj t2)).mensajes.filter
      (fun r => decide (r.whatsapp_message_id = message.campo "id"))).length = 1 := by
  refine ⟨atrapar_fst _ _, atrapar_fst _ _, ?_⟩
  have hid := id_cadena message (completo_bienFormado message hm)
  rw [← filter_sqlEq_cadena _ _ hid] at hinv ⊢
  have h1 := cuenta_tras_recibir esq hu message contacts1 s hm hc1
  have h2 := cuenta_tras_recibir esq hu message contacts2
    ((recibir esq message contacts1 s).conReloj t2) hm hc2
  simp only [mensajesCon, conReloj] at h1 h2 hinv ⊢
  rw [h2]
  split_ifs at h1 h2 ⊢ <;> omega

theorem C1_ingestion_idempotente_witness :
    ((recibir esquemaEstricto eventoHola pistaAna
        ((recibir esquemaEstricto eventoHola pistaAna Almacen.vacio).conReloj 7)).mensajes.filter
      (fun r => decide (r.whatsapp_message_id = eventoHola.campo "id"))).length = 1 :=
  (C1_ingestion_idempotente esquemaEstricto rfl Almacen.vacio eventoHola pistaAna pistaAna 7
    (by decide) (by decide) (by decide) (by decide)).2.2

/-- C2, refuted as stated: the empty store has no contact for the sender of
the well-formed first message, and procesarMensajeEntrante on it with a contact
hint whose first entry has no profile creates no contact, no conversation and
no message: the store stays empty. -/
theorem C2_contraejemplo :
    eventoBienFormado eventoHola = true ∧
    Almacen.vacio.contactosCon (eventoHola.campo "from") = [] ∧
    recibir esquemaEstricto eventoHola pistaSinPerfil Almacen.vacio = Almacen.vacio := by
  decide

/-- C2, amended (new-contact creation): in a store with key integrity and no
contact whose numero_whatsapp is the sender, procesarMensajeEntrante on a
well-formed message whose insert parameters are all defined and whose external
id the store accepts, with a contact hint that is absent, empty or leads with
a profile name, appends exactly one contactos row k for the sender, with a
fresh key, exactly one conversaciones row c with estado nuevo, a fresh key and
contacto_id the key of k, and one mensajes row whose conversacion_id is the key
of c. -/
theorem C2_contacto_nuevo (esq : Esquema) (s : Almacen) (message contacts : JVal)
    (hm : eventoCompleto message = true) (hc : contactsBienFormado contacts = true)
    (hcoh : s.Coherente)
    (hnuevo : s.contactosCon (message.campo "from") = [])
    (hfresco : esq.mensajeIdUnico = true → s.mensajesCon (message.campo "id") = []) :
    ∃ k c r,
      (recibir esq message contacts s).contactos = s.contactos ++ [k] ∧
      k.numero_whatsapp = message.campo "from" ∧ (∀ j ∈ s.contactos, j.id ≠ k.id) ∧
      (recibir esq message contacts s).conversaciones =
        s.conversaciones ++ [c] ∧
      c.estado = "nuevo" ∧ c.contacto_id = k.id ∧ (∀ d ∈ s.conversaciones, d.id ≠ c.id) ∧
      (recibir esq message contacts s).mensajes = s.mensajes ++ [r] ∧
      r.whatsapp_message_id = message.campo "id" ∧ r.conversacion_id = c.id := by
  obtain ⟨nombre, x, numero, _, _, _, hs⟩ :=
    recibir_nuevo esq s message contacts hm hc hcoh hnuevo hfresco
  refine ⟨s.contactoNuevo (message.campo "from") nombre,
    s.conversacionNueva s.sigContacto ("Conversación con " ++ numero),
    s.mensajeNuevo (parametros message x s.sigConversacion), ?_⟩
  rw [hs]
  refine ⟨rfl, rfl, ?_, rfl, rfl, rfl, ?_, rfl, rfl, rfl⟩
  · intro j hj
    have := hcoh.1 j hj
    simp only [contactoNuevo]
    omega
  · intro d hd
    have := (hcoh.2.1 d hd).1
    simp only [conversacionNueva]
    omega

theorem C2_contacto_nuevo_witness :
    ∃ k c r,
      (recibir esquemaEstricto eventoOtro pistaAna almacenConMensaje).contactos =
        almacenConMensaje.contactos ++ [k] ∧
      k.numero_whatsapp = eventoOtro.campo "from" ∧
      (∀ j ∈ almacenConMensaje.contactos, j.id ≠ k.id) ∧
      (recibir esquemaEstricto eventoOtro pistaAna almacenConMensaje).conversaciones =
        almacenConMensaje.conversaciones ++ [c] ∧
      c.estado = "nuevo" ∧ c.contacto_id = k.id ∧
      (∀ d ∈ almacenConMensaje.conversaciones, d.id ≠ c.id) ∧
      (recibir esquemaEstricto eventoOtro pistaAna almacenConMensaje).mensajes =
        almacenConMensaje.mensajes ++ [r] ∧
      r.whatsapp_message_id = eventoOtro.campo "id" ∧ r.conversacion_id = c.id :=
  C2_contacto_nuevo esquemaEstricto almacenConMensaje eventoOtro pistaAna (by decide)
    (by decide) (by decide) (by decide) (fun _ => by decide)

/-- C3, refuted as stated: Ana has one conversation, in estado nuevo, with one
message. Two successive well-formed messages of her number with distinct ids,
the first of them the id already stored, raise the message count of the
conversation by one, not by two: the store rejects the first insert. -/
theorem C3_contraejemplo :
    esquemaEstricto.mensajeIdUnico = true ∧
    eventoBienFormado eventoHola = true ∧ eventoBienFormado eventoSigo = true ∧
    eventoSigo.campo "from" = eventoHola.campo "from" ∧
    eventoHola.campo "id" ≠ eventoSigo.campo "id" ∧
    almacenConMensaje.contactosCon (eventoHola.campo "from") = [contactoAna] ∧
    almacenConMensaje.abiertasDe contactoAna.id = [conversacionAna] ∧
    ((recibir esquemaEstricto eventoSigo .undefined
        ((recibir esquemaEstricto eventoHola .undefined almacenConMensaje).conReloj 9)).mensajes.filter
      (fun r => decide (r.conversacion_id = conversacionAna.id))).length =
      (almacenConMensaje.mensajes.filter
        (fun r => decide (r.conversacion_id = conversacionAna.id))).length + 1 := by
  decide

/-- C3, amended (conversation reuse): let the sender be a known contact and c
one of its conversations whose estado is not cerrado, every other such
conversation of the contact having another key and an activity time, if any,
strictly before that of c and before the clock. Then two successive
well-formed messages of that sender with distinct external ids, neither of
them stored yet where the store enforces uniqueness, and with all insert
parameters defined, are both stored with the conversacion_id of c, no
conversaciones row is created in either call, the message count of c grows by
two, and its fecha_ultima_actividad is the clock of the store at each call. -/
theorem C3_reutilizacion (esq : Esquema) (s : Almacen) (m1 m2 contacts1 contacts2 : JVal)
    (t2 : Nat) (k : Contacto) (resto : List Contacto) (c : Conversacion)
    (hm1 : eventoCompleto m1 = true) (hm2 : eventoCompleto m2 = true)
    (hfrom : m2.campo "from" = m1.campo "from")
    (hdist : m1.campo "id" ≠ m2.campo "id")
    (hk : s.contactosCon (m1.campo "from") = k :: resto)
    (hc : c ∈ s.conversaciones ∧ c.contacto_id = k.id ∧ c.estado ≠ "cerrado")
    (hotras : ∀ d ∈ s.conversaciones, d.contacto_id = k.id → d.estado ≠ "cerrado" → d ≠ c →
      d.id ≠ c.id ∧ ∃ u, c.fecha_ultima_actividad = some u ∧
        ∀ t, d.fecha_ultima_actividad = some t → t < u ∧ t < s.ahora)
    (hfresco : esq.mensajeIdUnico = true →
      s.mensajesCon (m1.campo "id") = [] ∧ s.mensajesCon (m2.campo "id") = []) :
    ∃ r1 r2 : Mensaje,
      (recibir esq m2 contacts2 ((recibir esq m1 contacts1 s).conReloj t2)).mensajes =
        s.mensajes ++ [r1, r2] ∧
      r1.whatsapp_message_id = m1.campo "id" ∧ r2.whatsapp_message_id = m2.campo "id" ∧
      r1.conversacion_id = c.id ∧ r2.conversacion_id = c.id ∧
      (recibir esq m1 contacts1 s).conversaciones.map (·.id) = s.conversaciones.map (·.id) ∧
      (recibir esq m2 contacts2 ((recibir esq m1 contacts1 s).conReloj t2)).conversaciones.map
        (·.id) = s.conversaciones.map (·.id) ∧
      ((recibir esq m2 contacts2 ((recibir esq m1 contacts1 s).conReloj t2)).mensajes.filter
        (fun r => decide (r.conversacion_id = c.id))).length =
        (s.mensajes.filter (fun r => decide (r.conversacion_id = c.id))).length + 2 ∧
      (∀ d ∈ (recibir esq m1 contacts1 s).conversaciones, d.id = c.id →
        d.fecha_ultima_actividad = some s.ahora) ∧
      (∀ d ∈
          (recibir esq m2 contacts2 ((recibir esq m1 contacts1 s).conReloj t2)).conversaciones,
        d.id = c.id → d.fecha_ultima_actividad = some t2) := by
  have hcab : c ∈ s.abiertasDe k.id := by
    simp only [abiertasDe, List.mem_filter, decide_eq_true_eq]
    exact ⟨hc.1, hc.2.1, hc.2.2⟩
  have hmr : masReciente (s.abiertasDe k.id) = some c := by
    apply masReciente_estricto _ _ hcab
    intro d hd
    simp only [abiertasDe, List.mem_filter, decide_eq_true_eq] at hd
    by_cases hdc : d = c
    · exact Or.inl hdc
    · obtain ⟨_, u, hu, hlt⟩ := hotras d hd.1 hd.2.1 hd.2.2 hdc
      exact Or.inr ((anterior_iff _ _).2 ⟨u, hu, fun t ht => (hlt t ht).1⟩)
  obtain ⟨r1, hr1, hv1, e1⟩ := recibir_reutiliza esq s m1 contacts1 k resto c hm1 hk hmr
    (fun hu => (hfresco hu).1)
  have hk2 : Almacen.contactosCon ((recibir esq m1 contacts1 s).conReloj t2) (m2.campo "from") =
      tocarContacto k.id s.ahora k :: resto.map (tocarContacto k.id s.ahora) := by
    rw [e1, hfrom]
    simp only [contactosCon, conReloj, filter_tocarContacto]
    simp only [contactosCon] at hk
    rw [hk, List.map_cons]
  have hab2 : Almacen.abiertasDe ((recibir esq m1 contacts1 s).conReloj t2)
      (tocarContacto k.id s.ahora k).id =
      (s.abiertasDe k.id).map (tocarConversacion c.id s.ahora) := by
    rw [e1, tocarContacto_id]
    simp only [abiertasDe, conReloj, filter_tocarConversacion]
  have hmr2 : masReciente (Almacen.abiertasDe ((recibir esq m1 contacts1 s).conReloj t2)
      (tocarContacto k.id s.ahora k).id) = some (tocarConversacion c.id s.ahora c) := by
    rw [hab2]
    apply masReciente_estricto _ _ (List.mem_map_of_mem _ hcab)
    intro d' hd'
    obtain ⟨d, hd, rfl⟩ := List.mem_map.1 hd'
    by_cases hdc : d = c
    · exact Or.inl (by rw [hdc])
    · right
      simp only [abiertasDe, List.mem_filter, decide_eq_true_eq] at hd
      obtain ⟨hid, u, hu, hlt⟩ := hotras d hd.1 hd.2.1 hd.2.2 hdc
      rw [tocarConversacion_fecha _ _ c rfl]
      have hd0 : tocarConversacion c.id s.ahora d = d := by
        unfold tocarConversacion
        rw [if_neg hid]
      rw [hd0]
      exact (anterior_iff _ _).2 ⟨s.ahora, rfl, fun t ht => (hlt t ht).2⟩
  have hf2 : esq.mensajeIdUnico = true →
      Almacen.mensajesCon ((recibir esq m1 contacts1 s).conReloj t2) (m2.campo "id") = [] := by
    intro hu
    rw [e1]
    simp only [mensajesCon, conReloj, List.filter_append]
    have h0 := (hfresco hu).2
    simp only [mensajesCon] at h0
    rw [h0]
    simp [sqlEq_cadena _ _ (id_cadena m2 (completo_bienFormado m2 hm2)), hr1, hdist]
  obtain ⟨r2, hr2, hv2, e2⟩ := recibir_reutiliza esq _ m2 contacts2 _ _ _ hm2 hk2 hmr2 hf2
  rw [tocarConversacion_id] at hv2 e2
  refine ⟨r1, r2, ?_, hr1, hr2, hv1, hv2, ?_, ?_, ?_, ?_, ?_⟩
  · rw [e2, e1]; simp [conReloj]
  · rw [e1]; simp [Function.comp_def]
  · rw [e2, e1]; simp [conReloj, Function.comp_def]
  · rw [e2, e1]; simp [conReloj, List.filter_append, hv1, hv2]
  · rw [e1]
    intro d hd hid
    simp only [List.mem_map] at hd
    obtain ⟨d0, _, rfl⟩ := hd
    exact tocarConversacion_fecha _ _ _ (by simpa using hid)
  · rw [e2, e1]
    intro d hd hid
    simp only [conReloj, List.mem_map] at hd
    obtain ⟨d1, ⟨d0, _, rfl⟩, rfl⟩ := hd
    exact tocarConversacion_fecha _ _ _ (by simpa using hid)

theorem C3_reutilizacion_witness :
    ∃ r1 r2 : Mensaje,
      (recibir esquemaEstricto (eventoTexto "wamid.4" "5215512345678" "Gracias") .undefined
        ((recibir esquemaEstricto (eventoTexto "wamid.3" "5215512345678" "Otra vez") .undefined
          almacenDosAbiertas).conReloj 9)).mensajes =
        almacenDosAbiertas.mensajes ++ [r1, r2] ∧
      r1.conversacion_id = 1 ∧ r2.conversacion_id = 1 := by
  obtain ⟨r1, r2, h, _, _, h1, h2, _⟩ :=
    C3_reutilizacion esquemaEstricto almacenDosAbiertas
      (eventoTexto "wamid.3" "5215512345678" "Otra vez")
      (eventoTexto "wamid.4" "5215512345678" "Gracias") .undefined .undefined 9
      contactoAna [] conversacionEnProceso (by decide) (by decide) (by decide) (by decide)
      (by decide) (by decide) (by decide) (fun _ => by decide)
  exact ⟨r1, r2, h, h1, h2⟩

/-- C4, refuted as stated: every conversation of Ana is closed and her first
message is stored under the closed one. procesarMensajeEntrante on that
well-formed message again creates a conversation and stores nothing under it:
the store rejects the insert of an external id it holds, so the only message
row still belongs to the closed conversation. -/
theorem C4_contraejemplo :
    esquemaEstricto.mensajeIdUnico = true ∧ eventoBienFormado eventoHola = true ∧
    almacenCerrado.contactosCon (eventoHola.campo "from") = [contactoAna] ∧
    (∀ d ∈ almacenCerrado.conversaciones,
      d.contacto_id = contactoAna.id → d.estado = "cerrado") ∧
    (recibir esquemaEstricto eventoHola .undefined almacenCerrado).conversaciones.map (·.id) =
      [1, 2] ∧
    (recibir esquemaEstricto eventoHola .undefined almacenCerrado).mensajes.map
      (·.conversacion_id) = [1] := by
  decide

/-- C4, amended (re-opening after close): in a store with key integrity, when
the sender is a known contact all of whose conversations have estado cerrado,
procesarMensajeEntrante on a well-formed message whose insert parameters are
all defined and whose external id the store accepts appends one conversaciones
row c with estado nuevo for that contact and stores the message under the key
of c; the rows of conversaciones that existed are unchanged and none of them
has the key of c. -/
theorem C4_reapertura (esq : Esquema) (s : Almacen) (message contacts : JVal)
    (k : Contacto) (resto : List Contacto)
    (hm : eventoCompleto message = true) (hcoh : s.Coherente)
    (hk : s.contactosCon (message.campo "from") = k :: resto)
    (hcerradas : ∀ d ∈ s.conversaciones, d.contacto_id = k.id → d.estado = "cerrado")
    (hfresco : esq.mensajeIdUnico = true → s.mensajesCon (message.campo "id") = []) :
    ∃ c r,
      (recibir esq message contacts s).conversaciones = s.conversaciones ++ [c] ∧
      c.estado = "nuevo" ∧ c.contacto_id = k.id ∧ (∀ d ∈ s.conversaciones, d.id ≠ c.id) ∧
      (recibir esq message contacts s).mensajes = s.mensajes ++ [r] ∧
      r.whatsapp_message_id = message.campo "id" ∧ r.conversacion_id = c.id := by
  have hb := completo_bienFormado message hm
  obtain ⟨x, hx, hcuerpo⟩ := cuerpo_bienFormado (bd esq) message contacts hb
  obtain ⟨numero, _, ht⟩ := aCadena_cadena _ (from_cadena message hb)
  have h1 := resolverContacto_existente esq contacts _ s k resto hk
  have hab : Almacen.abiertasDe
      { s with contactos := s.contactos.map (tocarContacto k.id s.ahora) } k.id = [] := by
    simp only [abiertasDe, List.filter_eq_nil_iff]
    intro d hd
    simp only [decide_eq_true_eq, not_and, not_not]
    exact hcerradas d hd
  have h2 := resolverConversacion_nueva esq k.id (message.campo "from") numero _ hab ht
  refine ⟨s.conversacionNueva k.id ("Conversación con " ++ numero),
    s.mensajeNuevo (parametros message x s.sigConversacion), ?_⟩
  simp only [recibir, procesarMensajeEntrante, atrapar_snd, hcuerpo]
  rw [bind_ok _ _ _ _ _ h1, bind_ok _ _ _ _ _ h2,
    insertMensaje_ok esq _ _ (by exact parametros_definidos message hm x hx _)
      (by exact hfresco)]
  refine ⟨rfl, rfl, rfl, ?_, rfl, rfl, rfl⟩
  intro d hd
  have := (hcoh.2.1 d hd).1
  simp only [conversacionNueva]
  omega

theorem C4_reapertura_witness :
    ∃ c r,
      (recibir esquemaEstricto eventoSigo .undefined almacenCerrado).conversaciones =
        almacenCerrado.conversaciones ++ [c] ∧
      c.estado = "nuevo" ∧ c.contacto_id = contactoAna.id ∧
      (∀ d ∈ almacenCerrado.conversaciones, d.id ≠ c.id) ∧
      (recibir esquemaEstricto eventoSigo .undefined almacenCerrado).mensajes =
        almacenCerrado.mensajes ++ [r] ∧
      r.whatsapp_message_id = eventoSigo.campo "id" ∧ r.conversacion_id = c.id :=
  C4_reapertura esquemaEstricto almacenCerrado eventoSigo .undefined contactoAna []
    (by decide) (by decide) (by decide) (by decide) (fun _ => by decide)

/-- C5 (the processor preserves the single-open-conversation invariant): if
every contact key has at most one conversation whose estado is not cerrado,
the same holds after procesarMensajeEntrante on any message and contact hint,
and after procesarEstadoMensaje on any status event. -/
theorem C5_procesador_preserva_invariante (esq : Esquema) (s : Almacen)
    (message contacts status : JVal) (h : s.unaAbiertaPorContacto) :
    (recibir esq message contacts s).unaAbiertaPorContacto ∧
    (recibirEstado esq status s).unaAbiertaPorContacto :=
  ⟨unaAbierta_procesarMensajeEntrante esq message contacts s h,
    preserva_procesarEstadoMensaje esq status _ (fun s _ _ h => unaAbierta_congr s _ rfl h) s h⟩

theorem C5_procesador_preserva_invariante_witness :
    (recibir esquemaEstricto eventoSigo .undefined almacenConMensaje).unaAbiertaPorContacto ∧
    (recibirEstado esquemaEstricto (eventoEstado "wamid.1" "read")
      almacenConMensaje).unaAbiertaPorContacto :=
  C5_procesador_preserva_invariante esquemaEstricto almacenConMensaje eventoSigo .undefined
    (eventoEstado "wamid.1" "read")
    (unaAbierta_procesarMensajeEntrante esquemaEstricto eventoHola pistaAna Almacen.vacio
      unaAbierta_vacio)

/-- C6, refuted as stated: two reachable stores in which contact 1 has two
conversations whose estado is not cerrado. The first is reached by a message,
the staff closing its conversation, a second message, and the staff setting
the first conversation back to nuevo; the second by a message and the staff
creating a conversation for the same contact. -/
theorem C6_contraejemplo :
    Alcanzable esquemaEstricto trazaReapertura ∧ ¬ trazaReapertura.unaAbiertaPorContacto ∧
    Alcanzable esquemaEstricto trazaCreacion ∧ ¬ trazaCreacion.unaAbiertaPorContacto := by
  refine ⟨?_, ?_, ?_, ?_⟩
  · exact .actualizar _ _ _ _ (.mensaje _ _ _ (.actualizar _ _ _ _ (.mensaje _ _ _ .vacio)))
  · intro h
    exact absurd (h 1) (by decide)
  · exact .crear _ _ _ (.mensaje _ _ _ .vacio)
  · intro h
    exact absurd (h 1) (by decide)

/-- C6, amended: in every store reachable from the empty store by inbound
message processing, status processing and staff updates that do not set a
closed conversation back to an estado other than cerrado, each contact key has
at most one conversation whose estado is not cerrado. -/
theorem C6_invariante_sin_reabrir (esq : Esquema) (s : Almacen)
    (h : AlcanzableSinReabrir esq s) : s.unaAbiertaPorContacto := by
  induction h with
  | vacio => intro contactoId; simp [abiertasDe, Almacen.vacio]
  | reloj s t _ ih => exact unaAbierta_congr s _ rfl ih
  | mensaje s message contacts _ ih =>
    exact unaAbierta_procesarMensajeEntrante esq message contacts s ih
  | estadoMensaje s status _ ih =>
    exact preserva_procesarEstadoMensaje esq status _
      (fun s _ _ h => unaAbierta_congr s _ rfl h) s ih
  | actualizar s usuario id body _ hno ih =>
    exact unaAbierta_putConversaciones usuario id body s ih hno

theorem C6_invariante_sin_reabrir_witness :
    (recibir esquemaEstricto eventoSigo .undefined almacenCerrado).unaAbiertaPorContacto :=
  C6_invariante_sin_reabrir esquemaEstricto _
    (.mensaje _ _ _ (.actualizar _ _ _ _ (.mensaje _ _ _ .vacio) (fun _ => Or.inl rfl)))

/-- C7 (status order tolerance): for a stored message with external id m,
a delivered status followed by a read status leaves the row with both
fecha_entrega and fecha_lectura set (to the clock of each call), and a read
status followed by a delivered status does too; all four calls return without
raising. -/
theorem C7_orden_de_estados (esq : Esquema) (s : Almacen) (entregado leido : JVal)
    (m : String) (t2 : Nat) (r : Mensaje)
    (hoe : entregado.esObjeto = true) (hide : entregado.campo "id" = .str m)
    (hse : entregado.campo "status" = .str "delivered")
    (hol : leido.esObjeto = true) (hidl : leido.campo "id" = .str m)
    (hsl : leido.campo "status" = .str "read")
    (hr : r ∈ s.mensajes) (hrm : r.whatsapp_message_id = .str m) :
    (procesarEstadoMensaje (bd esq) entregado s).1 = .ok () ∧
    (procesarEstadoMensaje (bd esq) leido ((recibirEstado esq entregado s).conReloj t2)).1
      = .ok () ∧
    { r with fecha_entrega := some s.ahora, fecha_lectura := some t2 } ∈
      (recibirEstado esq leido ((recibirEstado esq entregado s).conReloj t2)).mensajes ∧
    (procesarEstadoMensaje (bd esq) leido s).1 = .ok () ∧
    (procesarEstadoMensaje (bd esq) entregado ((recibirEstado esq leido s).conReloj t2)).1
      = .ok () ∧
    { r with fecha_lectura := some s.ahora, fecha_entrega := some t2 } ∈
      (recibirEstado esq entregado ((recibirEstado esq leido s).conReloj t2)).mensajes := by
  refine ⟨atrapar_fst _ _, atrapar_fst _ _, ?_, atrapar_fst _ _, atrapar_fst _ _, ?_⟩
  · unfold recibirEstado
    simp only [recibirEstado_objeto _ _ _ hoe, recibirEstado_objeto _ _ _ hol, hse, hsl, hide,
      hidl]
    have h1 := marcar_mem "fecha_entrega = NOW()" (.str m) s.ahora _ r hr
    have h2 := marcar_mem "fecha_lectura = NOW()" (.str m) t2 _ _ h1
    simpa [updateField, marcar, hrm, sqlEq, aplicarCampo, conReloj] using h2
  · unfold recibirEstado
    simp only [recibirEstado_objeto _ _ _ hoe, recibirEstado_objeto _ _ _ hol, hse, hsl, hide,
      hidl]
    have h1 := marcar_mem "fecha_lectura = NOW()" (.str m) s.ahora _ r hr
    have h2 := marcar_mem "fecha_entrega = NOW()" (.str m) t2 _ _ h1
    simpa [updateField, marcar, hrm, sqlEq, aplicarCampo, conReloj] using h2

theorem C7_orden_de_estados_witness :
    { mensajeHola with fecha_entrega := some 0, fecha_lectura := some 4 } ∈
      (recibirEstado esquemaEstricto (eventoEstado "wamid.1" "read")
        ((recibirEstado esquemaEstricto (eventoEstado "wamid.1" "delivered")
          almacenConMensaje).conReloj 4)).mensajes ∧
    { mensajeHola with fecha_lectura := some 0, fecha_entrega := some 4 } ∈
      (recibirEstado esquemaEstricto (eventoEstado "wamid.1" "delivered")
        ((recibirEstado esquemaEstricto (eventoEstado "wamid.1" "read")
          almacenConMensaje).conReloj 4)).mensajes :=
  have h := C7_orden_de_estados esquemaEstricto almacenConMensaje
    (eventoEstado "wamid.1" "delivered") (eventoEstado "wamid.1" "read") "wamid.1" 4
    mensajeHola (by decide) (by decide) (by decide) (by decide) (by decide) (by decide)
    (by decide) (by decide)
  ⟨h.2.2.1, h.2.2.2.2.2⟩

/-- C8 (unknown-message status is a no-op): when no mensajes row matches the
id of a status event, procesarEstadoMensaje returns without raising and leaves
the store exactly as it was; and for every status event whatsoever it returns
without raising and keeps the number of rows of contactos, conversaciones and
mensajes. -/
theorem C8_estado_desconocido (esq : Esquema) (s : Almacen) (status : JVal) :
    ((∀ r ∈ s.mensajes, sqlEq r.whatsapp_message_id (status.campo "id") = false) →
      procesarEstadoMensaje (bd esq) status s = (.ok (), s)) ∧
    (procesarEstadoMensaje (bd esq) status s).1 = .ok () ∧
    (recibirEstado esq status s).contactos.length = s.contactos.length ∧
    (recibirEstado esq status s).conversaciones.length = s.conversaciones.length ∧
    (recibirEstado esq status s).mensajes.length = s.mensajes.length := by
  unfold recibirEstado
  cases ho : status.esObjeto with
  | false =>
    rw [recibirEstado_no_objeto esq status s ho]
    exact ⟨fun _ => rfl, rfl, rfl, rfl, rfl⟩
  | true =>
    rw [recibirEstado_objeto esq status s ho]
    refine ⟨fun h => ?_, rfl, ?_, ?_, ?_⟩
    · split_ifs
      · rfl
      · rw [marcar_sin_efecto _ _ _ _ h]
    · split_ifs <;> rfl
    · split_ifs <;> rfl
    · split_ifs
      · rfl
      · simp

theorem C8_estado_desconocido_witness :
    procesarEstadoMensaje (bd esquemaEstricto) (eventoEstado "wamid.9" "read")
      almacenConMensaje = (.ok (), almacenConMensaje) :=
  (C8_estado_desconocido esquemaEstricto almacenConMensaje
    (eventoEstado "wamid.9" "read")).1 (by decide)

/-- C9 (failure status clears delivery marks): for a stored message with
external id m, whatever its fecha_entrega and fecha_lectura, a failed status
for m leaves the row with both set to NULL, and the call does not raise. -/
theorem C9_fallo_borra_marcas (esq : Esquema) (s : Almacen) (status : JVal) (m : String)
    (r : Mensaje) (ho : status.esObjeto = true) (hid : status.campo "id" = .str m)
    (hst : status.campo "status" = .str "failed")
    (hr : r ∈ s.mensajes) (hrm : r.whatsapp_message_id = .str m) :
    (procesarEstadoMensaje (bd esq) status s).1 = .ok () ∧
    { r with fecha_entrega := none, fecha_lectura := none } ∈
      (recibirEstado esq status s).mensajes := by
  unfold recibirEstado
  rw [recibirEstado_objeto esq status s ho, hst, hid]
  refine ⟨rfl, ?_⟩
  have := marcar_mem "fecha_entrega = NULL, fecha_lectura = NULL" (.str m) s.ahora _ r hr
  simpa [updateField, marcar, hrm, sqlEq, aplicarCampo] using this

theorem C9_fallo_borra_marcas_witness :
    { mensajeHola with fecha_entrega := none, fecha_lectura := none } ∈
      (recibirEstado esquemaEstricto (eventoEstado "wamid.1" "failed")
        (recibirEstado esquemaEstricto (eventoEstado "wamid.1" "read")
          almacenConMensaje)).mensajes :=
  (C9_fallo_borra_marcas esquemaEstricto
    (recibirEstado esquemaEstricto (eventoEstado "wamid.1" "read") almacenConMensaje)
    (eventoEstado "wamid.1" "failed") "wamid.1"
    { mensajeHola with fecha_lectura := some 0 }
    (by decide) (by decide) (by decide) (by decide) (by decide)).2

/-- C10, refuted as stated: the handler answers 500 to a body whose messages
change has no value, to a null body, and to a body whose messages field is an
object (truthy and not iterable). -/
theorem C10_contraejemplo :
    (postWebhook (bd esquemaEstricto) cuerpoSinValue Almacen.vacio).1.status = 500 ∧
    (postWebhook (bd esquemaEstricto) .null Almacen.vacio).1.status = 500 ∧
    (postWebhook (bd esquemaEstricto) (cuerpoCon (.obj [("messages", .obj [])]))
      Almacen.vacio).1.status = 500 := by
  decide

/-- C10, amended: for every store behaviour and every request body, the
handler answers 200 OK exactly when the body can be traversed (body, entries,
changes and the value of each messages change are not null, and every list
the handler loops over is falsy or iterable), and 500 Error otherwise; no
failure inside procesarMensajeEntrante or procesarEstadoMensaje changes the
answer. -/
theorem C10_respuesta_webhook {σ : Type} (db : Db σ) (body : JVal) (s : σ) :
    (postWebhook db body s).1 =
      if cuerpoRecorrible body = true then { status := 200, cuerpo := "OK" }
      else { status := 500, cuerpo := "Error" } := by
  have h := postWebhookCuerpo_esOk db body s
  unfold postWebhook
  rcases hp : postWebhookCuerpo db body s with ⟨r, s1⟩
  rw [hp] at h
  cases r with
  | error e =>
    simp only [esOk] at h
    simp [← h]
  | ok a =>
    simp only [esOk] at h
    simp [← h]

/-- C11, refuted as stated: a text event of another number that lacks its id
is malformed, yet it passes content extraction and leaves a contact and a
conversation before its insert fails. In a batch that holds it before the
well-formed first message of Ana, her message is stored under conversation 2
of contact 2; without the malformed event it is stored under conversation 1
of contact 1, and the store holds one contact instead of two. -/
theorem C11_contraejemplo :
    eventoBienFormado eventoSinId = false ∧ eventoBienFormado eventoHola = true ∧
    loteConMalformado.mensajes.map (·.whatsapp_message_id) = [.str "wamid.1"] ∧
    loteConMalformado.mensajes.map (·.conversacion_id) = [2] ∧
    loteConMalformado.contactos.length = 2 ∧
    loteSinMalformado.mensajes.map (·.whatsapp_message_id) = [.str "wamid.1"] ∧
    loteSinMalformado.mensajes.map (·.conversacion_id) = [1] ∧
    loteSinMalformado.contactos.length = 1 :=
  ⟨by decide, by decide, by decide!, by decide!, by decide!, by decide!, by decide!,
    by decide!⟩

/-- C11, amended (batch failure isolation): for every store behaviour and
every batch whose messages list holds an event on which content extraction
throws (such as a text event with no text field or a null entry) at any
position among other events, the handler answers and leaves the store exactly
as for the batch without that event; so a well-formed event before or after
it is stored as if the malformed one were absent. -/
theorem C11_aislamiento_de_fallos {σ : Type} (db : Db σ) (malo : JVal)
    (antes despues : List JVal) (resto : List (String × JVal)) (s : σ)
    (hmalo : esOk (extraerContenido malo) = false) :
    postWebhook db
        (cuerpoCon (.obj (("messages", .arr (antes ++ malo :: despues)) :: resto))) s =
      postWebhook db (cuerpoCon (.obj (("messages", .arr (antes ++ despues)) :: resto))) s := by
  obtain ⟨e, hmalo⟩ : ∃ e, extraerContenido malo = .error e := by
    cases hx : extraerContenido malo with
    | ok x => rw [hx] at hmalo; cases hmalo
    | error e => exact ⟨e, rfl⟩
  rw [postWebhook_cuerpoCon, postWebhook_cuerpoCon, bind_apply, bind_apply,
    procesarMensajes_sin_malformado db malo antes despues resto s e hmalo]
  rcases procesarMensajes db (.obj (("messages", .arr (antes ++ despues)) :: resto)) s
    with ⟨r, s1⟩
  cases r with
  | error e => rfl
  | ok a =>
    simp only []
    rw [procesarEstados_resto db _ (.arr (antes ++ despues)) resto s1]

theorem C11_aislamiento_de_fallos_witness :
    postWebhook (bd esquemaEstricto)
        (cuerpoCon (.obj [("messages", .arr ([.null] ++ eventoSinTexto :: [eventoHola])),
                          ("contacts", pistaAna)])) Almacen.vacio =
      postWebhook (bd esquemaEstricto)
        (cuerpoCon (.obj [("messages", .arr ([.null] ++ [eventoHola])),
                          ("contacts", pistaAna)])) Almacen.vacio ∧
    (postWebhook (bd esquemaEstricto)
        (cuerpoCon (.obj [("messages", .arr ([.null] ++ eventoSinTexto :: [eventoHola])),
                          ("contacts", pistaAna)])) Almacen.vacio).2.mensajes = [mensajeHola] :=
  ⟨C11_aislamiento_de_fallos (bd esquemaEstricto) eventoSinTexto [.null] [eventoHola]
    [("contacts", pistaAna)] Almacen.vacio (by decide), by decide⟩

/-- C12 (event filtering): for every store behaviour, a payload whose object is
not whatsapp_business_account is answered 200 with the store untouched; a
change whose field is not messages is skipped with the store untouched and no
error; and for a payload the handler can traverse, the store after the
handler is the store after processing, in order, exactly the messages and
then the statuses of each change of field messages. -/
theorem C12_filtrado_de_eventos {σ : Type} (db : Db σ) (body : JVal) (s : σ) :
    (body.noNulo = true → body.campo "object" ≠ .str "whatsapp_business_account" →
      postWebhook db body s = ({ status := 200, cuerpo := "OK" }, s)) ∧
    (∀ change : JVal, change.noNulo = true → change.campo "field" ≠ .str "messages" →
      procesarChange db change s = (.ok (), s)) ∧
    (cuerpoRecorrible body = true →
      postWebhook db body s =
        ({ status := 200, cuerpo := "OK" },
          (paraCada (eventosDe body) (procesarEvento db) s).2)) := by
  refine ⟨fun hn ho => ?_, fun change hn hf => ?_, fun hr => ?_⟩
  · unfold postWebhook postWebhookCuerpo
    rw [bind_apply]
    simp only [deExcept_apply, prop_noNulo _ _ hn, ho, if_false]
    rfl
  · unfold procesarChange
    rw [bind_apply]
    simp only [deExcept_apply, prop_noNulo _ _ hn, hf, if_false]
    rfl
  · unfold postWebhook
    rw [postWebhookCuerpo_eventos db body s hr]
    obtain ⟨s1, h1⟩ := paraCada_ok (eventosDe body) (procesarEvento db)
      (procesarEvento_esOk db) s
    rw [h1]

theorem C12_filtrado_de_eventos_witness :
    postWebhook (bd esquemaEstricto) cuerpoOtro almacenConMensaje =
      ({ status := 200, cuerpo := "OK" }, almacenConMensaje) ∧
    postWebhook (bd esquemaEstricto)
        (cuerpoCon (.obj [("messages", .arr [eventoSigo]),
                          ("statuses", .arr [eventoEstado "wamid.1" "read"])]))
        almacenConMensaje =
      ({ status := 200, cuerpo := "OK" },
        (paraCada [Evento.mensaje eventoSigo .undefined,
                   Evento.estado (eventoEstado "wamid.1" "read")]
          (procesarEvento (bd esquemaEstricto)) almacenConMensaje).2) :=
  ⟨(C12_filtrado_de_eventos (bd esquemaEstricto) cuerpoOtro almacenConMensaje).1
      (by decide) (by decide),
    (C12_filtrado_de_eventos (bd esquemaEstricto)
      (cuerpoCon (.obj [("messages", .arr [eventoSigo]),
                        ("statuses", .arr [eventoEstado "wamid.1" "read"])]))
      almacenConMensaje).2.2 (by decide)⟩

/-- C13, refuted as stated: the type of this event is none of the six known
kinds, it is an object with an own toString property, and content extraction
throws on it when the template literal converts the type to a string; nothing
is stored. -/
theorem C13_contraejemplo :
    (∀ t ∈ tiposConocidos, eventoTipoObjeto.campo "type" ≠ .str t) ∧
    extraerContenido eventoTipoObjeto =
      .error "TypeError: Cannot convert object to primitive value" ∧
    recibir esquemaEstricto eventoTipoObjeto pistaAna almacenConMensaje =
      almacenConMensaje := by
  decide

/-- C13, amended (unknown message kinds): for a message event whose type is
none of text, image, document, audio, video, location, content extraction
returns without error exactly when a template literal can print the type;
then the content is Mensaje de tipo: followed by the printed type (for a
string type t, by t itself), the extracted type is the type of the event and
no attachment field is set, and the row that procesarMensajeEntrante stores,
if any, has that contenido, the type as tipo_mensaje and NULL in archivo_url,
archivo_nombre, archivo_tipo and archivo_tamano. For a well-formed event of
string type t the row is stored, with contenido Mensaje de tipo: t and
tipo_mensaje t, when the hint is absent, empty or leads with a profile name
and the store accepts the external id. -/
theorem C13_tipos_desconocidos (esq : Esquema) (s : Almacen) (message contacts : JVal)
    (hn : message.noNulo = true)
    (h1 : message.campo "type" ≠ .str "text") (h2 : message.campo "type" ≠ .str "image")
    (h3 : message.campo "type" ≠ .str "document") (h4 : message.campo "type" ≠ .str "audio")
    (h5 : message.campo "type" ≠ .str "video") (h6 : message.campo "type" ≠ .str "location") :
    esOk (extraerContenido message) = (message.campo "type").imprimible ∧
    (∀ t : String, (message.campo "type").aCadena = .ok t →
      (∀ u : String, message.campo "type" = .str u → t = u) ∧
      extraerContenido message = .ok
        { numeroRemitente := message.campo "from", tipoMensaje := message.campo "type",
          contenido := .str ("Mensaje de tipo: " ++ t),
          archivoUrl := .null, archivoNombre := .null, archivoTipo := .null,
          archivoTamano := .null } ∧
      ((recibir esq message contacts s).mensajes = s.mensajes ∨
        ∃ r : Mensaje, (recibir esq message contacts s).mensajes = s.mensajes ++ [r] ∧
          r.contenido = .str ("Mensaje de tipo: " ++ t) ∧
          r.tipo_mensaje = message.campo "type" ∧ r.archivo_url = .null ∧
          r.archivo_nombre = .null ∧ r.archivo_tipo = .null ∧ r.archivo_tamano = .null)) ∧
    (eventoBienFormado message = true → contactsBienFormado contacts = true →
      (esq.mensajeIdUnico = true → s.mensajesCon (message.campo "id") = []) →
      ∃ (t : String) (r : Mensaje), message.campo "type" = .str t ∧
        (recibir esq message contacts s).mensajes = s.mensajes ++ [r] ∧
        r.contenido = .str ("Mensaje de tipo: " ++ t) ∧
        r.tipo_mensaje = .str t ∧ r.archivo_url = .null ∧
        r.archivo_nombre = .null ∧ r.archivo_tipo = .null ∧ r.archivo_tamano = .null) := by
  have hx := extraer_tipo_desconocido message hn h1 h2 h3 h4 h5 h6
  refine ⟨?_, fun t ht => ?_, fun hm hc hf => ?_⟩
  · rw [hx]
    unfold imprimible
    cases (message.campo "type").aCadena <;> rfl
  · rw [ht] at hx
    refine ⟨fun u hu => ?_, hx, ?_⟩
    · rw [hu] at ht
      simp only [aCadena, Except.ok.injEq] at ht
      exact ht.symm
    · rcases fila_almacenada esq s message contacts with h | ⟨x, v, hx2, h⟩
      · exact Or.inl h
      · rw [hx] at hx2
        cases hx2
        exact Or.inr ⟨_, h, rfl, rfl, rfl, rfl, rfl, rfl⟩
  · obtain ⟨t, hty, ht⟩ := aCadena_cadena _ (tipo_cadena message hm)
    rw [ht] at hx
    obtain ⟨x, v, hx2, h⟩ := fila_almacenada_bienFormado esq s message contacts
      (completo_de_bienFormado message hm h3) hc hf
    rw [hx] at hx2
    cases hx2
    exact ⟨t, _, hty, h, rfl, hty, rfl, rfl, rfl, rfl⟩

theorem C13_tipos_desconocidos_witness :
    ∃ r : Mensaje,
      (recibir esquemaEstricto eventoSticker pistaAna almacenConMensaje).mensajes =
        almacenConMensaje.mensajes ++ [r] ∧
      r.contenido = .str "Mensaje de tipo: sticker" ∧
      r.tipo_mensaje = .str "sticker" ∧ r.archivo_url = .null ∧
      r.archivo_nombre = .null ∧ r.archivo_tipo = .null ∧ r.archivo_tamano = .null := by
  obtain ⟨t, r, ht, h, hc, hr⟩ :=
    (C13_tipos_desconocidos esquemaEstricto almacenConMensaje eventoSticker pistaAna
      (by decide) (by decide) (by decide) (by decide) (by decide) (by decide)
      (by decide)).2.2 (by decide) (by decide) (fun _ => by decide)
  have h0 : eventoSticker.campo "type" = .str "sticker" := by decide
  rw [h0] at ht
  cases ht
  exact ⟨r, h, hc, hr⟩

/-- C14, the code against the claim: for a message event of kind image,
document, audio or video that carries its media payload, extraction succeeds
with archivoUrl the id of the payload and archivoTipo its mime_type,
archivoNombre the filename for a document and null for image, audio and
video; for kinds text and location the three are null; the row that
procesarMensajeEntrante stores, if any, has these values in archivo_url,
archivo_nombre and archivo_tipo, and it is stored when the event is well
formed with every insert parameter defined, the hint is absent, empty or leads
with a profile name and the store accepts the external id. But for a
well-formed document event whose payload has no filename the extracted
archivoNombre is undefined, not null, and procesarMensajeEntrante stores no
mensajes row for the event, whatever the store and the hint. -/
theorem C14_adjuntos (esq : Esquema) (s : Almacen) (message contacts : JVal)
    (hn : message.noNulo = true) :
    (message.campo "type" = .str "image" → (message.campo "image").noNulo = true →
      ∃ x, extraerContenido message = .ok x ∧
        x.archivoUrl = (message.campo "image").campo "id" ∧
        x.archivoTipo = (message.campo "image").campo "mime_type" ∧ x.archivoNombre = .null) ∧
    (message.campo "type" = .str "document" → (message.campo "document").noNulo = true →
      ∃ x, extraerContenido message = .ok x ∧
        x.archivoUrl = (message.campo "document").campo "id" ∧
        x.archivoTipo = (message.campo "document").campo "mime_type" ∧
        x.archivoNombre = (message.campo "document").campo "filename") ∧
    (message.campo "type" = .str "audio" → (message.campo "audio").noNulo = true →
      ∃ x, extraerContenido message = .ok x ∧
        x.archivoUrl = (message.campo "audio").campo "id" ∧
        x.archivoTipo = (message.campo "audio").campo "mime_type" ∧ x.archivoNombre = .null) ∧
    (message.campo "type" = .str "video" → (message.campo "video").noNulo = true →
      ∃ x, extraerContenido message = .ok x ∧
        x.archivoUrl = (message.campo "video").campo "id" ∧
        x.archivoTipo = (message.campo "video").campo "mime_type" ∧ x.archivoNombre = .null) ∧
    (∀ x, extraerContenido message = .ok x →
      message.campo "type" = .str "text" ∨ message.campo "type" = .str "location" →
      x.archivoUrl = .null ∧ x.archivoNombre = .null ∧ x.archivoTipo = .null) ∧
    (∀ x, extraerContenido message = .ok x →
      (recibir esq message contacts s).mensajes = s.mensajes ∨
      ∃ r : Mensaje, (recibir esq message contacts s).mensajes = s.mensajes ++ [r] ∧
        r.archivo_url = x.archivoUrl ∧ r.archivo_nombre = x.archivoNombre ∧
        r.archivo_tipo = x.archivoTipo) ∧
    (eventoCompleto message = true → contactsBienFormado contacts = true →
      (esq.mensajeIdUnico = true → s.mensajesCon (message.campo "id") = []) →
      ∃ x, ∃ r : Mensaje, extraerContenido message = .ok x ∧
        (recibir esq message contacts s).mensajes = s.mensajes ++ [r] ∧
        r.archivo_url = x.archivoUrl ∧ r.archivo_nombre = x.archivoNombre ∧
        r.archivo_tipo = x.archivoTipo) ∧
    (eventoBienFormado message = true → message.campo "type" = .str "document" →
      (message.campo "document").campo "filename" = .undefined →
      (∃ x, extraerContenido message = .ok x ∧ x.archivoNombre = .undefined) ∧
      (recibir esq message contacts s).mensajes = s.mensajes) := by
  have hdoc : message.campo "type" = .str "document" →
      (message.campo "document").noNulo = true →
      ∃ x, extraerContenido message = .ok x ∧
        x.archivoUrl = (message.campo "document").campo "id" ∧
        x.archivoTipo = (message.campo "document").campo "mime_type" ∧
        x.archivoNombre = (message.campo "document").campo "filename" := by
    intro ht hp
    cases hx : extraerContenido message with
    | error e =>
      unfold extraerContenido at hx
      simp [prop_noNulo _ _ hn, prop_noNulo _ _ hp, bind, Except.bind, ht, pure,
        Except.pure] at hx
    | ok x =>
      unfold extraerContenido at hx
      simp only [prop_noNulo _ _ hn, prop_noNulo _ _ hp, bind, Except.bind, ht, pure,
        Except.pure, JVal.str.injEq, String.reduceEq, if_false, if_true] at hx
      cases hx
      exact ⟨_, rfl, rfl, rfl, rfl⟩
  refine ⟨fun ht hp => ?_, hdoc, fun ht hp => ?_, fun ht hp => ?_,
    fun x hx ht => ?_, fun x hx => ?_, fun hm hc hf => ?_, fun hm ht hsin => ?_⟩
  · cases hx : extraerContenido message with
    | error e =>
      unfold extraerContenido at hx
      simp [prop_noNulo _ _ hn, prop_noNulo _ _ hp, bind, Except.bind, ht, pure,
        Except.pure] at hx
    | ok x =>
      unfold extraerContenido at hx
      simp only [prop_noNulo _ _ hn, prop_noNulo _ _ hp, bind, Except.bind, ht, pure,
        Except.pure, JVal.str.injEq, String.reduceEq, if_false, if_true] at hx
      cases hx
      exact ⟨_, rfl, rfl, rfl, rfl⟩
  · cases hx : extraerContenido message with
    | error e =>
      unfold extraerContenido at hx
      simp [prop_noNulo _ _ hn, prop_noNulo _ _ hp, bind, Except.bind, ht, pure,
        Except.pure] at hx
    | ok x =>
      unfold extraerContenido at hx
      simp only [prop_noNulo _ _ hn, prop_noNulo _ _ hp, bind, Except.bind, ht, pure,
        Except.pure, JVal.str.injEq, String.reduceEq, if_false, if_true] at hx
      cases hx
      exact ⟨_, rfl, rfl, rfl, rfl⟩
  · cases hx : extraerContenido message with
    | error e =>
      unfold extraerContenido at hx
      simp [prop_noNulo _ _ hn, prop_noNulo _ _ hp, bind, Except.bind, ht, pure,
        Except.pure] at hx
    | ok x =>
      unfold extraerContenido at hx
      simp only [prop_noNulo _ _ hn, prop_noNulo _ _ hp, bind, Except.bind, ht, pure,
        Except.pure, JVal.str.injEq, String.reduceEq, if_false, if_true] at hx
      cases hx
      exact ⟨_, rfl, rfl, rfl, rfl⟩
  · unfold extraerContenido at hx
    simp only [prop_noNulo _ _ hn, bind, Except.bind, pure, Except.pure] at hx
    rcases ht with ht | ht
    · simp only [ht, if_true] at hx
      split at hx
      · cases hx
      · cases hx
        exact ⟨rfl, rfl, rfl⟩
    · simp only [ht] at hx
      simp only [JVal.str.injEq, String.reduceEq, if_false, if_true] at hx
      split at hx
      · cases hx
      · split at hx
        · cases hx
        · split at hx
          · cases hx
          · split at hx
            · cases hx
            · cases hx
              exact ⟨rfl, rfl, rfl⟩
  · rcases fila_almacenada esq s message contacts with h | ⟨y, v, hy, h⟩
    · exact Or.inl h
    · rw [hx] at hy
      cases hy
      exact Or.inr ⟨_, h, rfl, rfl, rfl⟩
  · obtain ⟨x, v, hx, h⟩ := fila_almacenada_bienFormado esq s message contacts hm hc hf
    exact ⟨x, _, hx, h, rfl, rfl, rfl⟩
  · have hp : (message.campo "document").noNulo = true := by
      unfold eventoBienFormado at hm
      simp only [Bool.and_eq_true, ht, JVal.str.injEq, String.reduceEq, if_false,
        if_true] at hm
      have ho := hm.2
      unfold medioBienFormado at ho
      simp only [Bool.and_eq_true] at ho
      have := ho.1.1
      cases hd : message.campo "document" <;> simp_all [esObjeto, noNulo]
    obtain ⟨x, hx, _, _, hnom⟩ := hdoc ht hp
    rw [hsin] at hnom
    refine ⟨⟨x, hx, hnom⟩, ?_⟩
    apply sin_fila_si_indefinido
    intro y hy v
    rw [hx] at hy
    cases hy
    simp [parametros, MensajeNuevo.definido, hnom, definido]

theorem C14_adjuntos_witness :
    ((∃ x, extraerContenido eventoDocumento = .ok x ∧ x.archivoNombre = .undefined) ∧
      (recibir esquemaEstricto eventoDocumento pistaAna
        (almacenConMensaje.conReloj 7)).mensajes = almacenConMensaje.mensajes) ∧
    (recibir esquemaEstricto eventoDocumento pistaAna
      (almacenConMensaje.conReloj 7)).conversaciones.map (·.fecha_ultima_actividad) =
      [some 7] :=
  ⟨(C14_adjuntos esquemaEstricto (almacenConMensaje.conReloj 7) eventoDocumento pistaAna
      (by decide)).2.2.2.2.2.2.2 (by decide) (by decide) (by decide), by decide⟩

/-- C15, refuted as stated: no contact has the sender number of this
well-formed message and the batch carries a contact hint, whose profile has no
name; procesarMensajeEntrante creates no contact at all (the insert is refused
for its undefined name), where the claim promises a contact named after the
hint. -/
theorem C15_contraejemplo :
    eventoBienFormado eventoOtro = true ∧
    almacenConMensaje.contactosCon (eventoOtro.campo "from") = [] ∧
    (recibir esquemaEstricto eventoOtro pistaSinNombre almacenConMensaje).contactos =
      almacenConMensaje.contactos := by
  decide

/-- C15, amended (contact creation fields): when no contact has the sender
number of a well-formed message, the contact row that procesarMensajeEntrante
appends has numero_whatsapp the sender number, tipo_contacto prospecto, and as
nombre the profile name of the first entry of the contact hint when that entry
carries one, a string, and the sender number when the hint is absent (falsy)
or an empty list. -/
theorem C15_campos_del_contacto (esq : Esquema) (s : Almacen) (message contacts : JVal)
    (hm : eventoBienFormado message = true)
    (hnuevo : s.contactosCon (message.campo "from") = []) :
    (∀ primero resto, contacts = .arr (primero :: resto) →
      ((primero.campo "profile").campo "name").esCadena = true →
      (recibir esq message contacts s).contactos = s.contactos ++
        [{ id := s.sigContacto, numero_whatsapp := message.campo "from",
           nombre := (primero.campo "profile").campo "name",
           tipo_contacto := .str "prospecto",
           fecha_ultima_interaccion := some s.ahora, activo := true }]) ∧
    (contacts.esVerdadero = false ∨ contacts = .arr [] →
      (recibir esq message contacts s).contactos = s.contactos ++
        [{ id := s.sigContacto, numero_whatsapp := message.campo "from",
           nombre := message.campo "from", tipo_contacto := .str "prospecto",
           fecha_ultima_interaccion := some s.ahora, activo := true }]) := by
  refine ⟨fun primero resto hc hcad => ?_, fun hc => ?_⟩
  · have hd := definido_de_cadena _ hcad
    have hp : (primero.campo "profile").noNulo = true := by
      cases hpf : primero.campo "profile" <;> simp_all [campo, noNulo, definido]
    have hobj : primero.noNulo = true := by
      cases primero <;> simp_all [campo, noNulo]
    have hv : primero.esVerdadero = true := by
      cases primero <;> simp_all [campo, noNulo, esVerdadero]
    refine contactos_tras_recibir esq s message contacts _ hm hnuevo ?_ hd
    subst hc
    have ha : ∀ xs, (JVal.arr xs).esVerdadero = true := fun _ => rfl
    simp [nombreContacto, ha, indice, hv, prop_noNulo _ _ hobj, prop_noNulo _ _ hp, bind,
      Except.bind]
  · refine contactos_tras_recibir esq s message contacts _ hm hnuevo ?_
      (definido_de_cadena _ (from_cadena message hm))
    rcases hc with hc | hc
    · simp [nombreContacto, hc]
      rfl
    · subst hc
      have ha : ∀ xs, (JVal.arr xs).esVerdadero = true := fun _ => rfl
      simp [nombreContacto, ha, indice, esVerdadero, bind, Except.bind]
      rfl

theorem C15_campos_del_contacto_witness :
    (recibir esquemaEstricto eventoOtro pistaAna almacenConMensaje).contactos =
      almacenConMensaje.contactos ++
        [{ id := almacenConMensaje.sigContacto, numero_whatsapp := eventoOtro.campo "from",
           nombre := .str "Ana", tipo_contacto := .str "prospecto",
           fecha_ultima_interaccion := some almacenConMensaje.ahora, activo := true }] ∧
    (recibir esquemaEstricto eventoOtro .undefined almacenConMensaje).contactos =
      almacenConMensaje.contactos ++
        [{ id := almacenConMensaje.sigContacto, numero_whatsapp := eventoOtro.campo "from",
           nombre := eventoOtro.campo "from", tipo_contacto := .str "prospecto",
           fecha_ultima_interaccion := some almacenConMensaje.ahora, activo := true }] :=
  ⟨(C15_campos_del_contacto esquemaEstricto almacenConMensaje eventoOtro pistaAna (by decide)
      (by decide)).1 _ _ rfl (by decide),
    (C15_campos_del_contacto esquemaEstricto almacenConMensaje eventoOtro .undefined
      (by decide) (by decide)).2 (Or.inl rfl)⟩

/-- C16, evaluated at the failing input: after a staff member creates the
contact +52 1 55 1234 5678 with a complete body (answered 201, the number
stored as its digits) and a message arrives whose sender is written
+5215512345678, the store holds two contactos rows whose numbers have the same
digits; the same happens with two messages whose senders are written
5215512345678 and +5215512345678. -/
theorem C16_numero_sin_normalizar :
    (postContactos admin cuerpoContactoAna Almacen.vacio).1.status = 201 ∧
    trazaNumeroSinNormalizar.contactos.map (fun k => k.numero_whatsapp) =
      [.str "5215512345678", .str "+5215512345678"] ∧
    trazaNumeroSinNormalizar.contactos.map (fun k => normalizar k.numero_whatsapp) =
      [.str "5215512345678", .str "5215512345678"] ∧
    trazaDosEscrituras.contactos.map (fun k => k.numero_whatsapp) =
      [.str "5215512345678", .str "+5215512345678"] ∧
    trazaDosEscrituras.contactos.map (fun k => normalizar k.numero_whatsapp) =
      [.str "5215512345678", .str "5215512345678"] := by
  decide

/-- C17, refuted as stated: when the contact lookup finds no row and the
contactos insert is rejected on the uniqueness constraint, the processor
returns with the store unchanged and no row for the message. -/
theorem C17_contraejemplo :
    procesarMensajeEntrante (bdCarrera esquemaEstricto) eventoSigo .undefined
      almacenConMensaje = (.ok (), almacenConMensaje) ∧
    almacenConMensaje.mensajesCon (eventoSigo.campo "id") = [] := by
  decide

/-- C17, amended: for every store behaviour, if the contact lookup of
procesarMensajeEntrante returns no row and the contactos insert that follows
throws, the processor returns normally with the store as that insert left it:
the error goes to the catch block, no further statement is issued, the contact
is not fetched again and the message is not stored. -/
theorem C17_conflicto_sin_refetch {σ : Type} (db : Db σ) (message contacts nombre : JVal)
    (x : Extraido) (s s1 s2 : σ) (e : String)
    (hx : extraerContenido message = .ok x)
    (hsel : db.selectContacto x.numeroRemitente s = (.ok [], s1))
    (hn : nombreContacto contacts x.numeroRemitente = .ok nombre)
    (hins : db.insertContacto x.numeroRemitente nombre s1 = (.error e, s2)) :
    procesarMensajeEntrante db message contacts s = (.ok (), s2) := by
  unfold procesarMensajeEntrante atrapar procesarMensajeEntranteCuerpo resolverContacto
  simp only [bind_apply, deExcept_apply, hx, hsel, hn, hins]

theorem C17_conflicto_sin_refetch_witness :
    procesarMensajeEntrante (bdCarrera esquemaEstricto) eventoSigo pistaAna almacenConMensaje =
      (.ok (), almacenConMensaje) :=
  C17_conflicto_sin_refetch (bdCarrera esquemaEstricto) eventoSigo pistaAna (.str "Ana")
    { numeroRemitente := .str "5215512345678", tipoMensaje := .str "text",
      contenido := .str "Sigo aqui", archivoUrl := .null, archivoNombre := .null,
      archivoTipo := .null, archivoTamano := .null }
    almacenConMensaje almacenConMensaje almacenConMensaje
    "ER_DUP_ENTRY: contactos.numero_whatsapp" (by decide) (by decide) (by decide) (by decide)

/-- C18, refuted as stated: two executions race from the empty store on two
messages with distinct ids of the same unseen number, each issuing its contact
lookup before the other has inserted. With the uniqueness constraint on
numero_whatsapp the second message is not stored; without it the store ends
with two contactos rows for the number. -/
theorem C18_contraejemplo :
    Almacen.vacio.contactosCon (eventoHola.campo "from") = [] ∧
    eventoSigo.campo "from" = eventoHola.campo "from" ∧
    eventoSigo.campo "id" ≠ eventoHola.campo "id" ∧
    (carrera esquemaEstricto).mensajesCon (eventoSigo.campo "id") = [] ∧
    ((carrera esquemaSinUnicidad).contactosCon (eventoHola.campo "from")).length = 2 := by
  decide

/-- C18, amended: take two message events with distinct ids (which the store
accepts) from the same previously-unseen number, the first well formed with a
contact hint that is absent, empty or leads with a profile name, on a store
with key integrity, and two concurrent procesarMensajeEntrante executions on
them, interleaved at their store statements. If contactos.numero_whatsapp is UNIQUE,
every interleaving ends with exactly one contactos row for that number. When
the executions run one after the other, the outcome is that of the two calls
in sequence, and, where both events are well formed with every insert
parameter defined (a document carries its filename), both messages are stored
under one conversation of a contact with that number. -/
theorem C18_carrera_primer_contacto (esq : Esquema) (s : Almacen) (m1 m2 c1 c2 : JVal)
    (h1 : eventoBienFormado m1 = true) (hc1 : contactsBienFormado c1 = true)
    (hmismo : m2.campo "from" = m1.campo "from")
    (hdist : m1.campo "id" ≠ m2.campo "id")
    (hcoh : s.Coherente)
    (hnuevo : s.contactosCon (m1.campo "from") = [])
    (hf1 : esq.mensajeIdUnico = true → s.mensajesCon (m1.campo "id") = [])
    (hf2 : esq.mensajeIdUnico = true → s.mensajesCon (m2.campo "id") = []) :
    (esq.numeroUnico = true → ∀ plan : List Bool,
      ((Proc.intercalar plan (procMensaje (bd esq) m1 c1) (procMensaje (bd esq) m2 c2)
        s).contactosCon (m1.campo "from")).length = 1) ∧
    Proc.intercalar [] (procMensaje (bd esq) m1 c1) (procMensaje (bd esq) m2 c2) s =
      recibir esq m2 c2 (recibir esq m1 c1 s) ∧
    (eventoCompleto m1 = true → eventoCompleto m2 = true →
      ∃ k c r1 r2, k ∈ (recibir esq m2 c2 (recibir esq m1 c1 s)).contactos ∧
        c ∈ (recibir esq m2 c2 (recibir esq m1 c1 s)).conversaciones ∧
        r1 ∈ (recibir esq m2 c2 (recibir esq m1 c1 s)).mensajes ∧
        r2 ∈ (recibir esq m2 c2 (recibir esq m1 c1 s)).mensajes ∧
        k.numero_whatsapp = m1.campo "from" ∧ c.contacto_id = k.id ∧
        r1.whatsapp_message_id = m1.campo "id" ∧ r1.conversacion_id = c.id ∧
        r2.whatsapp_message_id = m2.campo "id" ∧ r2.conversacion_id = c.id) := by
  refine ⟨fun hu plan => ?_, ?_, fun hk1 hk2 => recibir_dos_seguidos esq s m1 m2 c1 c2 hk1 hc1
    hk2 hmismo hdist hcoh hnuevo hf1 hf2⟩
  · apply Nat.le_antisymm
    · exact Proc.intercalar_mantiene (fun t => (t.contactosCon (m1.campo "from")).length ≤ 1)
        plan _ _ (mantiene_a_lo_mas_uno esq hu m1 c1 _) (mantiene_a_lo_mas_uno esq hu m2 c2 _)
        s (by show (s.contactosCon (m1.campo "from")).length ≤ 1; rw [hnuevo]; simp)
    · have hne := Proc.intercalar_establece (fun t => t.contactosCon (m1.campo "from") ≠ [])
        plan _ _ (mantiene_al_menos_uno esq m1 c1 _) (mantiene_al_menos_uno esq m2 c2 _)
        (establece_contacto esq m1 c1 h1 hc1) s
      exact List.length_pos.2 hne
  · simp only [Proc.intercalar, ejecutar_procMensaje, recibir]

theorem C18_carrera_primer_contacto_witness :
    (esquemaEstricto.numeroUnico = true → ∀ plan : List Bool,
      ((Proc.intercalar plan (procMensaje (bd esquemaEstricto) eventoHola pistaAna)
        (procMensaje (bd esquemaEstricto) eventoSigo pistaAna)
        Almacen.vacio).contactosCon (eventoHola.campo "from")).length = 1) ∧
    Proc.intercalar [] (procMensaje (bd esquemaEstricto) eventoHola pistaAna)
        (procMensaje (bd esquemaEstricto) eventoSigo pistaAna) Almacen.vacio =
      recibir esquemaEstricto eventoSigo pistaAna
        (recibir esquemaEstricto eventoHola pistaAna Almacen.vacio) ∧
    ∃ k c r1 r2,
      k ∈ (recibir esquemaEstricto eventoSigo pistaAna
        (recibir esquemaEstricto eventoHola pistaAna Almacen.vacio)).contactos ∧
      c ∈ (recibir esquemaEstricto eventoSigo pistaAna
        (recibir esquemaEstricto eventoHola pistaAna Almacen.vacio)).conversaciones ∧
      r1 ∈ (recibir esquemaEstricto eventoSigo pistaAna
        (recibir esquemaEstricto eventoHola pistaAna Almacen.vacio)).mensajes ∧
      r2 ∈ (recibir esquemaEstricto eventoSigo pistaAna
        (recibir esquemaEstricto eventoHola pistaAna Almacen.vacio)).mensajes ∧
      k.numero_whatsapp = eventoHola.campo "from" ∧ c.contacto_id = k.id ∧
      r1.whatsapp_message_id = eventoHola.campo "id" ∧ r1.conversacion_id = c.id ∧
      r2.whatsapp_message_id = eventoSigo.campo "id" ∧ r2.conversacion_id = c.id :=
  have h := C18_carrera_primer_contacto esquemaEstricto Almacen.vacio eventoHola eventoSigo
    pistaAna pistaAna (by decide) (by decide) (by decide) (by decide) (by decide)
    (by decide) (fun _ => by decide) (fun _ => by decide)
  ⟨h.1, h.2.1, h.2.2 (by decide) (by decide)⟩

/-- C19, refuted as stated: with a matching token the handler answers 403 when
hub.mode is not subscribe, and it answers 400 (not 403) when hub.mode or
hub.verify_token is missing. -/
theorem C19_contraejemplo :
    (getWebhook (some "secreto")
      (.obj [("hub.mode", .str "unsubscribe"), ("hub.verify_token", .str "secreto"),
             ("hub.challenge", .str "42")])).status = 403 ∧
    (getWebhook (some "secreto")
      (.obj [("hub.verify_token", .str "secreto"), ("hub.challenge", .str "42")])).status
      = 400 ∧
    (getWebhook (some "secreto")
      (.obj [("hub.mode", .str "subscribe"), ("hub.challenge", .str "42")])).status = 400 := by
  decide

/-- C19, amended: for every configured token and every query, the handler
answers 200 exactly when hub.mode is subscribe and hub.verify_token is the
configured token (a non-empty string), and then the body is hub.challenge as
received; it answers 400 exactly when hub.mode or hub.verify_token is missing
or empty; and 403 exactly when both are present and the mode is not subscribe
or the token differs. -/
theorem C19_handshake (verifyToken : Option String) (query : JVal) :
    ((getWebhook verifyToken query).status = 200 ↔
      query.campo "hub.mode" = .str "subscribe" ∧
      ∃ t, t ≠ "" ∧ verifyToken = some t ∧ query.campo "hub.verify_token" = .str t) ∧
    ((getWebhook verifyToken query).status = 200 →
      (getWebhook verifyToken query).cuerpo = query.campo "hub.challenge") ∧
    ((getWebhook verifyToken query).status = 400 ↔
      (query.campo "hub.mode").esVerdadero = false ∨
      (query.campo "hub.verify_token").esVerdadero = false) ∧
    ((getWebhook verifyToken query).status = 403 ↔
      (query.campo "hub.mode").esVerdadero = true ∧
      (query.campo "hub.verify_token").esVerdadero = true ∧
      ¬ (query.campo "hub.mode" = .str "subscribe" ∧
        query.campo "hub.verify_token" = variableDeEntorno verifyToken)) := by
  unfold getWebhook
  have hsub : query.campo "hub.mode" = .str "subscribe" →
      (query.campo "hub.mode").esVerdadero = true := fun h => by rw [h]; rfl
  have htok : ∀ t, t ≠ "" → query.campo "hub.verify_token" = .str t →
      (query.campo "hub.verify_token").esVerdadero = true :=
    fun t ht h => by rw [h]; exact (verdadero_cadena t).2 ht
  by_cases hv : (query.campo "hub.mode").esVerdadero = true ∧
      (query.campo "hub.verify_token").esVerdadero = true
  · obtain ⟨hm, ht⟩ := hv
    simp only [hm, ht, Bool.and_self, if_true]
    by_cases h : query.campo "hub.mode" = .str "subscribe" ∧
        query.campo "hub.verify_token" = variableDeEntorno verifyToken
    · rw [if_pos h]
      refine ⟨⟨fun _ => ⟨h.1, ?_⟩, fun _ => rfl⟩, fun _ => rfl, ?_, ?_⟩
      · cases verifyToken with
        | none =>
          rw [h.2] at ht
          simp [variableDeEntorno, esVerdadero] at ht
        | some t =>
          refine ⟨t, ?_, rfl, h.2⟩
          rw [h.2] at ht
          exact (verdadero_cadena t).1 ht
      · simp
      · simp [h]
    · rw [if_neg h]
      refine ⟨⟨fun h2 => ?_, fun h2 => ?_⟩, fun h2 => ?_, ?_, ?_⟩
      · cases h2
      · obtain ⟨h1, t, _, h3, h4⟩ := h2
        exact absurd ⟨h1, by rw [h4, h3]; rfl⟩ h
      · cases h2
      · simp
      · simp [h]
  · have hif : ((query.campo "hub.mode").esVerdadero &&
        (query.campo "hub.verify_token").esVerdadero) = false := by
      cases hm : (query.campo "hub.mode").esVerdadero <;>
        cases ht : (query.campo "hub.verify_token").esVerdadero <;> simp_all
    simp only [hif, Bool.false_eq_true, if_false]
    refine ⟨⟨fun h2 => ?_, fun h2 => ?_⟩, fun h2 => ?_, ?_, ?_⟩
    · cases h2
    · obtain ⟨h1, t, h2, _, h4⟩ := h2
      exact absurd ⟨hsub h1, htok t h2 h4⟩ hv
    · cases h2
    · refine ⟨fun _ => ?_, fun _ => trivial⟩
      cases hm : (query.campo "hub.mode").esVerdadero <;>
        cases ht : (query.campo "hub.verify_token").esVerdadero <;> simp_all
    · refine ⟨fun h2 => ?_, fun h2 => absurd ⟨h2.1, h2.2.1⟩ hv⟩
      cases h2

/-- C20, refuted as stated: PATCH /mensajes/:id/leido and
GET /mensajes/conversacion/:id set leido and fecha_lectura of an existing row,
outside procesarEstadoMensaje. -/
theorem C20_contraejemplo :
    (patchMensajeLeido admin 1 almacenConMensaje).2.mensajes =
      [{ mensajeHola with leido := true, fecha_lectura := some 0 }] ∧
    (getMensajesConversacion admin 1 true almacenConMensaje).2.mensajes =
      [{ mensajeHola with leido := true, fecha_lectura := some 0 }] ∧
    almacenConMensaje.mensajes = [mensajeHola] := by
  decide

/-- C20, amended: in every sequence of webhook status events,
GET /mensajes/conversacion/:id and PATCH /mensajes/:id/leido (with time
passing), the rows of mensajes stay the same rows in the same order and only
fecha_entrega, fecha_lectura and leido of a row may change; a status event
changes only fecha_entrega and fecha_lectura, and the two staff routes change
only fecha_lectura and leido, so fecha_entrega changes only through
procesarEstadoMensaje. -/
theorem C20_solo_marcas (esq : Esquema) (ops : List Operacion) (s : Almacen) :
    (∃ g : Mensaje → Mensaje, (aplicarOperaciones esq ops s).mensajes = s.mensajes.map g ∧
      ∀ r, g r = { r with fecha_entrega := (g r).fecha_entrega,
                          fecha_lectura := (g r).fecha_lectura, leido := (g r).leido }) ∧
    (∀ status, ∃ g : Mensaje → Mensaje,
      (recibirEstado esq status s).mensajes = s.mensajes.map g ∧
      ∀ r, g r = { r with fecha_entrega := (g r).fecha_entrega,
                          fecha_lectura := (g r).fecha_lectura }) ∧
    (∀ usuario conversacionId consultaOk, ∃ g : Mensaje → Mensaje,
      (getMensajesConversacion usuario conversacionId consultaOk s).2.mensajes =
        s.mensajes.map g ∧
      ∀ r, g r = { r with fecha_lectura := (g r).fecha_lectura, leido := (g r).leido }) ∧
    (∀ usuario id, ∃ g : Mensaje → Mensaje,
      (patchMensajeLeido usuario id s).2.mensajes = s.mensajes.map g ∧
      ∀ r, g r = { r with fecha_lectura := (g r).fecha_lectura, leido := (g r).leido }) :=
  ⟨operaciones_mensajes esq ops s, fun status => recibirEstado_mensajes esq status s,
    fun usuario conversacionId consultaOk =>
      getMensajesConversacion_mensajes usuario conversacionId consultaOk s,
    fun usuario id => patchMensajeLeido_mensajes usuario id s⟩

/-- C21, refuted as stated: contact 1 has two conversations that are not
closed, number 1 last active at time 5 and number 2 at time 0. On the
well-formed second message of the contact, whose external id the store holds
under conversation 2, procesarMensajeEntrante stores nothing under conversation
1: the insert is rejected, and the only row with that id stays where it was. -/
theorem C21_contraejemplo :
    esquemaEstricto.mensajeIdUnico = true ∧ eventoBienFormado eventoSigo = true ∧
    (almacenDosAbiertas.contactosCon (eventoSigo.campo "from")).map (·.id) = [1] ∧
    (almacenDosAbiertas.abiertasDe 1).map (·.id) = [1, 2] ∧
    (almacenDosAbiertas.abiertasDe 1).map (·.fecha_ultima_actividad) = [some 5, some 0] ∧
    (recibir esquemaEstricto eventoSigo pistaAna almacenDosAbiertas).mensajes.map
      (·.whatsapp_message_id) = [.str "wamid.1", .str "wamid.2"] ∧
    (recibir esquemaEstricto eventoSigo pistaAna almacenDosAbiertas).mensajes.map
      (·.conversacion_id) = [1, 2] :=
  ⟨by decide, by decide, by decide, by decide, by decide, by decide, by decide⟩

/-- C21, amended (most-recently-active selection): when the sender is a known
contact whose conversations with an estado other than cerrado have pairwise
distinct fecha_ultima_actividad, a well-formed message whose insert parameters
are all defined and whose external id the store accepts is stored under the
one among them whose fecha_ultima_actividad is a time strictly greater than
the time of every other one that has a time; the update sets
fecha_ultima_actividad of that conversation to the clock of the store and
leaves every row with another key as it was. -/
theorem C21_mas_reciente (esq : Esquema) (s : Almacen) (message contacts : JVal)
    (k : Contacto) (resto : List Contacto)
    (hm : eventoCompleto message = true)
    (hk : s.contactosCon (message.campo "from") = k :: resto)
    (hvarias : s.abiertasDe k.id ≠ [])
    (hdist : (s.abiertasDe k.id).Pairwise
      (fun a b => a.fecha_ultima_actividad ≠ b.fecha_ultima_actividad))
    (hfresco : esq.mensajeIdUnico = true → s.mensajesCon (message.campo "id") = []) :
    ∃ c r, c ∈ s.conversaciones ∧ c.contacto_id = k.id ∧ c.estado ≠ "cerrado" ∧
      (∀ d ∈ s.conversaciones, d.contacto_id = k.id → d.estado ≠ "cerrado" → d ≠ c →
        ∃ u, c.fecha_ultima_actividad = some u ∧
          ∀ t, d.fecha_ultima_actividad = some t → t < u) ∧
      r.whatsapp_message_id = message.campo "id" ∧ r.conversacion_id = c.id ∧
      (recibir esq message contacts s).mensajes = s.mensajes ++ [r] ∧
      (recibir esq message contacts s).conversaciones =
        s.conversaciones.map (tocarConversacion c.id s.ahora) ∧
      tocarConversacion c.id s.ahora c = { c with fecha_ultima_actividad := some s.ahora } ∧
      ∀ d, d.id ≠ c.id → tocarConversacion c.id s.ahora d = d := by
  cases hmr : masReciente (s.abiertasDe k.id) with
  | none => exact absurd ((masReciente_eq_none _).1 hmr) hvarias
  | some c =>
    obtain ⟨r, hr1, hr2, hs⟩ := recibir_reutiliza esq s message contacts k resto c hm hk hmr
      hfresco
    have hmem := masReciente_mem _ _ hmr
    have hmem2 := hmem
    simp only [abiertasDe, List.mem_filter, decide_eq_true_eq] at hmem2
    refine ⟨c, r, hmem2.1, hmem2.2.1, hmem2.2.2, fun d hd hdk hde hne => ?_, hr1, hr2,
      by rw [hs], by rw [hs], ?_, ?_⟩
    · have hd2 : d ∈ s.abiertasDe k.id := by
        simp only [abiertasDe, List.mem_filter, decide_eq_true_eq]
        exact ⟨hd, hdk, hde⟩
      have hfe : d.fecha_ultima_actividad ≠ c.fecha_ultima_actividad :=
        hdist.forall (fun _ _ h => Ne.symm h) hd2 hmem hne
      exact (anterior_iff _ _).1
        (anterior_total _ _ (Ne.symm hfe) (masReciente_max _ _ hmr d hd2))
    · simp [tocarConversacion]
    · intro d hd
      simp [tocarConversacion, hd]

theorem C21_mas_reciente_witness :
    ∃ r : Mensaje, r.whatsapp_message_id = .str "wamid.3" ∧ r.conversacion_id = 1 ∧
      (recibir esquemaEstricto (eventoTexto "wamid.3" "5215512345678" "Otra vez") pistaAna
        almacenDosAbiertas).mensajes = almacenDosAbiertas.mensajes ++ [r] ∧
      (recibir esquemaEstricto (eventoTexto "wamid.3" "5215512345678" "Otra vez") pistaAna
        almacenDosAbiertas).conversaciones =
        almacenDosAbiertas.conversaciones.map (tocarConversacion 1 almacenDosAbiertas.ahora) := by
  obtain ⟨c, r, hc, _, _, hmax, hr1, hr2, hms, hcs, _⟩ :=
    C21_mas_reciente esquemaEstricto almacenDosAbiertas
      (eventoTexto "wamid.3" "5215512345678" "Otra vez") pistaAna
      contactoAna [] (by decide) (by decide) (by decide) (by decide) (fun _ => by decide)
  have hl : almacenDosAbiertas.conversaciones = [conversacionEnProceso, conversacionSegunda] := by
    decide
  have hid : c.id = 1 := by
    rw [hl] at hc
    simp only [List.mem_cons, List.mem_singleton, List.not_mem_nil, or_false] at hc
    rcases hc with rfl | rfl
    · rfl
    · obtain ⟨u, hu, hlt⟩ := hmax conversacionEnProceso (by rw [hl]; simp) (by decide)
        (by decide) (by decide)
      have h0 : u = 0 := by
        have : conversacionSegunda.fecha_ultima_actividad = some 0 := rfl
        rw [this] at hu
        exact (Option.some.inj hu).symm
      have := hlt 5 rfl
      omega
  rw [hid] at hr2 hcs
  exact ⟨r, hr1, hr2, hms, hcs⟩

/-- C22 (delivered and read marks are independent and local): for a status
event with external id m, the store after a delivered status is the store
before it with fecha_entrega set to the clock on the mensajes rows whose
whatsapp_message_id is m and nothing else changed; after a read status it is
the store before it with fecha_lectura set on those rows and nothing else
changed. -/
theorem C22_marcas_independientes (esq : Esquema) (s : Almacen) (status : JVal) (m : String)
    (ho : status.esObjeto = true) (hid : status.campo "id" = .str m) :
    (status.campo "status" = .str "delivered" →
      recibirEstado esq status s =
        { s with mensajes := s.mensajes.map fun r =>
            if r.whatsapp_message_id = .str m then { r with fecha_entrega := some s.ahora }
            else r }) ∧
    (status.campo "status" = .str "read" →
      recibirEstado esq status s =
        { s with mensajes := s.mensajes.map fun r =>
            if r.whatsapp_message_id = .str m then { r with fecha_lectura := some s.ahora }
            else r }) := by
  constructor
  · intro hst
    unfold recibirEstado
    rw [recibirEstado_objeto esq status s ho, hst, hid]
    simp only [updateField, if_true]
    rw [if_neg (by decide)]
    congr 1
    exact List.map_congr_left (fun r _ => marcar_entrega m s.ahora r)
  · intro hst
    unfold recibirEstado
    rw [recibirEstado_objeto esq status s ho, hst, hid]
    have hu : updateField (.str "read") = "fecha_lectura = NOW()" := by decide
    simp only [hu]
    rw [if_neg (by decide)]
    congr 1
    exact List.map_congr_left (fun r _ => marcar_lectura m s.ahora r)

theorem C22_marcas_independientes_witness :
    recibirEstado esquemaEstricto (eventoEstado "wamid.1" "read") almacenDosMensajes =
      { almacenDosMensajes with
        mensajes := (almacenDosMensajes.mensajes.map (fun r =>
          if r.whatsapp_message_id = .str "wamid.1" then
            { r with fecha_lectura := some almacenDosMensajes.ahora }
          else r)) } :=
  (C22_marcas_independientes esquemaEstricto almacenDosMensajes
    (eventoEstado "wamid.1" "read") "wamid.1" (by decide) (by decide)).2 (by decide)

/-- C23, refuted as stated: a staff update through PUT /conversaciones/:id
with estado en_proceso is answered 200 and sets the closed conversation 1 back
to en_proceso. -/
theorem C23_contraejemplo :
    almacenCerrado.conversaciones.map (fun c => (c.id, c.estado)) = [(1, "cerrado")] ∧
    (putConversaciones admin 1 (.obj [("estado", .str "en_proceso")]) almacenCerrado).1.status
      = 200 ∧
    (putConversaciones admin 1 (.obj [("estado", .str "en_proceso")])
      almacenCerrado).2.conversaciones.map (fun c => (c.id, c.estado)) =
        [(1, "en_proceso")] := by
  decide

/-- C23, amended: in every sequence of inbound message processing, status
processing and staff updates through PUT /conversaciones/:id that name no
estado other than cerrado for a closed conversation, the conversations stay
the same rows in the same order, each with its key (new rows are appended),
and a conversation whose estado is cerrado keeps that estado. -/
theorem C23_cerrado_sin_reabrir (esq : Esquema) (s t : Almacen)
    (h : SigueSinReabrir esq s t) :
    ∃ (f : Conversacion → Conversacion) (nuevas : List Conversacion),
      t.conversaciones = s.conversaciones.map f ++ nuevas ∧
      ∀ c ∈ s.conversaciones,
        (f c).id = c.id ∧ (c.estado = "cerrado" → (f c).estado = "cerrado") := by
  show s.conservaCerradas t
  induction h with
  | inicio => exact conservaCerradas_refl s
  | reloj t n _ ih => exact conservaCerradas_congr s t _ ih rfl
  | mensaje t message contacts _ ih =>
    exact conservaCerradas_trans s t _ ih (conservaCerradas_recibir esq message contacts t)
  | estadoMensaje t status _ ih =>
    exact conservaCerradas_trans s t _ ih (conservaCerradas_recibirEstado esq status t)
  | actualizar t usuario id body _ hno ih =>
    exact conservaCerradas_trans s t _ ih
      (conservaCerradas_putConversaciones usuario id body t hno)

theorem C23_cerrado_sin_reabrir_witness :
    ∃ (f : Conversacion → Conversacion) (nuevas : List Conversacion),
      (recibir esquemaEstricto eventoSigo pistaAna
        (putConversaciones admin 1 (.obj [("prioridad", .str "alta")])
          (recibirEstado esquemaEstricto (eventoEstado "wamid.1" "read")
            almacenCerrado)).2).conversaciones =
        almacenCerrado.conversaciones.map f ++ nuevas ∧
      ∀ c ∈ almacenCerrado.conversaciones,
        (f c).id = c.id ∧ (c.estado = "cerrado" → (f c).estado = "cerrado") :=
  C23_cerrado_sin_reabrir esquemaEstricto almacenCerrado _
    (.mensaje _ _ _ (.actualizar _ _ _ _ (.estadoMensaje _ _ .inicio)
      (fun _ => Or.inr (by decide))))

/-- C24 (phone-number cleaning): for every string, the cleaned number consists
only of the characters 0-9 (code points 48 to 57), is a subsequence of the
string that holds every digit of it as often as the string does (so its digits
in their original order), and cleaning it again returns it unchanged. -/
theorem C24_limpieza_de_numero (numero : String) :
    (∀ c ∈ (limpiarNumero numero).toList, 48 ≤ c.toNat ∧ c.toNat ≤ 57) ∧
    (limpiarNumero numero).toList.Sublist numero.toList ∧
    (∀ c : Char, 48 ≤ c.toNat → c.toNat ≤ 57 →
      (limpiarNumero numero).toList.count c = numero.toList.count c) ∧
    limpiarNumero (limpiarNumero numero) = limpiarNumero numero := by
  have hdig : ∀ c : Char, c.isDigit = true ↔ 48 ≤ c.toNat ∧ c.toNat ≤ 57 := by
    intro c
    simp only [Char.isDigit, Bool.and_eq_true, decide_eq_true_eq, Char.toNat]
    constructor
    · rintro ⟨h1, h2⟩
      exact ⟨UInt32.le_def.1 h1, UInt32.le_def.1 h2⟩
    · rintro ⟨h1, h2⟩
      exact ⟨UInt32.le_def.2 h1, UInt32.le_def.2 h2⟩
  refine ⟨fun c hc => ?_, ?_, fun c h1 h2 => ?_, ?_⟩
  · rw [limpiar_lista] at hc
    exact (hdig c).1 (List.mem_filter.1 hc).2
  · rw [limpiar_lista]
    exact List.filter_sublist _
  · rw [limpiar_lista, List.count_filter ((hdig c).2 ⟨h1, h2⟩)]
  · apply String.ext
    show (limpiarNumero (limpiarNumero numero)).toList = (limpiarNumero numero).toList
    rw [limpiar_lista, limpiar_lista, List.filter_filter]
    simp

/-- C25 (sensitive configuration values are hidden): a row whose clave
contains token or password is sent with valor ***configurado*** when the
stored value is truthy (for a string: non-empty) and the empty string
otherwise; the list route answers 200 with the rows of the table so treated,
in the order of clave, whenever the treatment returns on every row, as it does
when every clave is a string; the single-key route answers 200 with the first
row with that clave so treated; and two tables that differ only in stored
values of such keys that are set in both get identical responses from both
routes. -/
theorem C25_valores_ocultos (orden : JVal → JVal → Bool) (consultaOk : Bool)
    (t1 t2 : List Configuracion) :
    (∀ (config : Configuracion) (k : String), config.clave = .str k →
      ("token".toList <:+: k.toList ∨ "password".toList <:+: k.toList) →
      ocultar config = .ok (.obj [("clave", .str k),
        ("valor", .str (if config.valor.esVerdadero then "***configurado***" else "")),
        ("descripcion", config.descripcion), ("tipo", config.tipo)])) ∧
    ((∀ v : String, (JVal.str v).esVerdadero = true ↔ v ≠ "") ∧
      JVal.null.esVerdadero = false) ∧
    (∀ filas, getConfiguraciones orden true t1 = { status := 200, cuerpo := .arr filas } →
      (ordenarPorClave orden t1).Perm t1 ∧
      List.Forall₂ (fun c fila => ocultar c = .ok fila) (ordenarPorClave orden t1) filas) ∧
    (∀ filas, ocultarTodas (ordenarPorClave orden t1) = .ok filas →
      getConfiguraciones orden true t1 = { status := 200, cuerpo := .arr filas }) ∧
    ((∀ c ∈ t1, c.clave.esCadena = true) →
      ∃ filas, getConfiguraciones orden true t1 = { status := 200, cuerpo := .arr filas } ∧
        List.Forall₂ (fun c fila => ocultar c = .ok fila) (ordenarPorClave orden t1) filas) ∧
    (∀ clave config resto fila,
      t1.filter (fun c => sqlEq c.clave (.str clave)) = config :: resto →
      ocultar config = .ok fila →
      getConfiguracion clave true t1 = { status := 200, cuerpo := fila }) ∧
    (List.Forall₂ mismoSalvoSecreto t1 t2 →
      getConfiguraciones orden consultaOk t1 = getConfiguraciones orden consultaOk t2 ∧
      ∀ clave, getConfiguracion clave consultaOk t1 = getConfiguracion clave consultaOk t2) := by
  refine ⟨fun config k hk hc => ?_, ⟨verdadero_cadena, rfl⟩, fun filas h => ?_,
    fun filas h => ?_, fun hcad => ?_,
    fun clave config resto fila hf ho => ?_, fun h => ⟨?_, fun clave => ?_⟩⟩
  · have hs : esSensible config.clave = .ok true := by
      rw [hk, esSensible_cadena]
      rcases hc with hc | hc
      · rw [(contiene_iff _ _).2 hc]; rfl
      · rw [(contiene_iff _ _).2 hc, Bool.or_true]
    unfold ocultar
    rw [hs, hk]
    simp only [bind, Except.bind, pure, Except.pure, if_true]
    split_ifs <;> rfl
  · refine ⟨ordenar_perm orden t1, ?_⟩
    unfold getConfiguraciones at h
    simp only [Bool.not_true, Bool.false_eq_true, if_false] at h
    cases ho : ocultarTodas (ordenarPorClave orden t1) with
    | error e => rw [ho] at h; simp at h
    | ok fs =>
      rw [ho] at h
      simp only [RespuestaJson.mk.injEq, JVal.arr.injEq, true_and] at h
      subst h
      exact ocultarTodas_filas _ _ ho
  · unfold getConfiguraciones
    simp only [Bool.not_true, Bool.false_eq_true, if_false, h]
  · obtain ⟨filas, hfilas⟩ := ocultarTodas_cadenas (ordenarPorClave orden t1)
      (fun c hc => hcad c ((ordenar_perm orden t1).mem_iff.1 hc))
    refine ⟨filas, ?_, ocultarTodas_filas _ _ hfilas⟩
    unfold getConfiguraciones
    simp only [Bool.not_true, Bool.false_eq_true, if_false, hfilas]
  · unfold getConfiguracion
    simp only [Bool.not_true, Bool.false_eq_true, if_false, hf, ho]
  · unfold getConfiguraciones
    rw [ocultarTodas_congr _ _ (ordenar_congr orden t1 t2 h)]
  · unfold getConfiguracion
    have hfil := filtrar_congr (fun v => sqlEq v (.str clave)) t1 t2 h
    cases consultaOk with
    | false => rfl
    | true =>
      simp only [Bool.not_true, Bool.false_eq_true, if_false]
      generalize t1.filter (fun c => sqlEq c.clave (.str clave)) = l1 at hfil
      generalize t2.filter (fun c => sqlEq c.clave (.str clave)) = l2 at hfil
      cases hfil with
      | nil => rfl
      | cons hab _ => simp only [ocultar_congr _ _ hab]

theorem C25_valores_ocultos_witness :
    getConfiguraciones ordenBinario true (tablaEjemplo "EAAG-1") =
      getConfiguraciones ordenBinario true (tablaEjemplo "otro-secreto") ∧
    (∀ clave, getConfiguracion clave true (tablaEjemplo "EAAG-1") =
      getConfiguracion clave true (tablaEjemplo "otro-secreto")) ∧
    getConfiguracion "whatsapp_access_token" true (tablaEjemplo "EAAG-1") =
      { status := 200,
        cuerpo := .obj [("clave", .str "whatsapp_access_token"),
          ("valor", .str "***configurado***"), ("descripcion", .str "Token de acceso"),
          ("tipo", .str "string")] } ∧
    getConfiguracion "smtp_password" true (tablaEjemplo "EAAG-1") =
      { status := 200,
        cuerpo := .obj [("clave", .str "smtp_password"), ("valor", .str ""),
          ("descripcion", .null), ("tipo", .str "string")] } ∧
    getConfiguraciones ordenBinario true (tablaEjemplo "EAAG-1") =
      { status := 200,
        cuerpo := .arr [
          .obj [("clave", .str "horario_inicio"), ("valor", .str "09:00"),
            ("descripcion", .str "Inicio"), ("tipo", .str "string")],
          .obj [("clave", .str "smtp_password"), ("valor", .str ""),
            ("descripcion", .null), ("tipo", .str "string")],
          .obj [("clave", .str "whatsapp_access_token"), ("valor", .str "***configurado***"),
            ("descripcion", .str "Token de acceso"), ("tipo", .str "string")]] } :=
  have h := C25_valores_ocultos ordenBinario true (tablaEjemplo "EAAG-1")
    (tablaEjemplo "otro-secreto")
  have h5 := h.2.2.2.2.2.2
    (.cons ⟨rfl, rfl, rfl, Or.inr ⟨by decide, by decide, by decide⟩⟩
      (.cons ⟨rfl, rfl, rfl, Or.inl rfl⟩ (.cons ⟨rfl, rfl, rfl, Or.inl rfl⟩ .nil)))
  ⟨h5.1, h5.2, by decide, by decide, h.2.2.2.1 _ (by decide!)⟩

/-- C26, refuted as stated: a change of field messages introduces the
well-formed first message of an unseen number together with a delivered status
for it, and carries a contact hint whose first entry has no profile. The
message is processed first and stores nothing, so the status finds no row: the
mensajes table is as before and no timestamp is set. -/
theorem C26_contraejemplo :
    eventoBienFormado eventoOtro = true ∧
    almacenConMensaje.mensajesCon (eventoOtro.campo "id") = [] ∧
    cambioSinPerfil.campo "field" = .str "messages" ∧
    (cambioSinPerfil.campo "value").campo "messages" = .arr [eventoOtro] ∧
    (cambioSinPerfil.campo "value").campo "statuses" =
      .arr [eventoEstado "wamid.5" "delivered"] ∧
    (procesarChange (bd esquemaEstricto) cambioSinPerfil almacenConMensaje).2.mensajes =
      almacenConMensaje.mensajes :=
  ⟨by decide, by decide, by decide, by decide, by decide, by decide⟩

/-- C26, amended (messages before statuses within a change): for every store
behaviour, a change of field messages whose value holds a messages list and a
statuses list is processed by running procesarMensajeEntrante on every
message in list order and then procesarEstadoMensaje on every status in list
order; so on the relational store a delivered or read status for a well-formed
message introduced in the same change, whose insert parameters are all defined
and whose external id the store accepts, with a contact hint that is absent,
empty or leads with a profile name, sets the timestamp on the newly stored
row. -/
theorem C26_mensajes_antes_que_estados {σ : Type} (db : Db σ) (t : σ) (esq : Esquema)
    (s : Almacen) (change value : JVal) (ms sts : List JVal)
    (hf : change.campo "field" = .str "messages") (hv : change.campo "value" = value)
    (hms : value.campo "messages" = .arr ms) (hsts : value.campo "statuses" = .arr sts) :
    procesarChange db change t =
      (.ok (), sts.foldl (fun u st => (procesarEstadoMensaje db st u).2)
        (ms.foldl (fun u m => (procesarMensajeEntrante db m (value.campo "contacts") u).2)
          t)) ∧
    ∀ m st : JVal, ms = [m] → sts = [st] → eventoCompleto m = true →
      contactsBienFormado (value.campo "contacts") = true →
      (esq.mensajeIdUnico = true → s.mensajesCon (m.campo "id") = []) →
      st.esObjeto = true → st.campo "id" = m.campo "id" →
      ∃ x conversacionId, extraerContenido m = .ok x ∧
        (st.campo "status" = .str "delivered" →
          (procesarChange (bd esq) change s).2.mensajes =
            s.mensajes.map (fun r =>
              if r.whatsapp_message_id = m.campo "id" then
                { r with fecha_entrega := some s.ahora }
              else r) ++
            [{ s.mensajeNuevo (parametros m x conversacionId) with
               fecha_entrega := some s.ahora }]) ∧
        (st.campo "status" = .str "read" →
          (procesarChange (bd esq) change s).2.mensajes =
            s.mensajes.map (fun r =>
              if r.whatsapp_message_id = m.campo "id" then
                { r with fecha_lectura := some s.ahora }
              else r) ++
            [{ s.mensajeNuevo (parametros m x conversacionId) with
               fecha_lectura := some s.ahora }]) := by
  refine ⟨procesarChange_listas db t change value ms sts hf hv hms hsts, ?_⟩
  intro m st hm1 hs1 hm hc hfresco hso hsid
  subst hm1 hs1
  obtain ⟨x, cid, hx, hfila⟩ :=
    fila_almacenada_bienFormado esq s m (value.campo "contacts") hm hc hfresco
  obtain ⟨mid, hmid⟩ : ∃ mid, m.campo "id" = .str mid := by
    have := id_cadena m (completo_bienFormado m hm)
    cases h : m.campo "id" <;> simp_all [esCadena]
  have hahora := ahora_tras_recibir esq m (value.campo "contacts") s
  have hsnd : (procesarChange (bd esq) change s).2 =
      (procesarEstadoMensaje (bd esq) st (recibir esq m (value.campo "contacts") s)).2 := by
    rw [procesarChange_listas (bd esq) s change value [m] [st] hf hv hms hsts]
    rfl
  refine ⟨x, cid, hx, fun hst => ?_, fun hst => ?_⟩
  · rw [hsnd, recibirEstado_objeto esq st _ hso, hst, hsid, hmid]
    have hu : updateField (.str "delivered") = "fecha_entrega = NOW()" := by decide
    simp only [hu]
    rw [if_neg (by decide)]
    simp only [hfila, hahora, List.map_append, List.map_cons, List.map_nil, marcar_entrega]
    simp [mensajeNuevo, parametros, hmid]
    exact fun a _ => marcar_entrega _ _ a
  · rw [hsnd, recibirEstado_objeto esq st _ hso, hst, hsid, hmid]
    have hu : updateField (.str "read") = "fecha_lectura = NOW()" := by decide
    simp only [hu]
    rw [if_neg (by decide)]
    simp only [hfila, hahora, List.map_append, List.map_cons, List.map_nil, marcar_lectura]
    simp [mensajeNuevo, parametros, hmid]
    exact fun a _ => marcar_lectura _ _ a

theorem C26_mensajes_antes_que_estados_witness :
    procesarChange (bd esquemaEstricto) (cambioConEstado "delivered") almacenConMensaje =
      (.ok (), recibirEstado esquemaEstricto (eventoEstado "wamid.2" "delivered")
        (recibir esquemaEstricto eventoSigo pistaAna almacenConMensaje)) ∧
    ∃ x conversacionId, extraerContenido eventoSigo = .ok x ∧
      (procesarChange (bd esquemaEstricto) (cambioConEstado "delivered")
          almacenConMensaje).2.mensajes =
        almacenConMensaje.mensajes.map (fun r =>
          if r.whatsapp_message_id = eventoSigo.campo "id" then
            { r with fecha_entrega := some almacenConMensaje.ahora }
          else r) ++
        [{ almacenConMensaje.mensajeNuevo (parametros eventoSigo x conversacionId) with
           fecha_entrega := some almacenConMensaje.ahora }] :=
  have h := C26_mensajes_antes_que_estados (bd esquemaEstricto) almacenConMensaje
    esquemaEstricto almacenConMensaje (cambioConEstado "delivered")
    ((cambioConEstado "delivered").campo "value") [eventoSigo]
    [eventoEstado "wamid.2" "delivered"] (by decide) rfl (by decide) (by decide)
  ⟨h.1,
    match h.2 eventoSigo (eventoEstado "wamid.2" "delivered") rfl rfl (by decide) (by decide)
      (fun _ => by decide) (by decide) (by decide) with
    | ⟨x, conversacionId, hx, hd, _⟩ => ⟨x, conversacionId, hx, hd (by decide)⟩⟩

/-- C27 (statuses without an effect issue no update): for every store
behaviour and every status event whose status is none of delivered, read and
failed (sent, any other value, a missing status, a null event),
procesarEstadoMensaje returns normally and leaves the store exactly as it
was. -/
theorem C27_estado_sin_efecto {σ : Type} (db : Db σ) (status : JVal) (s : σ)
    (h1 : status.campo "status" ≠ .str "delivered") (h2 : status.campo "status" ≠ .str "read")
    (h3 : status.campo "status" ≠ .str "failed") :
    procesarEstadoMensaje db status s = (.ok (), s) := by
  unfold procesarEstadoMensaje atrapar procesarEstadoMensajeCuerpo
  cases hn : status.noNulo with
  | false =>
    obtain ⟨e, he⟩ := prop_nulo status "id" hn
    simp [bind_apply, he]
  | true =>
    simp [bind_apply, prop_noNulo _ _ hn, updateField, h1, h2, h3]

theorem C27_estado_sin_efecto_witness :
    procesarEstadoMensaje (bd esquemaEstricto) (eventoEstado "wamid.1" "sent")
        almacenConMensaje = (.ok (), almacenConMensaje) ∧
    procesarEstadoMensaje (bd esquemaEstricto) (.obj [("id", .str "wamid.1")])
        almacenConMensaje = (.ok (), almacenConMensaje) ∧
    almacenConMensaje.mensajesCon (.str "wamid.1") = [mensajeHola] :=
  ⟨C27_estado_sin_efecto _ _ _ (by decide) (by decide) (by decide),
    C27_estado_sin_efecto _ _ _ (by decide) (by decide) (by decide), by decide⟩

/-- C28 (content-extraction failure is atomic): for every store behaviour and
every event that is null or undefined, or of a known kind (text, image,
document, audio, video, location) whose payload of that kind is missing or
null, content extraction throws and procesarMensajeEntrante returns normally
with the store exactly as it was. -/
theorem C28_extraccion_atomica {σ : Type} (db : Db σ) (message contacts : JVal) (s : σ)
    (h : message.noNulo = false ∨
      ∃ t ∈ tiposConocidos, message.campo "type" = .str t ∧ (message.campo t).noNulo = false) :
    esOk (extraerContenido message) = false ∧
    procesarMensajeEntrante db message contacts s = (.ok (), s) := by
  have hx := extraer_sin_carga message h
  refine ⟨hx, ?_⟩
  cases hc : extraerContenido message with
  | ok x => rw [hc] at hx; cases hx
  | error e => exact procesarMensajeEntrante_extraccion_fallida db message contacts s e hc

theorem C28_extraccion_atomica_witness :
    (procesarMensajeEntrante (bd esquemaEstricto) eventoSinTexto pistaAna almacenConMensaje =
      (.ok (), almacenConMensaje) ∧
    procesarMensajeEntrante (bd esquemaEstricto) eventoSinImagen pistaAna almacenConMensaje =
      (.ok (), almacenConMensaje)) ∧
    procesarMensajeEntrante (bd esquemaEstricto) .null pistaAna Almacen.vacio =
      (.ok (), Almacen.vacio) ∧
    procesarMensajeEntrante (bd esquemaEstricto) .undefined pistaAna Almacen.vacio =
      (.ok (), Almacen.vacio) :=
  ⟨⟨(C28_extraccion_atomica _ eventoSinTexto _ _
      (Or.inr ⟨"text", by decide, by decide, by decide⟩)).2,
    (C28_extraccion_atomica _ eventoSinImagen _ _
      (Or.inr ⟨"image", by decide, by decide, by decide⟩)).2⟩,
    (C28_extraccion_atomica _ .null _ _ (Or.inl rfl)).2,
    (C28_extraccion_atomica _ .undefined _ _ (Or.inl rfl)).2⟩

/-- C29 (no rollback on a failed message insert): for a well-formed message
whose external id is already stored (with the uniqueness constraint on it),
from a known contact none of whose conversations is open,
procesarMensajeEntrante sets the fecha_ultima_interaccion of the contact,
appends a conversation in estado nuevo for it and stores no mensajes row; in
a store with key integrity no message belongs to the new conversation. -/
theorem C29_sin_reversion (esq : Esquema) (s : Almacen) (message contacts : JVal)
    (k : Contacto) (resto : List Contacto)
    (hm : eventoBienFormado message = true)
    (hu : esq.mensajeIdUnico = true)
    (hk : s.contactosCon (message.campo "from") = k :: resto)
    (hcerradas : s.abiertasDe k.id = [])
    (hrep : s.mensajesCon (message.campo "id") ≠ []) :
    ∃ c : Conversacion, c.estado = "nuevo" ∧ c.contacto_id = k.id ∧ c.id = s.sigConversacion ∧
      recibir esq message contacts s =
        { s with contactos := s.contactos.map (tocarContacto k.id s.ahora),
                 conversaciones := s.conversaciones ++ [c],
                 sigConversacion := s.sigConversacion + 1 } ∧
      tocarContacto k.id s.ahora k = { k with fecha_ultima_interaccion := some s.ahora } ∧
      (s.Coherente → ∀ r ∈ (recibir esq message contacts s).mensajes,
        r.conversacion_id ≠ c.id) := by
  obtain ⟨x, _, hcuerpo⟩ := cuerpo_bienFormado (bd esq) message contacts hm
  have h1 := resolverContacto_existente esq contacts _ s k resto hk
  have hab : Almacen.abiertasDe
      { s with contactos := s.contactos.map (tocarContacto k.id s.ahora) } k.id = [] :=
    hcerradas
  obtain ⟨numero, _, ht⟩ := aCadena_cadena _ (from_cadena message hm)
  have h2 := resolverConversacion_nueva esq k.id (message.campo "from") numero _ hab ht
  have hs : recibir esq message contacts s =
      { s with contactos := s.contactos.map (tocarContacto k.id s.ahora),
               conversaciones := s.conversaciones ++ [s.conversacionNueva k.id
                 ("Conversación con " ++ numero)],
               sigConversacion := s.sigConversacion + 1 } := by
    simp only [recibir, procesarMensajeEntrante, atrapar_snd, hcuerpo]
    rw [bind_ok _ _ _ _ _ h1, bind_ok _ _ _ _ _ h2,
      insertMensaje_repetido esq _ _ hu (by exact hrep)]
    rfl
  refine ⟨_, rfl, rfl, rfl, hs, by simp [tocarContacto], fun hcoh r hr => ?_⟩
  rw [hs] at hr
  have := (hcoh.2.2 r hr).2
  simp only [conversacionNueva]
  omega

theorem C29_sin_reversion_witness :
    ∃ c : Conversacion, c.estado = "nuevo" ∧ c.contacto_id = contactoAna.id ∧
      c.id = almacenCerrado.sigConversacion ∧
      recibir esquemaEstricto eventoHola pistaAna (almacenCerrado.conReloj 7) =
        { almacenCerrado.conReloj 7 with
          contactos := almacenCerrado.contactos.map (tocarContacto contactoAna.id 7),
          conversaciones := almacenCerrado.conversaciones ++ [c],
          sigConversacion := almacenCerrado.sigConversacion + 1 } ∧
      tocarContacto contactoAna.id 7 contactoAna =
        { contactoAna with fecha_ultima_interaccion := some 7 } ∧
      ((almacenCerrado.conReloj 7).Coherente →
        ∀ r ∈ (recibir esquemaEstricto eventoHola pistaAna (almacenCerrado.conReloj 7)).mensajes,
          r.conversacion_id ≠ c.id) :=
  C29_sin_reversion esquemaEstricto (almacenCerrado.conReloj 7) eventoHola pistaAna
    contactoAna [] (by decide) rfl (by decide) (by decide) (by decide)

/-- C30 (the per-event handlers are total): for every store behaviour and
every message, contacts and status value, procesarMensajeEntrante and
procesarEstadoMensaje return normally to their caller. -/
theorem C30_manejadores_totales {σ : Type} (db : Db σ) (message contacts status : JVal)
    (s : σ) :
    (procesarMensajeEntrante db message contacts s).1 = .ok () ∧
    (procesarEstadoMensaje db status s).1 = .ok () :=
  ⟨atrapar_fst _ _, atrapar_fst _ _⟩

end Wappnc
